import Mathlib

/-! Global DDL/DML interlock of BDR (`bdr_locks.c`)

A shallow embedding of the lock state machine of `bdr_locks.c`:

* the shared per-database slot `BdrLocksDBState`, the catalog table
  `bdr_global_locks` (a list of rows) and the backend-local flag
  `this_xact_acquired_lock`;
* every routine of the file as a function from the state before to the state
  after, the list of externally visible effects (messages handed to
  `LogStandbyMessage`, latches set, warnings) and the error raised, if any;
* the routines that release the LWLock and sleep (`bdr_acquire_ddl_lock`,
  `bdr_locks_check_dml`) are cut at the points where the lock is released:
  what other processes do to the shared state in between is an explicit input.

Conventions: `int` counters are natural numbers (each decrement in the source
is guarded by `> 0`); `XLogRecPtr`, `Oid`, `TimeLineID`, `RepNodeId` and the
system identifier are natural numbers; a latch is identified by the `pgprocno`
of the process that owns it.
-/

namespace BdrLocks

/-! ## Data model -/

/-- Modelled from the spec: the enum `BDRLockType` is declared in `bdr_locks.h`,
which is not among the sources; the spec gives the ordered enum
`None < Ddl < Write`. -/
inductive BDRLockType where
  | BDR_LOCK_NOLOCK
  | BDR_LOCK_DDL
  | BDR_LOCK_WRITE
  deriving DecidableEq, Repr

/-- Numeric value of the enum constant, used by the comparisons `>=` and `>`. -/
def BDRLockType.val : BDRLockType → Nat
  | .BDR_LOCK_NOLOCK => 0
  | .BDR_LOCK_DDL => 1
  | .BDR_LOCK_WRITE => 2

abbrev RepNodeId := Nat
abbrev XLogRecPtr := Nat
abbrev Oid := Nat
abbrev TimeLineID := Nat
/-- A process, named by its `pgprocno`; its latch is `proc->procLatch`. -/
abbrev PGPROC := Nat

def InvalidRepNodeId : RepNodeId := 0
def InvalidXLogRecPtr : XLogRecPtr := 0

/-- The triple `(sysid, tli, datid)` that identifies a node on the wire and in
the lock table. -/
structure BdrNodeId where
  sysid : Nat
  tli : TimeLineID
  datid : Oid
  deriving DecidableEq, Repr

/-- Shared memory slot, `struct BdrLocksDBState`. -/
structure BdrLocksDBState where
  in_use : Bool
  dboid : Oid
  nnodes : Nat
  locked_and_loaded : Bool
  lockcount : Nat
  lock_holder : RepNodeId
  lock_type : BDRLockType
  acquire_confirmed : Nat
  acquire_declined : Nat
  replay_confirmed : Nat
  replay_confirmed_lsn : XLogRecPtr
  requestor : Option PGPROC
  waiters : List PGPROC
  deriving DecidableEq, Repr

/-- The slot as `memset(bdr_locks_ctl, 0, ...)` leaves it in
`bdr_locks_shmem_startup`. -/
def BdrLocksDBState.zero : BdrLocksDBState :=
  { in_use := false, dboid := 0, nnodes := 0, locked_and_loaded := false,
    lockcount := 0, lock_holder := InvalidRepNodeId,
    lock_type := .BDR_LOCK_NOLOCK, acquire_confirmed := 0,
    acquire_declined := 0, replay_confirmed := 0,
    replay_confirmed_lsn := InvalidXLogRecPtr, requestor := none, waiters := [] }

/-- One row of `bdr_global_locks` (`values[0..9]` of the source; the name
column `values[8]` is always null). The system identifiers are stored as
decimal text in the table and are kept as numbers here. -/
structure LockRow where
  lock_type : String
  holder : BdrNodeId
  acquired_at : Nat
  owner : BdrNodeId
  state : String
  deriving DecidableEq, Repr

/-- Payload that follows the prologue written by `bdr_prepare_message`. -/
inductive BdrMessagePayload where
  | BDR_MESSAGE_START
  | BDR_MESSAGE_ACQUIRE_LOCK (lock_type : BDRLockType)
  | BDR_MESSAGE_RELEASE_LOCK (lock : BdrNodeId)
  | BDR_MESSAGE_CONFIRM_LOCK (lock : BdrNodeId) (lock_type : BDRLockType)
  | BDR_MESSAGE_DECLINE_LOCK (lock : BdrNodeId) (lock_type : BDRLockType)
  | BDR_MESSAGE_REQUEST_REPLAY_CONFIRM (lsn : XLogRecPtr)
  | BDR_MESSAGE_REPLAY_CONFIRM (lsn : XLogRecPtr)
  deriving DecidableEq, Repr

/-- A message as built in a `StringInfo`: the prologue of
`bdr_prepare_message` carries the sending node, the rest is the payload. -/
structure BdrMessage where
  origin : BdrNodeId
  payload : BdrMessagePayload
  deriving DecidableEq, Repr

/-- The `elog(WARNING, ...)` and `ereport(WARNING, ...)` calls of the file. -/
inductive BdrWarning where
  | releasing_unacquired_global_lock
  | release_without_lock_entry
  | unexpected_lock_type
  | row_without_memory_state
  deriving DecidableEq, Repr

/-- Errors raised with `ereport(ERROR, ...)`, `elog(ERROR, ...)`,
`elog(PANIC, ...)`, by `CHECK_FOR_INTERRUPTS` and by `proc_exit`. -/
inductive BdrError where
  | not_configured
  | too_many_databases
  | rejected_by_configuration
  | no_peer_nodes
  | locked_by_another_node (holder : BdrNodeId)
  | declined_by_another_node
  | unknown_lock_type
  | panic_duplicate_lock
  | panic_no_lock_table_entry
  | panic_confirmation_for_unknown_lock
  | panic_unknown_lockstate
  | query_canceled
  | postmaster_death
  deriving DecidableEq, Repr

/-- The error codes used by the file. -/
inductive SqlErrorCode where
  | ERRCODE_OBJECT_NOT_IN_PREREQUISITE_STATE
  | ERRCODE_CONFIGURATION_LIMIT_EXCEEDED
  | ERRCODE_LOCK_NOT_AVAILABLE
  | ERRCODE_INTERNAL_ERROR
  | ERRCODE_QUERY_CANCELED
  deriving DecidableEq, Repr

/-- The `errcode(...)` attached to each error of the file. -/
def BdrError.errcode : BdrError → SqlErrorCode
  | .not_configured => .ERRCODE_OBJECT_NOT_IN_PREREQUISITE_STATE
  | .too_many_databases => .ERRCODE_CONFIGURATION_LIMIT_EXCEEDED
  | .rejected_by_configuration => .ERRCODE_OBJECT_NOT_IN_PREREQUISITE_STATE
  | .no_peer_nodes => .ERRCODE_OBJECT_NOT_IN_PREREQUISITE_STATE
  | .locked_by_another_node _ => .ERRCODE_LOCK_NOT_AVAILABLE
  | .declined_by_another_node => .ERRCODE_LOCK_NOT_AVAILABLE
  | .query_canceled => .ERRCODE_QUERY_CANCELED
  | _ => .ERRCODE_INTERNAL_ERROR

/-- Externally visible actions of a routine, in program order. -/
inductive Effect where
  | LogStandbyMessage (msg : BdrMessage) (transactional : Bool)
  | SetLatch (proc : PGPROC)
  | warning (w : BdrWarning)
  | cancel_conflicting_transactions
  deriving DecidableEq, Repr

/-- What a process sees besides the shared slot and the lock table: its own
identity, the GUCs, and the lookups of `bdr.c` that are not part of this file
(`bdr_fetch_sysid_via_node_id`, `bdr_fetch_node_id_via_sysid`), the clock and
the WAL insert position. -/
structure Env where
  sysid : Nat
  ThisTimeLineID : TimeLineID
  MyDatabaseId : Oid
  MyProc : PGPROC
  replication_origin_id : RepNodeId
  bdr_permit_ddl_locking : Bool
  bdr_skip_ddl_locking : Bool
  bdr_fetch_sysid_via_node_id : RepNodeId → BdrNodeId
  bdr_fetch_node_id_via_sysid : BdrNodeId → RepNodeId
  GetCurrentTimestamp : Nat
  GetXLogInsertRecPtr : Nat → XLogRecPtr

/-- The node identifier `bdr_prepare_message` writes: `GetSystemIdentifier()`,
`ThisTimeLineID`, `MyDatabaseId`. -/
def Env.self (env : Env) : BdrNodeId :=
  { sysid := env.sysid, tli := env.ThisTimeLineID, datid := env.MyDatabaseId }

/-- The shared slot of this database together with the table
`bdr_global_locks`. -/
structure Node where
  db : BdrLocksDBState
  locks : List LockRow
  deriving DecidableEq, Repr

/-- Backend-local statics: `this_xact_acquired_lock` and the `registered`
flag of `register_xact_callback`. -/
structure Backend where
  this_xact_acquired_lock : Bool
  registered : Bool
  deriving DecidableEq, Repr

/-- Result of a routine that runs in an apply or per-db worker. -/
structure Out where
  node : Node
  effects : List Effect
  error : Option BdrError
  deriving DecidableEq, Repr

/-! ## Small helpers -/

def bdr_lock_type_to_name : BDRLockType → String
  | .BDR_LOCK_NOLOCK => "nolock"
  | .BDR_LOCK_DDL => "ddl_lock"
  | .BDR_LOCK_WRITE => "write_lock"

def bdr_lock_name_to_type (lock_type : String) : Except BdrError BDRLockType :=
  if lock_type == "nolock" then .ok .BDR_LOCK_NOLOCK
  else if lock_type == "ddl_lock" then .ok .BDR_LOCK_DDL
  else if lock_type == "write_lock" then .ok .BDR_LOCK_WRITE
  else .error .unknown_lock_type

/-- Push at the head of the `slist` of waiters. -/
def bdr_locks_addwaiter (db : BdrLocksDBState) (proc : PGPROC) : BdrLocksDBState :=
  { db with waiters := proc :: db.waiters }

/-- The loop of `bdr_locks_on_unlock`: pop the head and set its latch until
the list is empty. -/
def bdr_locks_on_unlock_loop : List PGPROC → List Effect
  | [] => []
  | proc :: rest => Effect.SetLatch proc :: bdr_locks_on_unlock_loop rest

def bdr_locks_on_unlock (db : BdrLocksDBState) : BdrLocksDBState × List Effect :=
  ({ db with waiters := [] }, bdr_locks_on_unlock_loop db.waiters)

/-- Lookup of the slot of `MyDatabaseId`. The array `bdr_locks_ctl->dbstate`
is represented by the one slot this database can occupy. -/
def bdr_locks_find_database (env : Env) (db : BdrLocksDBState) (create : Bool) :
    Except BdrError BdrLocksDBState :=
  if db.in_use && db.dboid == env.MyDatabaseId then .ok db
  else if !create then .error .not_configured
  else if !db.in_use then .ok { db with dboid := env.MyDatabaseId, in_use := true }
  else .error .too_many_databases

def bdr_locks_find_my_database (env : Env) (db : BdrLocksDBState) (create : Bool) :
    Except BdrError BdrLocksDBState :=
  bdr_locks_find_database env db create

def bdr_locks_set_nnodes (db : BdrLocksDBState) (nnodes : Nat) : BdrLocksDBState :=
  { db with nnodes := nnodes }

def bdr_prepare_message (env : Env) (payload : BdrMessagePayload) : BdrMessage :=
  { origin := env.self, payload := payload }

/-- Rows returned by the scan of `locks_begin_scan`: equality on the three
holder columns. -/
def locks_begin_scan (locks : List LockRow) (k : BdrNodeId) : List LockRow :=
  locks.filter (fun r => r.holder == k)

/-- Modelled from the spec: the unique index of `bdr_global_locks` is declared
in the extension script, which is not among the sources; the spec gives the
unique key `(holder_sysid, holder_tli, holder_dbid)`. The insert fails with
`ERRCODE_UNIQUE_VIOLATION` (`none`) when a row with the same holder exists. -/
def simple_heap_insert (locks : List LockRow) (tup : LockRow) : Option (List LockRow) :=
  if locks.any (fun r => r.holder == tup.holder) then none else some (locks ++ [tup])

def check_is_my_origin_node (env : Env) (id : BdrNodeId) : Bool :=
  let replay := env.bdr_fetch_sysid_via_node_id env.replication_origin_id
  if id.sysid != replay.sysid || id.tli != replay.tli || id.datid != replay.datid then false
  else true

def check_is_my_node (env : Env) (id : BdrNodeId) : Bool :=
  if id.sysid != env.sysid || id.tli != env.ThisTimeLineID || id.datid != env.MyDatabaseId
  then false else true

/-! ## Transaction end -/

/-- The transaction events of PostgreSQL (`access/xact.h`); only commit and
abort matter to the hook. -/
inductive XactEvent where
  | XACT_EVENT_COMMIT
  | XACT_EVENT_ABORT
  | XACT_EVENT_PREPARE
  | XACT_EVENT_PRE_COMMIT
  | XACT_EVENT_PRE_PREPARE
  deriving DecidableEq, Repr

/-- Result of a routine that runs in a user backend. -/
structure BackendOut where
  backend : Backend
  node : Node
  effects : List Effect
  error : Option BdrError
  deriving DecidableEq, Repr

def bdr_lock_xact_callback (env : Env) (b : Backend) (node : Node) (event : XactEvent) :
    BackendOut :=
  if !b.this_xact_acquired_lock then
    { backend := b, node := node, effects := [], error := none }
  else if event == .XACT_EVENT_ABORT || event == .XACT_EVENT_COMMIT then
    let s := bdr_prepare_message env (.BDR_MESSAGE_RELEASE_LOCK env.self)
    let db := node.db
    let (db1, w) :=
      if db.lockcount > 0 then ({ db with lockcount := db.lockcount - 1 }, [])
      else (db, [Effect.warning .releasing_unacquired_global_lock])
    let db2 := { db1 with
      lock_type := .BDR_LOCK_NOLOCK, replay_confirmed := 0,
      replay_confirmed_lsn := InvalidXLogRecPtr, requestor := none }
    let (db3, wake) := if db2.lockcount == 0 then bdr_locks_on_unlock db2 else (db2, [])
    { backend := { b with this_xact_acquired_lock := false },
      node := { node with db := db3 },
      effects := [Effect.LogStandbyMessage s false] ++ w ++ wake,
      error := none }
  else
    { backend := b, node := node, effects := [], error := none }

def register_xact_callback (b : Backend) : Backend :=
  if !b.registered then { b with registered := true } else b

/-! ## Replay confirmation and lock confirmation -/

def bdr_request_replay_confirmation (env : Env) (db : BdrLocksDBState) :
    BdrLocksDBState × List Effect :=
  let wait_for_lsn := env.GetXLogInsertRecPtr 0
  let s := bdr_prepare_message env (.BDR_MESSAGE_REQUEST_REPLAY_CONFIRM wait_for_lsn)
  ({ db with replay_confirmed := 0, replay_confirmed_lsn := wait_for_lsn },
   [Effect.LogStandbyMessage s false])

/-- Replace the rows of holder `k` by `f` of them (`simple_heap_update` on
each tuple the scan returns). -/
def locks_update (locks : List LockRow) (k : BdrNodeId) (f : LockRow → LockRow) :
    List LockRow :=
  locks.map (fun r => if r.holder == k then f r else r)

/-- The message is logged transactionally and the row update commits in the
same transaction: when the routine panics neither becomes visible. -/
def bdr_send_confirm_lock (env : Env) (node : Node) : Out :=
  let db := { node.db with
    replay_confirmed := 0, replay_confirmed_lsn := InvalidXLogRecPtr, requestor := none }
  let replay := env.bdr_fetch_sysid_via_node_id db.lock_holder
  let s := bdr_prepare_message env (.BDR_MESSAGE_CONFIRM_LOCK replay db.lock_type)
  match locks_begin_scan node.locks replay with
  | [] =>
    { node := { node with db := db }, effects := [],
      error := some .panic_confirmation_for_unknown_lock }
  | [_] =>
    { node := { db := db,
                locks := locks_update node.locks replay
                  (fun r => { r with state := "acquired" }) },
      effects := [Effect.LogStandbyMessage s true], error := none }
  | _ :: _ :: _ =>
    { node := { node with db := db }, effects := [], error := some .panic_duplicate_lock }

/-! ## Handlers of the apply worker -/

/-- The `decline:` label of `bdr_process_acquire_ddl_lock`. -/
def bdr_process_acquire_ddl_lock_decline (env : Env) (node : Node)
    (lock_type : BDRLockType) : Out :=
  let replay := env.bdr_fetch_sysid_via_node_id node.db.lock_holder
  let s := bdr_prepare_message env (.BDR_MESSAGE_DECLINE_LOCK replay lock_type)
  { node := node, effects := [Effect.LogStandbyMessage s false], error := none }

/-- The tail shared by the grant and the upgrade branch: cancel and ask for
replay confirmation for a write lock, confirm at once otherwise. -/
def bdr_process_acquire_ddl_lock_granted (env : Env) (node : Node)
    (lock_type : BDRLockType) : Out :=
  if lock_type.val >= BDRLockType.BDR_LOCK_WRITE.val then
    let (db, eff) := bdr_request_replay_confirmation env node.db
    { node := { node with db := db },
      effects := Effect.cancel_conflicting_transactions :: eff, error := none }
  else
    bdr_send_confirm_lock env node

def bdr_process_acquire_ddl_lock (env : Env) (node : Node) (origin : BdrNodeId)
    (lock_type : BDRLockType) : Out :=
  let lock_name := bdr_lock_type_to_name lock_type
  if !check_is_my_origin_node env origin then
    { node := node, effects := [], error := none }
  else
  match bdr_locks_find_my_database env node.db false with
  | .error e => { node := node, effects := [], error := some e }
  | .ok _ =>
  if node.db.lockcount == 0 then
    let tup : LockRow :=
      { lock_type := lock_name, holder := origin,
        acquired_at := env.GetCurrentTimestamp, owner := env.self, state := "catchup" }
    match simple_heap_insert node.locks tup with
    | none => bdr_process_acquire_ddl_lock_decline env node lock_type
    | some locks =>
      let db := { node.db with
        lockcount := node.db.lockcount + 1, lock_type := lock_type,
        lock_holder := env.replication_origin_id }
      bdr_process_acquire_ddl_lock_granted env { db := db, locks := locks } lock_type
  else if node.db.lock_holder == env.replication_origin_id
      && lock_type.val > node.db.lock_type.val then
    let replay := env.bdr_fetch_sysid_via_node_id node.db.lock_holder
    match locks_begin_scan node.locks replay with
    | [] => { node := node, effects := [], error := some .panic_no_lock_table_entry }
    | [_] =>
      let locks := locks_update node.locks replay (fun r => { r with lock_type := lock_name })
      let db := { node.db with lock_type := lock_type }
      bdr_process_acquire_ddl_lock_granted env { db := db, locks := locks } lock_type
    | _ :: _ :: _ => { node := node, effects := [], error := some .panic_duplicate_lock }
  else
    bdr_process_acquire_ddl_lock_decline env node lock_type

def bdr_process_release_ddl_lock (env : Env) (node : Node) (origin : BdrNodeId)
    (_lock : BdrNodeId) : Out :=
  if !check_is_my_origin_node env origin then
    { node := node, effects := [], error := none }
  else
  match bdr_locks_find_my_database env node.db false with
  | .error e => { node := node, effects := [], error := some e }
  | .ok _ =>
  let found := (locks_begin_scan node.locks origin).length > 0
  let locks := node.locks.filter (fun r => !(r.holder == origin))
  let w := if !found then [Effect.warning .release_without_lock_entry] else []
  let db := node.db
  let db1 :=
    if db.lockcount > 0 then
      { db with lockcount := db.lockcount - 1, lock_holder := InvalidRepNodeId }
    else db
  let latch := db1.requestor
  let db2 := { db1 with
    lock_type := .BDR_LOCK_NOLOCK, replay_confirmed := 0,
    replay_confirmed_lsn := InvalidXLogRecPtr, requestor := none }
  let (db3, wake) := if db2.lockcount == 0 then bdr_locks_on_unlock db2 else (db2, [])
  let notify := match latch with
    | some l => [Effect.SetLatch l]
    | none => []
  { node := { db := db3, locks := locks }, effects := w ++ wake ++ notify, error := none }

def bdr_process_confirm_ddl_lock (env : Env) (node : Node) (origin : BdrNodeId)
    (lock : BdrNodeId) (lock_type : BDRLockType) : Out :=
  if !check_is_my_origin_node env origin then
    { node := node, effects := [], error := none }
  else if !check_is_my_node env lock then
    { node := node, effects := [], error := none }
  else
  match bdr_locks_find_my_database env node.db false with
  | .error e => { node := node, effects := [], error := some e }
  | .ok _ =>
  if node.db.lock_type != lock_type then
    { node := node, effects := [Effect.warning .unexpected_lock_type], error := none }
  else
    let db := { node.db with acquire_confirmed := node.db.acquire_confirmed + 1 }
    let latch := db.requestor
    { node := { node with db := db },
      effects := (match latch with
        | some l => [Effect.SetLatch l]
        | none => []),
      error := none }

def bdr_process_decline_ddl_lock (env : Env) (node : Node) (origin : BdrNodeId)
    (_lock : BdrNodeId) (lock_type : BDRLockType) : Out :=
  if !check_is_my_origin_node env origin then
    { node := node, effects := [], error := none }
  else
  match bdr_locks_find_my_database env node.db false with
  | .error e => { node := node, effects := [], error := some e }
  | .ok _ =>
  if node.db.lock_type != lock_type then
    { node := node, effects := [Effect.warning .unexpected_lock_type], error := none }
  else
    let db := { node.db with acquire_declined := node.db.acquire_declined + 1 }
    let latch := db.requestor
    { node := { node with db := db },
      effects := (match latch with
        | some l => [Effect.SetLatch l]
        | none => []),
      error := none }

def bdr_process_request_replay_confirm (env : Env) (node : Node) (origin : BdrNodeId)
    (request_lsn : XLogRecPtr) : Out :=
  if !check_is_my_origin_node env origin then
    { node := node, effects := [], error := none }
  else
  match bdr_locks_find_my_database env node.db false with
  | .error e => { node := node, effects := [], error := some e }
  | .ok _ =>
    let s := bdr_prepare_message env (.BDR_MESSAGE_REPLAY_CONFIRM request_lsn)
    { node := node, effects := [Effect.LogStandbyMessage s false], error := none }

def bdr_process_replay_confirm (env : Env) (node : Node) (origin : BdrNodeId)
    (request_lsn : XLogRecPtr) : Out :=
  if !check_is_my_origin_node env origin then
    { node := node, effects := [], error := none }
  else
  match bdr_locks_find_my_database env node.db false with
  | .error e => { node := node, effects := [], error := some e }
  | .ok _ =>
  let (db, quorum_reached) :=
    if node.db.replay_confirmed_lsn == request_lsn then
      let db := { node.db with replay_confirmed := node.db.replay_confirmed + 1 }
      (db, decide (db.replay_confirmed >= db.nnodes))
    else (node.db, false)
  if quorum_reached then bdr_send_confirm_lock env { node with db := db }
  else { node := { node with db := db }, effects := [], error := none }

/-- Body of the scan loop of `bdr_locks_process_remote_startup` for one row
that matched (the row itself is deleted by the caller). -/
def bdr_locks_process_remote_startup_row (acc : BdrLocksDBState × List Effect) :
    BdrLocksDBState × List Effect :=
  let db := acc.1
  let (db1, w) :=
    if db.lockcount == 0 then (db, [Effect.warning .row_without_memory_state])
    else
      ({ db with
          lockcount := db.lockcount - 1, lock_holder := InvalidRepNodeId,
          lock_type := .BDR_LOCK_NOLOCK, replay_confirmed := 0,
          replay_confirmed_lsn := InvalidXLogRecPtr }, [])
  let (db2, wake) := if db1.lockcount == 0 then bdr_locks_on_unlock db1 else (db1, [])
  (db2, acc.2 ++ w ++ wake)

def bdr_locks_process_remote_startup (env : Env) (node : Node) (origin : BdrNodeId) : Out :=
  match bdr_locks_find_my_database env node.db false with
  | .error e => { node := node, effects := [], error := some e }
  | .ok _ =>
    let rows := locks_begin_scan node.locks origin
    let (db, eff) :=
      rows.foldl (fun acc _ => bdr_locks_process_remote_startup_row acc) (node.db, [])
    { node := { db := db, locks := node.locks.filter (fun r => !(r.holder == origin)) },
      effects := eff, error := none }

/-! ## Startup of the per-db worker -/

/-- The scan loop of `bdr_locks_startup`; `k` counts the calls of
`GetXLogInsertRecPtr` made so far. -/
def bdr_locks_startup_rows (env : Env) :
    List LockRow → Nat → BdrLocksDBState → List Effect →
      BdrLocksDBState × List Effect × Option BdrError
  | [], _, db, eff => (db, eff, none)
  | tup :: rest, k, db, eff =>
    let state := tup.state
    let node_id := env.bdr_fetch_node_id_via_sysid tup.holder
    match bdr_lock_name_to_type tup.lock_type with
    | .error e => (db, eff, some e)
    | .ok lock_type =>
      if state == "acquired" then
        bdr_locks_startup_rows env rest k
          { db with lock_holder := node_id, lockcount := db.lockcount + 1,
                    lock_type := lock_type } eff
      else if state == "catchup" then
        let wait_for_lsn := env.GetXLogInsertRecPtr k
        let s := bdr_prepare_message env (.BDR_MESSAGE_REQUEST_REPLAY_CONFIRM wait_for_lsn)
        bdr_locks_startup_rows env rest (k + 1)
          { db with lock_holder := node_id, lockcount := db.lockcount + 1,
                    lock_type := lock_type, replay_confirmed := 0,
                    replay_confirmed_lsn := wait_for_lsn }
          (eff ++ [Effect.LogStandbyMessage s false])
      else (db, eff, some .panic_unknown_lockstate)

def bdr_locks_startup (env : Env) (node : Node) : Out :=
  match bdr_locks_find_my_database env node.db true with
  | .error e => { node := node, effects := [], error := some e }
  | .ok db0 =>
    if db0.locked_and_loaded then
      { node := { node with db := db0 }, effects := [], error := none }
    else
      let db1 := { db0 with waiters := [], nnodes := 0 }
      let s := bdr_prepare_message env .BDR_MESSAGE_START
      let rows := node.locks.filter (fun r => r.owner.datid == db1.dboid)
      match bdr_locks_startup_rows env rows 0 db1 [Effect.LogStandbyMessage s false] with
      | (db2, eff, some e) =>
        { node := { node with db := db2 }, effects := eff, error := some e }
      | (db2, eff, none) =>
        { node := { node with db := { db2 with locked_and_loaded := true } },
          effects := eff, error := none }

/-! ## Acquisition in a user backend -/

/-- Where a call that can block stands. -/
inductive CallStatus where
  | returned
  | error (e : BdrError)
  | waiting
  deriving DecidableEq, Repr

structure AcquireOut where
  backend : Backend
  node : Node
  effects : List Effect
  status : CallStatus
  deriving DecidableEq, Repr

/-- Lines 607 to 695 of `bdr_acquire_ddl_lock`: everything up to the first
`LWLockRelease`. Status `waiting` means the wait loop is entered. -/
def bdr_acquire_ddl_lock_begin (env : Env) (b : Backend) (node : Node)
    (lock_type : BDRLockType) : AcquireOut :=
  match bdr_locks_find_my_database env node.db false with
  | .error e => { backend := b, node := node, effects := [], status := .error e }
  | .ok _ =>
  if b.this_xact_acquired_lock && node.db.lock_type.val >= lock_type.val then
    { backend := b, node := node, effects := [], status := .returned }
  else if !b.this_xact_acquired_lock && !env.bdr_permit_ddl_locking then
    { backend := b, node := node, effects := [],
      status := .error .rejected_by_configuration }
  else if !b.this_xact_acquired_lock && node.db.nnodes == 0 then
    { backend := b, node := node, effects := [], status := .error .no_peer_nodes }
  else
    let b1 := register_xact_callback b
    if !b1.this_xact_acquired_lock && node.db.lockcount > 0 then
      { backend := b1, node := node, effects := [],
        status := .error (.locked_by_another_node
          (env.bdr_fetch_sysid_via_node_id node.db.lock_holder)) }
    else
      let s := bdr_prepare_message env (.BDR_MESSAGE_ACQUIRE_LOCK lock_type)
      let (db1, b2) :=
        if !b1.this_xact_acquired_lock then
          ({ node.db with lockcount := node.db.lockcount + 1 },
           { b1 with this_xact_acquired_lock := true })
        else (node.db, b1)
      let db2 := { db1 with
        acquire_confirmed := 0, acquire_declined := 0,
        requestor := some env.MyProc, lock_type := lock_type }
      { backend := b2, node := { node with db := db2 },
        effects := [Effect.LogStandbyMessage s false], status := .waiting }

/-- What one iteration of the wait loop decides under the LWLock: `error` for
a decline, `returned` for the `break`, `waiting` to sleep on the latch. -/
def bdr_acquire_ddl_lock_poll (db : BdrLocksDBState) : CallStatus :=
  if db.acquire_declined > 0 then .error .declined_by_another_node
  else if db.acquire_confirmed >= db.nnodes then .returned
  else .waiting

/-- Lines 739 to 748: the section after the loop. -/
def bdr_acquire_ddl_lock_finish (db : BdrLocksDBState) : BdrLocksDBState :=
  { db with acquire_confirmed := 0, acquire_declined := 0, requestor := none }

/-- What happens around one sleep of a blocked process: `others` is what the
other processes did to the shared state while this one did not hold the
LWLock, `interrupt` whether `CHECK_FOR_INTERRUPTS` raises, `postmaster_death`
whether `WaitLatch` reports `WL_POSTMASTER_DEATH`. -/
structure Interleave where
  others : Node → Node
  interrupt : Bool
  postmaster_death : Bool

/-- Result of a whole call of `bdr_acquire_ddl_lock`; `polled` lists the
states the wait loop saw under the LWLock, oldest first. -/
structure AcquireCallOut where
  backend : Backend
  node : Node
  effects : List Effect
  status : CallStatus
  polled : List BdrLocksDBState

/-- The wait loop and the section after it. The schedule gives one entry per
iteration; when it runs out the call is still waiting. -/
def bdr_acquire_ddl_lock_wait (b : Backend) (eff : List Effect) :
    Node → List Interleave → List BdrLocksDBState → AcquireCallOut
  | node, [], seen =>
    { backend := b, node := node, effects := eff, status := .waiting, polled := seen }
  | node, i :: rest, seen =>
    let node1 := i.others node
    match bdr_acquire_ddl_lock_poll node1.db with
    | .error e =>
      { backend := b, node := node1, effects := eff, status := .error e,
        polled := seen ++ [node1.db] }
    | .returned =>
      let node2 := match rest with
        | [] => node1
        | j :: _ => j.others node1
      { backend := b, node := { node2 with db := bdr_acquire_ddl_lock_finish node2.db },
        effects := eff, status := .returned, polled := seen ++ [node1.db] }
    | .waiting =>
      if i.postmaster_death then
        { backend := b, node := node1, effects := eff, status := .error .postmaster_death,
          polled := seen ++ [node1.db] }
      else if i.interrupt then
        { backend := b, node := node1, effects := eff, status := .error .query_canceled,
          polled := seen ++ [node1.db] }
      else bdr_acquire_ddl_lock_wait b eff node1 rest (seen ++ [node1.db])

def bdr_acquire_ddl_lock (env : Env) (b : Backend) (node : Node) (lock_type : BDRLockType)
    (sched : List Interleave) : AcquireCallOut :=
  let r := bdr_acquire_ddl_lock_begin env b node lock_type
  match r.status with
  | .waiting => bdr_acquire_ddl_lock_wait r.backend r.effects r.node sched []
  | st =>
    { backend := r.backend, node := r.node, effects := r.effects, status := st, polled := [] }

/-! ## The DML gate -/

/-- The slot of this database has been set up by `bdr_locks_startup`, so that
`bdr_locks_find_my_database(false)` succeeds. -/
def Configured (env : Env) (db : BdrLocksDBState) : Prop :=
  db.in_use = true ∧ db.dboid = env.MyDatabaseId

instance (env : Env) (db : BdrLocksDBState) : Decidable (Configured env db) := by
  unfold Configured; exact inferInstance

/-- Identity of the `i`-th node of an example cluster. -/
def exampleNodeId (i : Nat) : BdrNodeId := { sysid := 1000 + i, tli := 1, datid := 16384 }

/-- Process environment on node `i` of an example cluster: an apply worker
for peer `j` has `replication_origin_id = j + 1`; a user backend has the
invalid origin. `bdr_fetch_sysid_via_node_id` maps the invalid origin to the
local node. -/
def exampleEnv (i : Nat) (origin : RepNodeId) (permit : Bool) : Env :=
  { sysid := 1000 + i, ThisTimeLineID := 1, MyDatabaseId := 16384,
    MyProc := 10 * i + origin,
    replication_origin_id := origin,
    bdr_permit_ddl_locking := permit, bdr_skip_ddl_locking := false,
    bdr_fetch_sysid_via_node_id := fun n => if n = 0 then exampleNodeId i else exampleNodeId (n - 1),
    bdr_fetch_node_id_via_sysid := fun k =>
      if k = exampleNodeId i then 0 else k.sysid - 1000 + 1,
    GetCurrentTimestamp := 0,
    GetXLogInsertRecPtr := fun k => 4096 + k }

/-- The slot after `bdr_locks_startup` on an empty lock table followed by
`bdr_locks_set_nnodes nnodes`. -/
def exampleReady (nnodes : Nat) : BdrLocksDBState :=
  { BdrLocksDBState.zero with
    in_use := true, dboid := 16384, locked_and_loaded := true, nnodes := nnodes }

def freshBackend : Backend := { this_xact_acquired_lock := false, registered := false }

/-! ## A cluster of nodes

Each node logs its messages to its own stream; the apply worker of node `i`
for peer `j` handles the stream of `j` in order, at its own pace. -/

/-- Modelled from the spec: the inbound demux (`bdr_apply.c`, not among the
sources) "parses the prologue and dispatches to a Coordinator entry point
carrying the origin NodeId". -/
def bdr_process_remote_message (env : Env) (node : Node) (msg : BdrMessage) : Out :=
  match msg.payload with
  | .BDR_MESSAGE_START => bdr_locks_process_remote_startup env node msg.origin
  | .BDR_MESSAGE_ACQUIRE_LOCK t => bdr_process_acquire_ddl_lock env node msg.origin t
  | .BDR_MESSAGE_RELEASE_LOCK l => bdr_process_release_ddl_lock env node msg.origin l
  | .BDR_MESSAGE_CONFIRM_LOCK l t => bdr_process_confirm_ddl_lock env node msg.origin l t
  | .BDR_MESSAGE_DECLINE_LOCK l t => bdr_process_decline_ddl_lock env node msg.origin l t
  | .BDR_MESSAGE_REQUEST_REPLAY_CONFIRM lsn =>
    bdr_process_request_replay_confirm env node msg.origin lsn
  | .BDR_MESSAGE_REPLAY_CONFIRM lsn => bdr_process_replay_confirm env node msg.origin lsn

/-- The messages among the effects of a routine, in the order logged. -/
def loggedMessages : List Effect → List BdrMessage
  | [] => []
  | .LogStandbyMessage m _ :: rest => m :: loggedMessages rest
  | _ :: rest => loggedMessages rest

/-- One node of a cluster with one user backend. `call` is the state of the
backend's last call of `bdr_acquire_ddl_lock` in its open transaction (`none`
when it made none), `sent` the stream of this node, `applied` the number of
messages of each peer's stream handled so far. -/
structure Peer where
  node : Node
  backend : Backend
  call : Option CallStatus
  sent : List BdrMessage
  applied : List Nat
  deriving DecidableEq, Repr

abbrev Cluster := List Peer

inductive ClusterEvent where
  | acquire (i : Nat) (lock_type : BDRLockType)
  | poll (i : Nat)
  | xact_end (i : Nat) (event : XactEvent)
  | apply (i j : Nat)
  deriving DecidableEq, Repr

/-- The backend of node `i` calls `bdr_acquire_ddl_lock` and runs up to the
wait loop. Not possible while a call is blocked or after one failed. -/
def Cluster.acquire (c : Cluster) (i : Nat) (lock_type : BDRLockType) : Option Cluster :=
  match c.get? i with
  | none => none
  | some p =>
    if p.call = some .waiting then none
    else if p.call ≠ none ∧ p.call ≠ some .returned then none
    else
      let r := bdr_acquire_ddl_lock_begin (exampleEnv i 0 true) p.backend p.node lock_type
      some (c.set i { p with
        node := r.node, backend := r.backend, call := some r.status,
        sent := p.sent ++ loggedMessages r.effects })

/-- One iteration of the wait loop on node `i`, with the section after the
loop when the loop is left. -/
def Cluster.poll (c : Cluster) (i : Nat) : Option Cluster :=
  match c.get? i with
  | none => none
  | some p =>
    if p.call ≠ some .waiting then none
    else
      match bdr_acquire_ddl_lock_poll p.node.db with
      | .returned =>
        some (c.set i { p with
          node := { p.node with db := bdr_acquire_ddl_lock_finish p.node.db },
          call := some .returned })
      | st => some (c.set i { p with call := some st })

/-- The transaction of the backend of node `i` ends; it can commit only when
no call is blocked or has failed. -/
def Cluster.xact_end (c : Cluster) (i : Nat) (event : XactEvent) : Option Cluster :=
  match c.get? i with
  | none => none
  | some p =>
    if event ≠ .XACT_EVENT_ABORT ∧ event ≠ .XACT_EVENT_COMMIT then none
    else if event = .XACT_EVENT_COMMIT ∧ p.call ≠ none ∧ p.call ≠ some .returned then none
    else
      let r := bdr_lock_xact_callback (exampleEnv i 0 true) p.backend p.node event
      some (c.set i { p with
        node := r.node, backend := r.backend, call := none,
        sent := p.sent ++ loggedMessages r.effects })

/-- The apply worker of node `i` for peer `j` handles the next message of the
stream of `j`. -/
def Cluster.apply (c : Cluster) (i j : Nat) : Option Cluster :=
  if i = j then none
  else
    match c.get? i, c.get? j with
    | some p, some q =>
      match q.sent.get? (p.applied.getD j 0) with
      | none => none
      | some msg =>
        let r := bdr_process_remote_message (exampleEnv i (j + 1) true) p.node msg
        if r.error ≠ none then none
        else
          some (c.set i { p with
            node := r.node, sent := p.sent ++ loggedMessages r.effects,
            applied := p.applied.set j (p.applied.getD j 0 + 1) })
    | _, _ => none

def Cluster.step (c : Cluster) : ClusterEvent → Option Cluster
  | .acquire i lock_type => c.acquire i lock_type
  | .poll i => c.poll i
  | .xact_end i event => c.xact_end i event
  | .apply i j => c.apply i j

def Cluster.run : Cluster → List ClusterEvent → Option Cluster
  | c, [] => some c
  | c, e :: rest =>
    match c.step e with
    | none => none
    | some c1 => Cluster.run c1 rest

/-- A cluster of `n` nodes after startup, each knowing its `n - 1` peers. -/
def Cluster.init (n : Nat) : Cluster :=
  List.replicate n
    { node := { db := exampleReady (n - 1), locks := [] }, backend := freshBackend,
      call := none, sent := [], applied := List.replicate n 0 }

/-- Nodes whose backend has a call of `bdr_acquire_ddl_lock` that returned in
its open transaction. -/
def Cluster.holders (c : Cluster) : List Nat :=
  (List.range c.length).filter (fun i =>
    match c.get? i with
    | some p => decide (p.call = some .returned)
    | none => false)

/-- A run on three nodes in which every transaction that ends does so after
its acquisition was declined. -/
def mutexTrace : List ClusterEvent :=
  [ .acquire 0 .BDR_LOCK_DDL, .acquire 2 .BDR_LOCK_DDL,
    .apply 0 2, .apply 2 0, .apply 0 2, .poll 0, .xact_end 0 .XACT_EVENT_ABORT,
    .apply 2 0, .poll 2, .xact_end 2 .XACT_EVENT_ABORT,
    .apply 0 2, .apply 2 0,
    .apply 1 0, .apply 1 0, .apply 1 0,
    .apply 0 1,
    .acquire 0 .BDR_LOCK_DDL,
    .apply 1 0, .apply 2 0, .apply 0 1, .apply 0 2, .poll 0,
    .apply 1 2, .apply 1 2, .apply 1 2,
    .acquire 1 .BDR_LOCK_DDL,
    .apply 0 1, .apply 0 1, .apply 1 0, .poll 1, .xact_end 1 .XACT_EVENT_ABORT,
    .apply 0 1,
    .apply 2 1, .apply 2 1, .apply 2 1, .apply 2 1, .apply 2 1,
    .apply 1 2, .apply 1 2,
    .acquire 1 .BDR_LOCK_DDL,
    .apply 0 1, .apply 2 1, .apply 1 0, .apply 1 2, .poll 1 ]

/-! ## The calls of one transaction -/

/-- A call of `bdr_acquire_ddl_lock` issued by a transaction: the process
environment at the call (GUCs may have changed), the requested lock, what the
other processes did since the previous call, and the schedule of the call. -/
structure AcquireCall where
  env : Env
  lock_type : BDRLockType
  before : Node → Node
  sched : List Interleave

/-- The successive calls of `bdr_acquire_ddl_lock` of one top-level
transaction. A call that raises an error inside a subtransaction (a savepoint,
an `EXCEPTION` block) rolls back that subtransaction only:
`bdr_lock_xact_callback` is registered with `RegisterXactCallback` and acts on
`XACT_EVENT_ABORT` and `XACT_EVENT_COMMIT`, the end of the top-level
transaction, so `this_xact_acquired_lock` and the slot stay as the failed call
left them and the next call of the transaction follows. A call that never
returns, or that ends the process (`proc_exit`), is the last. -/
def xact_acquire_calls (b : Backend) (node : Node) : List AcquireCall → List AcquireCallOut
  | [] => []
  | c :: rest =>
    let r := bdr_acquire_ddl_lock c.env b (c.before node) c.lock_type c.sched
    match r.status with
    | .waiting => [r]
    | .error .postmaster_death => [r]
    | _ => r :: xact_acquire_calls r.backend r.node rest

/-- The wait loop may leave through the `break`: every peer confirmed and
none declined. -/
def Quorum (db : BdrLocksDBState) : Prop :=
  db.acquire_confirmed ≥ db.nnodes ∧ db.acquire_declined = 0

instance (db : BdrLocksDBState) : Decidable (Quorum db) := by
  unfold Quorum; exact inferInstance

/-! ## One node and its processes -/

/-- The shared state of a node, its lock table and the statics of its user
backends. -/
structure Site where
  node : Node
  backends : Nat → Backend

/-- Zero-initialised shared memory, empty lock table, no transaction open. -/
def Site.init : Site :=
  { node := { db := .zero, locks := [] }, backends := fun _ => freshBackend }

/-- What the processes of a node do to its state. -/
inductive SiteEvent where
  | startup (env : Env)
  | set_nnodes (nnodes : Nat)
  | acquire_begin (env : Env) (i : Nat) (lock_type : BDRLockType)
  | acquire_finish
  | xact_callback (env : Env) (i : Nat) (event : XactEvent)
  | addwaiter (proc : PGPROC)
  | message (env : Env) (msg : BdrMessage)

/-- State after an event; `none` when the routine raised an error in an apply
or per-db worker. An error of `bdr_acquire_ddl_lock` leaves the state as the
call left it: the transaction-end hook runs as an event of its own. -/
def Site.step (s : Site) : SiteEvent → Option Site
  | .startup env =>
    let r := bdr_locks_startup env s.node
    if r.error = none then some { s with node := r.node } else none
  | .set_nnodes n =>
    some { s with node := { s.node with db := bdr_locks_set_nnodes s.node.db n } }
  | .acquire_begin env i lock_type =>
    let r := bdr_acquire_ddl_lock_begin env (s.backends i) s.node lock_type
    some { node := r.node, backends := Function.update s.backends i r.backend }
  | .acquire_finish =>
    some { s with node := { s.node with db := bdr_acquire_ddl_lock_finish s.node.db } }
  | .xact_callback env i event =>
    let r := bdr_lock_xact_callback env (s.backends i) s.node event
    some { node := r.node, backends := Function.update s.backends i r.backend }
  | .addwaiter proc =>
    some { s with node := { s.node with db := bdr_locks_addwaiter s.node.db proc } }
  | .message env msg =>
    let r := bdr_process_remote_message env s.node msg
    if r.error = none then some { s with node := r.node } else none

/-- Events considered: all processes of the node share the catalog lookup
`fetch`; a lock request names `BDR_LOCK_DDL` or `BDR_LOCK_WRITE`; apply
workers have a valid replication origin; a release message is handled when
the lock table has a row of the releasing node or no lock is held. -/
def SiteEvent.admissible (fetch : RepNodeId → BdrNodeId) (s : Site) : SiteEvent → Prop
  | .startup env => env.bdr_fetch_sysid_via_node_id = fetch
  | .set_nnodes _ => True
  | .acquire_begin env _ lock_type =>
    env.bdr_fetch_sysid_via_node_id = fetch ∧ lock_type ≠ .BDR_LOCK_NOLOCK
  | .acquire_finish => True
  | .xact_callback env _ _ => env.bdr_fetch_sysid_via_node_id = fetch
  | .addwaiter _ => True
  | .message env msg =>
    env.bdr_fetch_sysid_via_node_id = fetch ∧
    env.replication_origin_id ≠ InvalidRepNodeId ∧
    match msg.payload with
    | .BDR_MESSAGE_ACQUIRE_LOCK lock_type => lock_type ≠ .BDR_LOCK_NOLOCK
    | .BDR_MESSAGE_RELEASE_LOCK _ =>
      (locks_begin_scan s.node.locks msg.origin ≠ [] ∨ s.node.db.lockcount = 0)
    | _ => True

/-- States a node reaches from `Site.init` by admissible events. -/
inductive Site.Reachable (fetch : RepNodeId → BdrNodeId) : Site → Prop where
  | init : Site.Reachable fetch Site.init
  | step (s s1 : Site) (e : SiteEvent) :
    Site.Reachable fetch s → e.admissible fetch s → s.step e = some s1 →
    Site.Reachable fetch s1

/-- A peer confirms while the backend sleeps. -/
def exampleConfirm : Interleave :=
  { others := fun n => { n with db := { n.db with
      acquire_confirmed := n.db.acquire_confirmed + 1 } },
    interrupt := false, postmaster_death := false }

/-- Nothing happens while the backend sleeps. -/
def exampleIdle : Interleave :=
  { others := fun n => n, interrupt := false, postmaster_death := false }

/-- A transaction on a node with one peer asks for the DDL lock, is confirmed
after one idle round, and asks for the DDL lock again. -/
def exampleCalls : List AcquireCall :=
  [ { env := exampleEnv 0 0 true, lock_type := .BDR_LOCK_DDL, before := fun n => n,
      sched := [exampleIdle, exampleConfirm] },
    { env := exampleEnv 0 0 true, lock_type := .BDR_LOCK_DDL, before := fun n => n,
      sched := [] } ]

/-- A node with one peer that holds the DDL lock for that peer. -/
def exampleHeldByPeer : Node :=
  { db := { exampleReady 1 with
      lockcount := 1, lock_holder := 2, lock_type := .BDR_LOCK_DDL },
    locks := [ { lock_type := "ddl_lock", holder := exampleNodeId 1, acquired_at := 0,
                 owner := exampleNodeId 0, state := "acquired" } ] }

/-- A node with one peer whose backend has a request for the DDL lock in
flight. -/
def exampleRequesting : Node :=
  { db := { exampleReady 1 with
      lockcount := 1, lock_type := .BDR_LOCK_DDL, requestor := some 0 },
    locks := [] }

/-- Node 0 of a cluster of three: it holds the DDL lock for node 1, the row
of node 1 is in its lock table, and the local process 7 waits in
`bdr_locks_check_dml`. -/
def exampleHeldWithWaiter : Node :=
  { db := { exampleReady 2 with
      lockcount := 1, lock_holder := 2, lock_type := .BDR_LOCK_DDL, waiters := [7] },
    locks := [ { lock_type := "ddl_lock", holder := exampleNodeId 1, acquired_at := 0,
                 owner := exampleNodeId 0, state := "acquired" } ] }

/-! ## The lock invariant of a node -/

/-- The part of a node's state the lock invariant speaks about: the three
lock fields of the slot, its two set-up flags and the holder columns of the
rows of the lock table. -/
structure LockView where
  lockcount : Nat
  lock_type : BDRLockType
  lock_holder : RepNodeId
  in_use : Bool
  locked_and_loaded : Bool
  holders : List BdrNodeId
  deriving DecidableEq, Repr

def Node.view (n : Node) : LockView :=
  { lockcount := n.db.lockcount, lock_type := n.db.lock_type,
    lock_holder := n.db.lock_holder, in_use := n.db.in_use,
    locked_and_loaded := n.db.locked_and_loaded,
    holders := n.locks.map (fun r => r.holder) }

/-- The invariant kept by the admissible events: at most one lock is held;
`lockcount` is zero exactly when `lock_type` is `BDR_LOCK_NOLOCK`; a holder is
recorded only while a lock is held; every row of the lock table is the row of
the recorded holder, which is then a remote node; a backend whose transaction
acquired the lock holds it with no holder recorded, and there is at most one
such backend. -/
structure Consistent (fetch : RepNodeId → BdrNodeId) (v : LockView) (flag : Nat → Bool) :
    Prop where
  count_le : v.lockcount ≤ 1
  type_iff : v.lockcount = 0 ↔ v.lock_type = .BDR_LOCK_NOLOCK
  holder_zero : v.lockcount = 0 → v.lock_holder = InvalidRepNodeId
  rows : ∀ k ∈ v.holders,
    v.lockcount = 1 ∧ v.lock_holder ≠ InvalidRepNodeId ∧ k = fetch v.lock_holder
  flagged : ∀ i, flag i = true → v.lockcount = 1 ∧ v.lock_holder = InvalidRepNodeId
  unique : ∀ i j, flag i = true → flag j = true → i = j
  loaded : v.in_use = true → v.locked_and_loaded = true
  fresh : v.locked_and_loaded = false → v.holders = []

def Site.flags (s : Site) : Nat → Bool := fun i => (s.backends i).this_xact_acquired_lock

def Site.Inv (fetch : RepNodeId → BdrNodeId) (s : Site) : Prop :=
  Consistent fetch s.node.view s.flags

def Site.run : Site → List SiteEvent → Option Site
  | s, [] => some s
  | s, e :: rest =>
    match s.step e with
    | none => none
    | some s1 => Site.run s1 rest

/-- Node 0 starts up, learns that it has one peer, and backend 0 asks for the
DDL lock. -/
def exampleLocalAcquire : List SiteEvent :=
  [ .startup (exampleEnv 0 0 true), .set_nnodes 1,
    .acquire_begin (exampleEnv 0 0 true) 0 .BDR_LOCK_DDL ]

/-- The state of node 0 after `exampleLocalAcquire`. -/
def exampleLocalHolder : Site :=
  (Site.init.run exampleLocalAcquire).getD Site.init

/-- The processes whose latch is set, in the order of the calls of
`SetLatch`. -/
def latchesSet : List Effect → List PGPROC
  | [] => []
  | .SetLatch proc :: rest => proc :: latchesSet rest
  | _ :: rest => latchesSet rest

/-- The apply workers of a node handle a sequence of messages, each in its own
process environment. -/
def handleMessages (node : Node) (msgs : List (Env × BdrMessage)) : Node :=
  msgs.foldl (fun n em => (bdr_process_remote_message em.1 n em.2).node) node

/-- The row can be read by `bdr_locks_startup`: its lock name is known and its
state is "acquired" or "catchup". -/
def LockRow.readable (r : LockRow) : Prop :=
  (∃ t, bdr_lock_name_to_type r.lock_type = .ok t) ∧
  (r.state = "acquired" ∨ r.state = "catchup")

/-- The replay confirmation requests `bdr_locks_startup` logs for `n` rows in
state "catchup", the first at the `k`-th read of the insert position. -/
def startupRequests (env : Env) (k n : Nat) : List Effect :=
  (List.range n).map (fun j =>
    Effect.LogStandbyMessage
      (bdr_prepare_message env
        (.BDR_MESSAGE_REQUEST_REPLAY_CONFIRM (env.GetXLogInsertRecPtr (k + j)))) false)

/-- Number of rows in state "catchup". -/
def catchupRows (rows : List LockRow) : Nat :=
  (rows.filter (fun r => r.state == "catchup")).length

/-- A lock table after a crash: node 0 had granted the write lock to node 1
and was waiting for the replay confirmations. -/
def exampleCatchup : Node :=
  { db := .zero,
    locks := [ { lock_type := "write_lock", holder := exampleNodeId 1, acquired_at := 0,
                 owner := exampleNodeId 0, state := "catchup" } ] }

/-! ## Confirmations among the effects -/

/-- The lock confirmations logged among the effects of a routine: the node
identifier and the lock type each carries. -/
def confirmsLogged : List Effect → List (BdrNodeId × BDRLockType)
  | [] => []
  | .LogStandbyMessage m _ :: rest =>
    match m.payload with
    | .BDR_MESSAGE_CONFIRM_LOCK l t => (l, t) :: confirmsLogged rest
    | _ => confirmsLogged rest
  | _ :: rest => confirmsLogged rest

/-- Node 0 holds the write lock for node 1 and waits for the replay
confirmation of position 4096 from its one peer. -/
def exampleDraining : Node :=
  { db := { exampleReady 1 with
      lockcount := 1, lock_holder := 2, lock_type := .BDR_LOCK_WRITE,
      replay_confirmed := 0, replay_confirmed_lsn := 4096 },
    locks := [ { lock_type := "write_lock", holder := exampleNodeId 1, acquired_at := 0,
                 owner := exampleNodeId 0, state := "catchup" } ] }

/-! ## Messages as bytes

The routines build each message in a `StringInfo` with `pq_sendint`,
`pq_sendint64` and `pq_sendbytes`; a byte is a number below 256. -/

/-- The first argument of `bdr_prepare_message`, `enum BdrMessageType`. -/
inductive BdrMessageType where
  | BDR_MESSAGE_START
  | BDR_MESSAGE_ACQUIRE_LOCK
  | BDR_MESSAGE_RELEASE_LOCK
  | BDR_MESSAGE_CONFIRM_LOCK
  | BDR_MESSAGE_DECLINE_LOCK
  | BDR_MESSAGE_REQUEST_REPLAY_CONFIRM
  | BDR_MESSAGE_REPLAY_CONFIRM
  deriving DecidableEq, Repr

/-- The message type each routine passes to `bdr_prepare_message`. -/
def BdrMessagePayload.message_type : BdrMessagePayload → BdrMessageType
  | .BDR_MESSAGE_START => .BDR_MESSAGE_START
  | .BDR_MESSAGE_ACQUIRE_LOCK _ => .BDR_MESSAGE_ACQUIRE_LOCK
  | .BDR_MESSAGE_RELEASE_LOCK _ => .BDR_MESSAGE_RELEASE_LOCK
  | .BDR_MESSAGE_CONFIRM_LOCK _ _ => .BDR_MESSAGE_CONFIRM_LOCK
  | .BDR_MESSAGE_DECLINE_LOCK _ _ => .BDR_MESSAGE_DECLINE_LOCK
  | .BDR_MESSAGE_REQUEST_REPLAY_CONFIRM _ => .BDR_MESSAGE_REQUEST_REPLAY_CONFIRM
  | .BDR_MESSAGE_REPLAY_CONFIRM _ => .BDR_MESSAGE_REPLAY_CONFIRM

/-- Modelled from the spec: the fields are written "in network byte order".
The routine `pq_sendint(buf, i, b)` belongs to PostgreSQL (`pqformat.c`, not
among the sources): it appends the low `b` bytes of `i`, most significant
first. Every call here passes `b = 4`; another size than 1, 2 or 4 is an
error there and appends nothing here. -/
def pq_sendint (i : Nat) (b : Nat) : List Nat :=
  match b with
  | 1 => [i % 256]
  | 2 => [i / 256 % 256, i % 256]
  | 4 => [i / 16777216 % 256, i / 65536 % 256, i / 256 % 256, i % 256]
  | _ => []

/-- Modelled from the spec: network byte order. `pq_sendint64` of PostgreSQL
sends the high 32 bits, then the low 32 bits. -/
def pq_sendint64 (i : Nat) : List Nat :=
  pq_sendint (i / 4294967296) 4 ++ pq_sendint i 4

/-- The C string `data` is ASCII: each `char` is one byte. -/
def pq_sendbytes (data : String) : List Nat :=
  data.toList.map (fun c => c.toNat)

/-- Bytes that `bdr_prepare_message` appends for the node `self` and the
message type numbered `message_type`. -/
def bdr_prepare_message_bytes (self : BdrNodeId) (message_type : Nat) : List Nat :=
  pq_sendint "bdr".length 4 ++
  pq_sendbytes "bdr" ++
  pq_sendint message_type 4 ++
  pq_sendint64 self.sysid ++
  pq_sendint self.tli 4 ++
  pq_sendint self.datid 4 ++
  pq_sendint 0 4

/-- The three sends of a node identifier: `pq_sendint64` of the `sysid`,
`pq_sendint(.., 4)` of the timeline and of the database. -/
def pq_send_node (k : BdrNodeId) : List Nat :=
  pq_sendint64 k.sysid ++ pq_sendint k.tli 4 ++ pq_sendint k.datid 4

/-- Bytes each routine appends after the prologue. -/
def bdr_payload_bytes : BdrMessagePayload → List Nat
  | .BDR_MESSAGE_START => []
  | .BDR_MESSAGE_ACQUIRE_LOCK lock_type => pq_sendint lock_type.val 4
  | .BDR_MESSAGE_RELEASE_LOCK lock => pq_send_node lock
  | .BDR_MESSAGE_CONFIRM_LOCK lock lock_type => pq_send_node lock ++ pq_sendint lock_type.val 4
  | .BDR_MESSAGE_DECLINE_LOCK lock lock_type => pq_send_node lock ++ pq_sendint lock_type.val 4
  | .BDR_MESSAGE_REQUEST_REPLAY_CONFIRM lsn => pq_sendint64 lsn
  | .BDR_MESSAGE_REPLAY_CONFIRM lsn => pq_sendint64 lsn

/-- The `s.data` handed to `LogStandbyMessage` for a message. The numbering
of `enum BdrMessageType` is declared in `bdr.h`, which is not among the
sources, and is the parameter `code`. -/
def bdr_message_bytes (code : BdrMessageType → Nat) (m : BdrMessage) : List Nat :=
  bdr_prepare_message_bytes m.origin (code m.payload.message_type) ++
  bdr_payload_bytes m.payload

/-- Modelled from the spec: a 32-bit field in network byte order, with the
bytes that follow it. -/
def pq_getmsgint4 : List Nat → Option (Nat × List Nat)
  | a :: b :: c :: d :: rest => some (((a * 256 + b) * 256 + c) * 256 + d, rest)
  | _ => none

/-- Modelled from the spec: a 64-bit field in network byte order. -/
def pq_getmsgint64 (bytes : List Nat) : Option (Nat × List Nat) :=
  match pq_getmsgint4 bytes with
  | none => none
  | some (h, r) =>
    match pq_getmsgint4 r with
    | none => none
    | some (l, r2) => some (h * 4294967296 + l, r2)

/-- Modelled from the spec: a `NodeId` on the wire is a 64-bit sysid, a 32-bit
timeline and a 32-bit dbid. -/
def pq_getmsg_node (bytes : List Nat) : Option (BdrNodeId × List Nat) :=
  match pq_getmsgint64 bytes with
  | none => none
  | some (sysid, r1) =>
    match pq_getmsgint4 r1 with
    | none => none
    | some (tli, r2) =>
      match pq_getmsgint4 r2 with
      | none => none
      | some (datid, r3) => some ({ sysid := sysid, tli := tli, datid := datid }, r3)

/-- Modelled from the spec: the lock kind travels as a `u32`; the numbers are
those of `BDRLockType.val`. -/
def bdr_lock_type_of_val (n : Nat) : Option BDRLockType :=
  if n = BDRLockType.BDR_LOCK_NOLOCK.val then some .BDR_LOCK_NOLOCK
  else if n = BDRLockType.BDR_LOCK_DDL.val then some .BDR_LOCK_DDL
  else if n = BDRLockType.BDR_LOCK_WRITE.val then some .BDR_LOCK_WRITE
  else none

/-- Modelled from the spec: the message type with a given number. -/
def bdr_message_type_of_code (code : BdrMessageType → Nat) (n : Nat) :
    Option BdrMessageType :=
  if code .BDR_MESSAGE_START = n then some .BDR_MESSAGE_START
  else if code .BDR_MESSAGE_ACQUIRE_LOCK = n then some .BDR_MESSAGE_ACQUIRE_LOCK
  else if code .BDR_MESSAGE_RELEASE_LOCK = n then some .BDR_MESSAGE_RELEASE_LOCK
  else if code .BDR_MESSAGE_CONFIRM_LOCK = n then some .BDR_MESSAGE_CONFIRM_LOCK
  else if code .BDR_MESSAGE_DECLINE_LOCK = n then some .BDR_MESSAGE_DECLINE_LOCK
  else if code .BDR_MESSAGE_REQUEST_REPLAY_CONFIRM = n then
    some .BDR_MESSAGE_REQUEST_REPLAY_CONFIRM
  else if code .BDR_MESSAGE_REPLAY_CONFIRM = n then some .BDR_MESSAGE_REPLAY_CONFIRM
  else none

/-- Modelled from the spec: the payload table of the Protocol Codec. The
payload must end the message. -/
def bdr_parse_payload (t : BdrMessageType) (bytes : List Nat) : Option BdrMessagePayload :=
  match t with
  | .BDR_MESSAGE_START =>
    match bytes with
    | [] => some .BDR_MESSAGE_START
    | _ => none
  | .BDR_MESSAGE_ACQUIRE_LOCK =>
    match pq_getmsgint4 bytes with
    | some (n, []) => (bdr_lock_type_of_val n).map .BDR_MESSAGE_ACQUIRE_LOCK
    | _ => none
  | .BDR_MESSAGE_RELEASE_LOCK =>
    match pq_getmsg_node bytes with
    | some (lock, []) => some (.BDR_MESSAGE_RELEASE_LOCK lock)
    | _ => none
  | .BDR_MESSAGE_CONFIRM_LOCK =>
    match pq_getmsg_node bytes with
    | some (lock, r) =>
      match pq_getmsgint4 r with
      | some (n, []) => (bdr_lock_type_of_val n).map (.BDR_MESSAGE_CONFIRM_LOCK lock)
      | _ => none
    | none => none
  | .BDR_MESSAGE_DECLINE_LOCK =>
    match pq_getmsg_node bytes with
    | some (lock, r) =>
      match pq_getmsgint4 r with
      | some (n, []) => (bdr_lock_type_of_val n).map (.BDR_MESSAGE_DECLINE_LOCK lock)
      | _ => none
    | none => none
  | .BDR_MESSAGE_REQUEST_REPLAY_CONFIRM =>
    match pq_getmsgint64 bytes with
    | some (lsn, []) => some (.BDR_MESSAGE_REQUEST_REPLAY_CONFIRM lsn)
    | _ => none
  | .BDR_MESSAGE_REPLAY_CONFIRM =>
    match pq_getmsgint64 bytes with
    | some (lsn, []) => some (.BDR_MESSAGE_REPLAY_CONFIRM lsn)
    | _ => none

/-- Modelled from the spec: the inbound demux (`bdr_apply.c`, not among the
sources) reads the fields in emission order: 4-byte length 3, the bytes
"bdr", 32-bit kind, 64-bit sysid, 32-bit timeline, 32-bit dbid, 32-bit name
length with the name (empty), then the payload of that kind. -/
def bdr_parse_message (code : BdrMessageType → Nat) (bytes : List Nat) : Option BdrMessage :=
  match pq_getmsgint4 bytes with
  | none => none
  | some (len, r1) =>
    if len ≠ 3 ∨ r1.take 3 ≠ [98, 100, 114] then none
    else
      match pq_getmsgint4 (r1.drop 3) with
      | none => none
      | some (kind, r2) =>
        match pq_getmsg_node r2 with
        | none => none
        | some (origin, r3) =>
          match pq_getmsgint4 r3 with
          | none => none
          | some (namelen, r4) =>
            match bdr_message_type_of_code code kind with
            | none => none
            | some t =>
              (bdr_parse_payload t (r4.drop namelen)).map
                (fun p => { origin := origin, payload := p })

/-- The fields of a node identifier fit their C types (`uint64`,
`TimeLineID`, `Oid`). -/
def BdrNodeId.inRange (k : BdrNodeId) : Prop :=
  k.sysid < 18446744073709551616 ∧ k.tli < 4294967296 ∧ k.datid < 4294967296

instance (k : BdrNodeId) : Decidable k.inRange := by
  unfold BdrNodeId.inRange; exact inferInstance

/-- The fields of a payload fit their C types (`XLogRecPtr` is 64 bits). -/
def BdrMessagePayload.inRange : BdrMessagePayload → Prop
  | .BDR_MESSAGE_START => True
  | .BDR_MESSAGE_ACQUIRE_LOCK _ => True
  | .BDR_MESSAGE_RELEASE_LOCK lock => lock.inRange
  | .BDR_MESSAGE_CONFIRM_LOCK lock _ => lock.inRange
  | .BDR_MESSAGE_DECLINE_LOCK lock _ => lock.inRange
  | .BDR_MESSAGE_REQUEST_REPLAY_CONFIRM lsn => lsn < 18446744073709551616
  | .BDR_MESSAGE_REPLAY_CONFIRM lsn => lsn < 18446744073709551616

instance (p : BdrMessagePayload) : Decidable p.inRange := by
  cases p <;> unfold BdrMessagePayload.inRange <;> exact inferInstance

def BdrMessage.inRange (m : BdrMessage) : Prop :=
  m.origin.inRange ∧ m.payload.inRange

instance (m : BdrMessage) : Decidable m.inRange := by
  unfold BdrMessage.inRange; exact inferInstance

/-- A numbering of the message types, in the order of the declaration. -/
def exampleCode : BdrMessageType → Nat
  | .BDR_MESSAGE_START => 0
  | .BDR_MESSAGE_ACQUIRE_LOCK => 1
  | .BDR_MESSAGE_RELEASE_LOCK => 2
  | .BDR_MESSAGE_CONFIRM_LOCK => 3
  | .BDR_MESSAGE_DECLINE_LOCK => 4
  | .BDR_MESSAGE_REQUEST_REPLAY_CONFIRM => 5
  | .BDR_MESSAGE_REPLAY_CONFIRM => 6

/-- The confirmation of the write lock that node 0 logs for node 1. -/
def exampleConfirmMessage : BdrMessage :=
  { origin := exampleNodeId 0,
    payload := .BDR_MESSAGE_CONFIRM_LOCK (exampleNodeId 1) .BDR_LOCK_WRITE }

/-! ## Replay confirmations -/

/-- Node 0 holds the write lock for node 1, has confirmed it, and awaits no
replay confirmation: `replay_confirmed_lsn` is invalid. -/
def exampleWriteHeld : Node :=
  { db := { exampleReady 1 with
      lockcount := 1, lock_holder := 2, lock_type := .BDR_LOCK_WRITE },
    locks := [ { lock_type := "write_lock", holder := exampleNodeId 1, acquired_at := 0,
                 owner := exampleNodeId 0, state := "acquired" } ] }

/-- The node awaits replay confirmations: `bdr_request_replay_confirmation`
(and `bdr_locks_startup` for a "catchup" row) records the position to wait for
in `replay_confirmed_lsn`; `bdr_send_confirm_lock`, the release of the lock
and the transaction-end hook set it back to `InvalidXLogRecPtr`. -/
def BdrLocksDBState.awaiting_replay (db : BdrLocksDBState) : Prop :=
  db.replay_confirmed_lsn ≠ InvalidXLogRecPtr

instance (db : BdrLocksDBState) : Decidable db.awaiting_replay := by
  unfold BdrLocksDBState.awaiting_replay; exact inferInstance

/-- A run of replay confirmations for the position `lsn`, each handled by the
worker `(env, origin)` given for it: the node left and the effects, in order. -/
def replayConfirmsHandled (lsn : XLogRecPtr) : Node → List (Env × BdrNodeId) → Node × List Effect
  | node, [] => (node, [])
  | node, (env, origin) :: rest =>
    let out := bdr_process_replay_confirm env node origin lsn
    let r := replayConfirmsHandled lsn out.node rest
    (r.1, out.effects ++ r.2)

/-! ## Upgrade of a confirmed lock -/

/-- Node 0 has upgraded the confirmed DDL lock of node 1 to the write lock and
waits for the replay confirmation of position 4096: the row of node 1 carries
the new lock name and still the state "acquired". -/
def exampleUpgrading : Node :=
  { db := { exampleReady 1 with
      lockcount := 1, lock_holder := 2, lock_type := .BDR_LOCK_WRITE,
      replay_confirmed := 0, replay_confirmed_lsn := 4096 },
    locks := [ { lock_type := "write_lock", holder := exampleNodeId 1, acquired_at := 0,
                 owner := exampleNodeId 0, state := "acquired" } ] }

/-- The node after a crash and restart: shared memory is zeroed, the lock
table is kept, the per-db worker runs `bdr_locks_startup` and then learns the
number of its peers. -/
def restart (env : Env) (node : Node) (nnodes : Nat) : Out :=
  let out := bdr_locks_startup env { db := .zero, locks := node.locks }
  { out with node := { out.node with db := bdr_locks_set_nnodes out.node.db nnodes } }

/-! ## Cancelling the local writers

The routine `cancel_conflicting_transactions` walks the array returned by
`GetConflictingVirtualXIDs`, which ends with an entry whose `backendId` is
`InvalidBackendId`; the array is a list here and `conflict++` drops its head. -/

abbrev BackendId := Nat
abbrev TransactionId := Nat
abbrev TimestampTz := Nat

def InvalidTransactionId : TransactionId := 0

structure VirtualTransactionId where
  backendId : BackendId
  localTransactionId : Nat
  deriving DecidableEq, Repr

/-- What the loop of `cancel_conflicting_transactions` observes of the other
backends and of the clock. The first argument of each lookup is the number of
the iteration that makes it, counted from 0; `GetCurrentTimestamp 0` is the
call before the loop and iteration `k` reads `GetCurrentTimestamp (k + 1)`.
`CancelVirtualTransaction` returns the pid it signalled, 0 when the virtual
transaction is gone. -/
structure ProcArray where
  bdr_ddl_grace_timeout : Nat
  GetCurrentTimestamp : Nat → TimestampTz
  BackendIdGetProc : Nat → BackendId → Option PGPROC
  xid : Nat → PGPROC → TransactionId
  CancelVirtualTransaction : Nat → VirtualTransactionId → Nat

/-- What `cancel_conflicting_transactions` does besides reading: sleeps and
signals. -/
inductive CancelEvent where
  | pg_usleep (microsec : Nat)
  | signal (vxid : VirtualTransactionId) (pid : Nat)
  deriving DecidableEq, Repr

/-- The `while` loop of `cancel_conflicting_transactions`, at most `fuel`
iterations of it: `k` is the number of the iteration, the list what `conflict`
points to. The result is `none` when the loop is still running after `fuel`
iterations. -/
def cancel_conflicting_transactions_loop (w : ProcArray) (endtime : TimestampTz) :
    Nat → Nat → List VirtualTransactionId → Nat → List CancelEvent →
      Option (List CancelEvent)
  | _, _, [], _, acc => some acc
  | 0, _, _ :: _, _, _ => none
  | fuel + 1, k, c :: rest, waittime, acc =>
    match w.BackendIdGetProc k c.backendId with
    | none => cancel_conflicting_transactions_loop w endtime fuel (k + 1) (c :: rest) waittime acc
    | some pgproc =>
      if w.xid k pgproc == InvalidTransactionId then
        cancel_conflicting_transactions_loop w endtime fuel (k + 1) rest waittime acc
      else if w.GetCurrentTimestamp (k + 1) < endtime then
        cancel_conflicting_transactions_loop w endtime fuel (k + 1) (c :: rest)
          (if waittime * 2 > 1000000 then 1000000 else waittime * 2)
          (acc ++ [.pg_usleep waittime])
      else
        let p := w.CancelVirtualTransaction k c
        if p == 0 then
          cancel_conflicting_transactions_loop w endtime fuel (k + 1) rest waittime acc
        else
          cancel_conflicting_transactions_loop w endtime fuel (k + 1) (c :: rest) waittime
            (acc ++ [.signal c p, .pg_usleep 1000])

/-- The routine `cancel_conflicting_transactions` on the array `conflict`
that `GetConflictingVirtualXIDs` returned; `TimestampTzPlusMilliseconds` adds
1000 microseconds per millisecond. -/
def cancel_conflicting_transactions (w : ProcArray) (conflict : List VirtualTransactionId)
    (fuel : Nat) : Option (List CancelEvent) :=
  let endtime := w.GetCurrentTimestamp 0 + w.bdr_ddl_grace_timeout * 1000
  cancel_conflicting_transactions_loop w endtime fuel 0 conflict 1000 []

/-- Three backends: backend 1 has written nothing, backend 2 is a writer that
is signalled once and is gone at the next attempt, the process of backend 3
has exited. The clock advances by one millisecond per iteration and the grace
period is 3 ms. -/
def exampleProcArray : ProcArray :=
  { bdr_ddl_grace_timeout := 3,
    GetCurrentTimestamp := fun k => 1000 * k,
    BackendIdGetProc := fun _ b => if b = 3 then none else some (100 + b),
    xid := fun _ p => if p = 102 then 777 else 0,
    CancelVirtualTransaction := fun k _ => if k < 3 then 4242 else 0 }

/-! ## Calls that return without a quorum -/

/-- The peer declines while the backend sleeps: the apply worker of node 0
handles the decline message of node 1, which is acquiring the lock itself. -/
def exampleDecline : Interleave :=
  { others := fun n =>
      (bdr_process_remote_message (exampleEnv 0 2 true) n
        { origin := exampleNodeId 1,
          payload := .BDR_MESSAGE_DECLINE_LOCK (exampleNodeId 1) .BDR_LOCK_DDL }).node,
    interrupt := false, postmaster_death := false }

/-- A transaction on a node with one peer asks for the DDL lock inside a
subtransaction and is declined; the subtransaction is rolled back and the
transaction asks for the DDL lock again. -/
def exampleDeclinedCalls : List AcquireCall :=
  [ { env := exampleEnv 0 0 true, lock_type := .BDR_LOCK_DDL, before := fun n => n,
      sched := [exampleDecline] },
    { env := exampleEnv 0 0 true, lock_type := .BDR_LOCK_DDL, before := fun n => n,
      sched := [] } ]

/-- The lock types of the lock requests among the messages of a stream. -/
def acquiresLogged : List BdrMessage → List BDRLockType
  | [] => []
  | m :: rest =>
    match m.payload with
    | .BDR_MESSAGE_ACQUIRE_LOCK t => t :: acquiresLogged rest
    | _ => acquiresLogged rest

/-- A run on three nodes without subtransactions. It starts as `mutexTrace`:
node 0 acquires the DDL lock with the confirmations of nodes 1 and 2, and the
release message of node 1, whose request was declined, makes node 0 drop its
`lockcount` to 0. Node 1 then asks for the write lock, node 0 grants it, and
the transaction of node 0, still open, asks for the write lock. -/
def writeShortcutTrace : List ClusterEvent :=
  [ .acquire 0 .BDR_LOCK_DDL, .acquire 2 .BDR_LOCK_DDL,
    .apply 0 2, .apply 2 0, .apply 0 2, .poll 0, .xact_end 0 .XACT_EVENT_ABORT,
    .apply 2 0, .poll 2, .xact_end 2 .XACT_EVENT_ABORT,
    .apply 0 2, .apply 2 0,
    .apply 1 0, .apply 1 0, .apply 1 0,
    .apply 0 1,
    .acquire 0 .BDR_LOCK_DDL,
    .apply 1 0, .apply 2 0, .apply 0 1, .apply 0 2, .poll 0,
    .apply 1 2, .apply 1 2, .apply 1 2,
    .acquire 1 .BDR_LOCK_DDL,
    .apply 0 1, .apply 0 1, .apply 1 0, .poll 1, .xact_end 1 .XACT_EVENT_ABORT,
    .apply 0 1,
    .acquire 1 .BDR_LOCK_WRITE,
    .apply 0 1,
    .acquire 0 .BDR_LOCK_WRITE ]

/-! ## Basic facts -/

theorem find_my_database_ok (env : Env) (db : BdrLocksDBState) (h : Configured env db) :
    bdr_locks_find_my_database env db false = .ok db := by
  obtain ⟨h1, h2⟩ := h
  simp [bdr_locks_find_my_database, bdr_locks_find_database, h1, h2]

theorem find_my_database_false (env : Env) (db : BdrLocksDBState) :
    bdr_locks_find_my_database env db false = .ok db ∨
    bdr_locks_find_my_database env db false = .error .not_configured := by
  unfold bdr_locks_find_my_database bdr_locks_find_database
  by_cases h : (db.in_use && db.dboid == env.MyDatabaseId) = true
  · left; simp [h]
  · right; simp [h]

theorem exampleReady_is_startup (i n : Nat) :
    bdr_locks_set_nnodes
      (bdr_locks_startup (exampleEnv i 0 false) { db := .zero, locks := [] }).node.db n
      = exampleReady n := by
  rfl

theorem register_xact_callback_flag (b : Backend) :
    (register_xact_callback b).this_xact_acquired_lock = b.this_xact_acquired_lock := by
  unfold register_xact_callback; split <;> rfl

/-- The first call of a transaction, on a configured slot: the three checks
in the order of the source, then the request. -/
theorem acquire_begin_first (env : Env) (b : Backend) (node : Node) (lock_type : BDRLockType)
    (hc : Configured env node.db) (hflag : b.this_xact_acquired_lock = false) :
    bdr_acquire_ddl_lock_begin env b node lock_type =
      if env.bdr_permit_ddl_locking = false then
        { backend := b, node := node, effects := [],
          status := .error .rejected_by_configuration }
      else if node.db.nnodes = 0 then
        { backend := b, node := node, effects := [], status := .error .no_peer_nodes }
      else if node.db.lockcount > 0 then
        { backend := register_xact_callback b, node := node, effects := [],
          status := .error (.locked_by_another_node
            (env.bdr_fetch_sysid_via_node_id node.db.lock_holder)) }
      else
        { backend := { register_xact_callback b with this_xact_acquired_lock := true },
          node := { node with db := { node.db with
            lockcount := node.db.lockcount + 1, acquire_confirmed := 0,
            acquire_declined := 0, requestor := some env.MyProc, lock_type := lock_type } },
          effects := [Effect.LogStandbyMessage
            (bdr_prepare_message env (.BDR_MESSAGE_ACQUIRE_LOCK lock_type)) false],
          status := .waiting } := by
  unfold bdr_acquire_ddl_lock_begin
  rw [find_my_database_ok env node.db hc]
  have hr := register_xact_callback_flag b
  by_cases hp : env.bdr_permit_ddl_locking = false
  · simp [hflag, hp]
  · by_cases hn : node.db.nnodes = 0
    · simp [hflag, hp, hn]
    · by_cases hl : node.db.lockcount > 0
      · simp [hflag, hp, hn, hr, hl]
      · simp [hflag, hp, hn, hr, hl]

/-- A call that does not enter the wait loop ends as its first part does. -/
theorem acquire_of_begin (env : Env) (b : Backend) (node : Node) (lock_type : BDRLockType)
    (sched : List Interleave)
    (h : (bdr_acquire_ddl_lock_begin env b node lock_type).status ≠ .waiting) :
    bdr_acquire_ddl_lock env b node lock_type sched =
      { backend := (bdr_acquire_ddl_lock_begin env b node lock_type).backend,
        node := (bdr_acquire_ddl_lock_begin env b node lock_type).node,
        effects := (bdr_acquire_ddl_lock_begin env b node lock_type).effects,
        status := (bdr_acquire_ddl_lock_begin env b node lock_type).status,
        polled := [] } := by
  unfold bdr_acquire_ddl_lock
  generalize bdr_acquire_ddl_lock_begin env b node lock_type = r at h ⊢
  obtain ⟨rb, rn, re, rs⟩ := r
  cases rs <;> simp_all

/-- Outcome of a first call on a configured slot that holds a lock, a closed
gate, or no peers: nothing is sent and nothing changes. -/
theorem acquire_refused (env : Env) (b : Backend) (node : Node) (lock_type : BDRLockType)
    (sched : List Interleave) (hc : Configured env node.db)
    (hflag : b.this_xact_acquired_lock = false)
    (h : env.bdr_permit_ddl_locking = false ∨ node.db.nnodes = 0 ∨ node.db.lockcount > 0) :
    (bdr_acquire_ddl_lock env b node lock_type sched).node = node ∧
    (bdr_acquire_ddl_lock env b node lock_type sched).effects = [] ∧
    (bdr_acquire_ddl_lock env b node lock_type sched).backend.this_xact_acquired_lock = false ∧
    (bdr_acquire_ddl_lock env b node lock_type sched).status =
      .error (if env.bdr_permit_ddl_locking = false then .rejected_by_configuration
              else if node.db.nnodes = 0 then .no_peer_nodes
              else .locked_by_another_node
                (env.bdr_fetch_sysid_via_node_id node.db.lock_holder)) := by
  have hb := acquire_begin_first env b node lock_type hc hflag
  have hr := register_xact_callback_flag b
  have hw : (bdr_acquire_ddl_lock_begin env b node lock_type).status ≠ .waiting := by
    rw [hb]
    by_cases hp : env.bdr_permit_ddl_locking = false
    · simp [hp]
    · by_cases hn : node.db.nnodes = 0
      · simp [hp, hn]
      · have hl : node.db.lockcount > 0 := by
          rcases h with h | h | h
          · exact absurd h hp
          · exact absurd h hn
          · exact h
        simp [hp, hn, hl]
  rw [acquire_of_begin env b node lock_type sched hw, hb]
  by_cases hp : env.bdr_permit_ddl_locking = false
  · simp [hp, hflag]
  · by_cases hn : node.db.nnodes = 0
    · simp [hp, hn, hflag]
    · have hl : node.db.lockcount > 0 := by
        rcases h with h | h | h
        · exact absurd h hp
        · exact absurd h hn
        · exact h
      simp [hp, hn, hl, hr, hflag]

/-! ## C4: acquire while the lock is held by someone else -/

/-- C4, as stated, fails: with `bdr.permit_ddl_locking` off a call made while
a lock is held by another transaction raises the configuration error, whose
code is not `ERRCODE_LOCK_NOT_AVAILABLE`. -/
theorem C4_counterexample :
    ({ db := { exampleReady 1 with lockcount := 1, lock_type := .BDR_LOCK_DDL },
       locks := [] } : Node).db.lockcount > 0 ∧
    freshBackend.this_xact_acquired_lock = false ∧
    (bdr_acquire_ddl_lock (exampleEnv 0 0 false) freshBackend
      { db := { exampleReady 1 with lockcount := 1, lock_type := .BDR_LOCK_DDL },
        locks := [] } .BDR_LOCK_DDL []).status = .error .rejected_by_configuration ∧
    BdrError.rejected_by_configuration.errcode ≠ .ERRCODE_LOCK_NOT_AVAILABLE := by
  decide

/-- C4, amended: a call of `bdr_acquire_ddl_lock` made when `lockcount > 0` by
a transaction that has not acquired the lock raises an error, logs no message
and leaves the shared state, the lock table and `this_xact_acquired_lock`
unchanged; the error is "database is locked against ddl by another node"
(`ERRCODE_LOCK_NOT_AVAILABLE`) when `bdr.permit_ddl_locking` is on and
`nnodes > 0`, and the error of the failed earlier check otherwise. -/
theorem C4_acquire_while_held (env : Env) (b : Backend) (node : Node)
    (lock_type : BDRLockType) (sched : List Interleave)
    (hc : Configured env node.db) (hheld : node.db.lockcount > 0)
    (hflag : b.this_xact_acquired_lock = false) :
    (bdr_acquire_ddl_lock env b node lock_type sched).node = node ∧
    (bdr_acquire_ddl_lock env b node lock_type sched).effects = [] ∧
    (bdr_acquire_ddl_lock env b node lock_type sched).backend.this_xact_acquired_lock = false ∧
    (bdr_acquire_ddl_lock env b node lock_type sched).status =
      .error (if env.bdr_permit_ddl_locking = false then .rejected_by_configuration
              else if node.db.nnodes = 0 then .no_peer_nodes
              else .locked_by_another_node
                (env.bdr_fetch_sysid_via_node_id node.db.lock_holder)) ∧
    (env.bdr_permit_ddl_locking = true → node.db.nnodes > 0 →
      ∃ e, (bdr_acquire_ddl_lock env b node lock_type sched).status = .error e ∧
        e.errcode = .ERRCODE_LOCK_NOT_AVAILABLE) := by
  obtain ⟨h1, h2, h3, h4⟩ :=
    acquire_refused env b node lock_type sched hc hflag (Or.inr (Or.inr hheld))
  refine ⟨h1, h2, h3, h4, ?_⟩
  intro hp hn
  refine ⟨_, h4, ?_⟩
  have hn0 : node.db.nnodes ≠ 0 := by omega
  simp [hp, hn0, BdrError.errcode]

/-- C4, instance: the lock is held for peer 1, the gate is open and there is
one peer. -/
theorem C4_acquire_while_held_witness :
    (bdr_acquire_ddl_lock (exampleEnv 0 0 true) freshBackend
      { db := { exampleReady 1 with
          lockcount := 1, lock_holder := 2, lock_type := .BDR_LOCK_DDL },
        locks := [] } .BDR_LOCK_WRITE []).status =
      .error (.locked_by_another_node (exampleNodeId 1)) := by
  have h := C4_acquire_while_held (exampleEnv 0 0 true) freshBackend
    { db := { exampleReady 1 with
        lockcount := 1, lock_holder := 2, lock_type := .BDR_LOCK_DDL },
      locks := [] } .BDR_LOCK_WRITE [] (by decide) (by decide) (by decide)
  exact h.2.2.2.1

/-! ## C5: the configuration gate -/

/-- C5, as stated, fails: in a transaction that already acquired the lock the
gate is not consulted. With `bdr.permit_ddl_locking` off, a request for a lock
already held returns, and a request for a stronger lock logs an acquire
message and enters the wait loop. -/
theorem C5_counterexample :
    (exampleEnv 0 0 false).bdr_permit_ddl_locking = false ∧
    (bdr_acquire_ddl_lock (exampleEnv 0 0 false)
      { this_xact_acquired_lock := true, registered := true }
      { db := { exampleReady 1 with lockcount := 1, lock_type := .BDR_LOCK_DDL },
        locks := [] } .BDR_LOCK_DDL []).status = .returned ∧
    (bdr_acquire_ddl_lock (exampleEnv 0 0 false)
      { this_xact_acquired_lock := true, registered := true }
      { db := { exampleReady 1 with lockcount := 1, lock_type := .BDR_LOCK_DDL },
        locks := [] } .BDR_LOCK_WRITE []).effects =
      [Effect.LogStandbyMessage
        { origin := exampleNodeId 0,
          payload := .BDR_MESSAGE_ACQUIRE_LOCK .BDR_LOCK_WRITE } false] := by
  decide

/-- C5, amended: if `bdr.permit_ddl_locking` is off, every call of
`bdr_acquire_ddl_lock` by a transaction that has not yet acquired the lock
raises an error (the configuration error on a configured slot), for every
shared state and every requested lock, logs no message and changes
nothing. -/
theorem C5_gate_closed (env : Env) (b : Backend) (node : Node)
    (lock_type : BDRLockType) (sched : List Interleave)
    (hp : env.bdr_permit_ddl_locking = false)
    (hflag : b.this_xact_acquired_lock = false) :
    (∃ e, (bdr_acquire_ddl_lock env b node lock_type sched).status = .error e) ∧
    (bdr_acquire_ddl_lock env b node lock_type sched).effects = [] ∧
    (bdr_acquire_ddl_lock env b node lock_type sched).node = node ∧
    (bdr_acquire_ddl_lock env b node lock_type sched).backend = b ∧
    (Configured env node.db →
      (bdr_acquire_ddl_lock env b node lock_type sched).status =
        .error .rejected_by_configuration) := by
  have hb : bdr_acquire_ddl_lock_begin env b node lock_type =
      { backend := b, node := node, effects := [],
        status := .error (match bdr_locks_find_my_database env node.db false with
          | .error e => e
          | .ok _ => .rejected_by_configuration) } := by
    unfold bdr_acquire_ddl_lock_begin
    rcases find_my_database_false env node.db with h | h
    · rw [h]; simp [hflag, hp]
    · rw [h]
  have hw : (bdr_acquire_ddl_lock_begin env b node lock_type).status ≠ .waiting := by
    rw [hb]; simp
  rw [acquire_of_begin env b node lock_type sched hw, hb]
  refine ⟨⟨_, rfl⟩, rfl, rfl, rfl, ?_⟩
  intro hc
  simp [find_my_database_ok env node.db hc]

/-- C5, instance: a first request for the DDL lock on an idle node with the
gate closed. -/
theorem C5_gate_closed_witness :
    (bdr_acquire_ddl_lock (exampleEnv 0 0 false) freshBackend
      { db := exampleReady 1, locks := [] } .BDR_LOCK_DDL []).status =
      .error .rejected_by_configuration :=
  (C5_gate_closed (exampleEnv 0 0 false) freshBackend
    { db := exampleReady 1, locks := [] } .BDR_LOCK_DDL [] rfl rfl).2.2.2.2 (by decide)

/-! ## C6: no peers -/

/-- C6, as stated, fails: with no peers known and `bdr.permit_ddl_locking`
off (the default) the call raises the configuration error, not "No peer nodes
or peer node count unknown". -/
theorem C6_counterexample :
    (exampleReady 0).nnodes = 0 ∧
    (bdr_acquire_ddl_lock (exampleEnv 0 0 false) freshBackend
      { db := exampleReady 0, locks := [] } .BDR_LOCK_DDL []).status =
      .error .rejected_by_configuration ∧
    (bdr_acquire_ddl_lock (exampleEnv 0 0 false) freshBackend
      { db := exampleReady 0, locks := [] } .BDR_LOCK_DDL []).status ≠
      .error .no_peer_nodes := by
  decide

/-- C6, amended: a call of `bdr_acquire_ddl_lock` made while `nnodes == 0` by
a transaction that has not yet acquired the lock, with
`bdr.permit_ddl_locking` on, raises "No peer nodes or peer node count
unknown", logs no message and leaves the shared state, the lock table and the
backend's flag unchanged. -/
theorem C6_no_peers (env : Env) (b : Backend) (node : Node)
    (lock_type : BDRLockType) (sched : List Interleave)
    (hc : Configured env node.db) (hn : node.db.nnodes = 0)
    (hflag : b.this_xact_acquired_lock = false)
    (hp : env.bdr_permit_ddl_locking = true) :
    (bdr_acquire_ddl_lock env b node lock_type sched).status = .error .no_peer_nodes ∧
    (bdr_acquire_ddl_lock env b node lock_type sched).effects = [] ∧
    (bdr_acquire_ddl_lock env b node lock_type sched).node = node ∧
    (bdr_acquire_ddl_lock env b node lock_type sched).backend.this_xact_acquired_lock
      = false := by
  obtain ⟨h1, h2, h3, h4⟩ :=
    acquire_refused env b node lock_type sched hc hflag (Or.inr (Or.inl hn))
  refine ⟨?_, h2, h1, h3⟩
  rw [h4]; simp [hp, hn]

/-- C6, instance: the first request on a node that has just started. -/
theorem C6_no_peers_witness :
    (bdr_acquire_ddl_lock (exampleEnv 0 0 true) freshBackend
      { db := exampleReady 0, locks := [] } .BDR_LOCK_WRITE []).status =
      .error .no_peer_nodes :=
  (C6_no_peers (exampleEnv 0 0 true) freshBackend
    { db := exampleReady 0, locks := [] } .BDR_LOCK_WRITE [] (by decide) rfl rfl rfl).1

/-! ## C3: success only after a quorum -/

theorem acquire_poll_returned_iff (db : BdrLocksDBState) :
    bdr_acquire_ddl_lock_poll db = .returned ↔ Quorum db := by
  unfold bdr_acquire_ddl_lock_poll Quorum
  by_cases hd : db.acquire_declined > 0
  · simp [hd]; omega
  · by_cases hq : db.acquire_confirmed ≥ db.nnodes
    · simp [hd, hq]; omega
    · simp [hd, hq]

theorem acquire_poll_declined (db : BdrLocksDBState) (h : db.acquire_declined > 0) :
    bdr_acquire_ddl_lock_poll db = .error .declined_by_another_node := by
  simp [bdr_acquire_ddl_lock_poll, h]

/-- When the wait loop and the final section return, the last state the loop
saw under the LWLock had the quorum. -/
theorem acquire_wait_returned (b : Backend) (eff : List Effect) (sched : List Interleave) :
    ∀ (node : Node) (seen : List BdrLocksDBState),
      (bdr_acquire_ddl_lock_wait b eff node sched seen).status = .returned →
      ∃ s, (bdr_acquire_ddl_lock_wait b eff node sched seen).polled.getLast? = some s ∧
        s ∈ (bdr_acquire_ddl_lock_wait b eff node sched seen).polled ∧ Quorum s := by
  induction sched with
  | nil => intro node seen h; simp [bdr_acquire_ddl_lock_wait] at h
  | cons i rest ih =>
    intro node seen h
    unfold bdr_acquire_ddl_lock_wait at h ⊢
    cases hp : bdr_acquire_ddl_lock_poll (i.others node).db with
    | error e => simp [hp] at h
    | returned =>
      simp only [hp]
      exact ⟨(i.others node).db, by simp, by simp, (acquire_poll_returned_iff _).1 hp⟩
    | waiting =>
      simp only [hp] at h ⊢
      by_cases hd : i.postmaster_death = true
      · simp [hd] at h
      · by_cases hi : i.interrupt = true
        · simp [hd, hi] at h
        · simp only [hd, hi] at h ⊢
          exact ih _ _ h

theorem acquire_begin_returned (env : Env) (b : Backend) (node : Node)
    (lock_type : BDRLockType)
    (h : (bdr_acquire_ddl_lock_begin env b node lock_type).status = .returned) :
    b.this_xact_acquired_lock = true := by
  unfold bdr_acquire_ddl_lock_begin at h
  rcases find_my_database_false env node.db with hf | hf
  · rw [hf] at h
    by_cases hflag : b.this_xact_acquired_lock = true
    · exact hflag
    · exfalso
      have hr := register_xact_callback_flag b
      simp only [Bool.not_eq_true] at hflag
      simp only [hflag, hr] at h
      by_cases hp : env.bdr_permit_ddl_locking = true
      · by_cases hn : node.db.nnodes = 0
        · simp [hp, hn] at h
        · by_cases hl : node.db.lockcount > 0
          · simp [hp, hn, hl] at h
          · simp [hp, hn, hl] at h
      · simp [hp] at h
  · rw [hf] at h; simp at h

/-- A call that returns either found the lock already acquired by its
transaction, or saw the quorum in its wait loop. -/
theorem acquire_returned (env : Env) (b : Backend) (node : Node) (lock_type : BDRLockType)
    (sched : List Interleave)
    (h : (bdr_acquire_ddl_lock env b node lock_type sched).status = .returned) :
    (b.this_xact_acquired_lock = true ∧
      (bdr_acquire_ddl_lock env b node lock_type sched).polled = []) ∨
    ∃ s, (bdr_acquire_ddl_lock env b node lock_type sched).polled.getLast? = some s ∧
      s ∈ (bdr_acquire_ddl_lock env b node lock_type sched).polled ∧ Quorum s := by
  by_cases hw : (bdr_acquire_ddl_lock_begin env b node lock_type).status = .waiting
  · right
    have e : bdr_acquire_ddl_lock env b node lock_type sched =
        bdr_acquire_ddl_lock_wait (bdr_acquire_ddl_lock_begin env b node lock_type).backend
          (bdr_acquire_ddl_lock_begin env b node lock_type).effects
          (bdr_acquire_ddl_lock_begin env b node lock_type).node sched [] := by
      unfold bdr_acquire_ddl_lock
      simp [hw]
    rw [e] at h ⊢
    exact acquire_wait_returned _ _ sched _ _ h
  · left
    rw [acquire_of_begin env b node lock_type sched hw] at h ⊢
    exact ⟨acquire_begin_returned env b node lock_type h, rfl⟩

/-- A call that returns before the wait loop took the shortcut: the flag of
the transaction is set, the lock type recorded in the slot is at least the
one asked for, and the call changed nothing and logged nothing. -/
theorem acquire_begin_shortcut (env : Env) (b : Backend) (node : Node)
    (lock_type : BDRLockType)
    (h : (bdr_acquire_ddl_lock_begin env b node lock_type).status = .returned) :
    b.this_xact_acquired_lock = true ∧ node.db.lock_type.val ≥ lock_type.val ∧
    bdr_acquire_ddl_lock_begin env b node lock_type =
      { backend := b, node := node, effects := [], status := .returned } := by
  have hflag := acquire_begin_returned env b node lock_type h
  unfold bdr_acquire_ddl_lock_begin at h ⊢
  rcases find_my_database_false env node.db with hf | hf
  · rw [hf] at h ⊢
    by_cases hs : node.db.lock_type.val ≥ lock_type.val
    · simp [hflag, hs]
    · exfalso
      have hr := register_xact_callback_flag b
      simp [hflag, hs, hr] at h
  · rw [hf] at h; simp at h

/-- C3, as stated, fails: `bdr_acquire_ddl_lock` can return without any
instant at which `acquire_confirmed >= nnodes` and `acquire_declined == 0`
held for the lock it was asked for. A call that returns has either seen both
at its last look under the LWLock, or has taken the shortcut: the flag of the
transaction is set and the lock type recorded in the slot is at least the one
asked for, and then the call logs no request and looks at no tally. The wait
loop itself leaves through the `break` exactly in a state with the quorum and
raises whenever `acquire_declined > 0`. But the flag is set before any peer
answered and the lock type is shared: in `exampleDeclinedCalls` the first call
is declined and the second returns, no state with a quorum having been seen;
in `writeShortcutTrace` the call for the write lock on node 0 returns, node 0
having logged requests for the DDL lock only, because the slot records the
write lock that node 0 granted to node 1. -/
theorem C3_return_without_quorum :
    (∀ (env : Env) (b : Backend) (node : Node) (lock_type : BDRLockType)
        (sched : List Interleave),
      (bdr_acquire_ddl_lock env b node lock_type sched).status = .returned →
      (b.this_xact_acquired_lock = true ∧ node.db.lock_type.val ≥ lock_type.val ∧
        bdr_acquire_ddl_lock env b node lock_type sched =
          { backend := b, node := node, effects := [], status := .returned, polled := [] }) ∨
      ∃ s, (bdr_acquire_ddl_lock env b node lock_type sched).polled.getLast? = some s ∧
        s.acquire_confirmed ≥ s.nnodes ∧ s.acquire_declined = 0) ∧
    (∀ db, bdr_acquire_ddl_lock_poll db = .returned ↔
      (db.acquire_confirmed ≥ db.nnodes ∧ db.acquire_declined = 0)) ∧
    (∀ db, db.acquire_declined > 0 →
      bdr_acquire_ddl_lock_poll db = .error .declined_by_another_node) ∧
    (xact_acquire_calls freshBackend { db := exampleReady 1, locks := [] }
        exampleDeclinedCalls).map
      (fun r => (r.status, r.backend.this_xact_acquired_lock))
      = [(.error .declined_by_another_node, true), (.returned, true)] ∧
    (xact_acquire_calls freshBackend { db := exampleReady 1, locks := [] }
        exampleDeclinedCalls).map
      (fun r => r.polled.map (fun s => (s.acquire_confirmed, s.acquire_declined, s.nnodes)))
      = [[(0, 1, 1)], []] ∧
    (xact_acquire_calls freshBackend { db := exampleReady 1, locks := [] }
        exampleDeclinedCalls).map
      (fun r => acquiresLogged (loggedMessages r.effects))
      = [[.BDR_LOCK_DDL], []] ∧
    (Cluster.run (Cluster.init 3) writeShortcutTrace.dropLast).map
      (fun c => (c.get? 0).map (fun p =>
        (p.call, p.node.db.lockcount, p.node.db.lock_type)))
      = some (some (some .returned, 1, .BDR_LOCK_WRITE)) ∧
    (Cluster.run (Cluster.init 3) writeShortcutTrace.dropLast).map
      (fun c => (c.get? 0).map (fun p =>
        (p.node.db.lock_holder, acquiresLogged p.sent,
          (bdr_acquire_ddl_lock (exampleEnv 0 0 true) p.backend p.node .BDR_LOCK_WRITE
            []).status)))
      = some (some (2, [.BDR_LOCK_DDL, .BDR_LOCK_DDL], .returned)) ∧
    (Cluster.run (Cluster.init 3) writeShortcutTrace).map
      (fun c => (c.holders, (c.get? 0).map (fun p => (p.call, acquiresLogged p.sent))))
      = some ([0], some (some .returned, [.BDR_LOCK_DDL, .BDR_LOCK_DDL])) := by
  refine ⟨?_, acquire_poll_returned_iff, acquire_poll_declined, by decide, by decide,
    by decide, by decide, by decide, by decide⟩
  intro env b node lock_type sched h
  by_cases hw : (bdr_acquire_ddl_lock_begin env b node lock_type).status = .waiting
  · right
    rcases acquire_returned env b node lock_type sched h with ⟨_, hp⟩ | ⟨s, h1, _, h2⟩
    · exfalso
      have e : bdr_acquire_ddl_lock env b node lock_type sched =
          bdr_acquire_ddl_lock_wait (bdr_acquire_ddl_lock_begin env b node lock_type).backend
            (bdr_acquire_ddl_lock_begin env b node lock_type).effects
            (bdr_acquire_ddl_lock_begin env b node lock_type).node sched [] := by
        unfold bdr_acquire_ddl_lock
        simp [hw]
      rw [e] at h hp
      obtain ⟨s, h1, _, _⟩ := acquire_wait_returned _ _ sched _ _ h
      rw [hp] at h1
      cases h1
    · exact ⟨s, h1, h2⟩
  · left
    have e := acquire_of_begin env b node lock_type sched hw
    rw [e] at h
    obtain ⟨h1, h2, h3⟩ := acquire_begin_shortcut env b node lock_type h
    refine ⟨h1, h2, ?_⟩
    rw [e, h3]

/-- C3, instance: the second call of `exampleDeclinedCalls` takes the
shortcut, in the state the declined first call left. -/
theorem C3_return_without_quorum_witness :
    (bdr_acquire_ddl_lock (exampleEnv 0 0 true)
      { this_xact_acquired_lock := true, registered := true }
      { db := { exampleReady 1 with
          lockcount := 1, lock_type := .BDR_LOCK_DDL, acquire_declined := 1,
          requestor := some 0 },
        locks := [] } .BDR_LOCK_DDL []).polled = [] ∧
    (exampleReady 1).acquire_confirmed < (exampleReady 1).nnodes := by
  have h := C3_return_without_quorum.1 (exampleEnv 0 0 true)
    { this_xact_acquired_lock := true, registered := true }
    { db := { exampleReady 1 with
        lockcount := 1, lock_type := .BDR_LOCK_DDL, acquire_declined := 1,
        requestor := some 0 },
      locks := [] } .BDR_LOCK_DDL [] rfl
  rcases h with ⟨_, _, e⟩ | ⟨s, hs, _⟩
  · rw [e]
    exact ⟨rfl, by decide⟩
  · have hp : (bdr_acquire_ddl_lock (exampleEnv 0 0 true)
        { this_xact_acquired_lock := true, registered := true }
        { db := { exampleReady 1 with
            lockcount := 1, lock_type := .BDR_LOCK_DDL, acquire_declined := 1,
            requestor := some 0 },
          locks := [] } .BDR_LOCK_DDL []).polled = [] := rfl
    rw [hp] at hs
    cases hs

/-! ## C7: the DML gate -/

theorem locks_scan_update (k : BdrNodeId) (f : LockRow → LockRow)
    (hf : ∀ r, (f r).holder = r.holder) (locks : List LockRow) :
    locks_begin_scan (locks_update locks k f) k = (locks_begin_scan locks k).map f := by
  induction locks with
  | nil => rfl
  | cons r rest ih =>
    have ih1 : List.filter (fun r => r.holder == k)
        (List.map (fun r => if (r.holder == k) = true then f r else r) rest) =
        List.map f (List.filter (fun r => r.holder == k) rest) := ih
    show List.filter (fun r => r.holder == k)
        (List.map (fun r => if (r.holder == k) = true then f r else r) (r :: rest)) =
        List.map f (List.filter (fun r => r.holder == k) (r :: rest))
    rw [List.map_cons]
    by_cases h : (r.holder == k) = true
    · have h2 : ((f r).holder == k) = true := by rw [hf]; exact h
      rw [if_pos h]
      simp only [List.filter_cons, h, h2, if_true, List.map_cons, ih1]
    · rw [if_neg h]
      simp only [List.filter_cons, h, if_false, ih1, Bool.false_eq_true]

/-- The request is declined: one decline message naming the holder recorded
in the slot, nothing else. -/
theorem process_acquire_declines (env : Env) (node : Node) (origin : BdrNodeId)
    (lock_type : BDRLockType)
    (ho : check_is_my_origin_node env origin = true) (hc : Configured env node.db)
    (h : (node.db.lockcount > 0 ∧
          ¬ (node.db.lock_holder = env.replication_origin_id ∧
             lock_type.val > node.db.lock_type.val)) ∨
         (node.db.lockcount = 0 ∧ ∃ r ∈ node.locks, r.holder = origin)) :
    bdr_process_acquire_ddl_lock env node origin lock_type =
      { node := node,
        effects := [Effect.LogStandbyMessage
          { origin := env.self,
            payload := .BDR_MESSAGE_DECLINE_LOCK
              (env.bdr_fetch_sysid_via_node_id node.db.lock_holder) lock_type } false],
        error := none } := by
  unfold bdr_process_acquire_ddl_lock
  rw [find_my_database_ok env node.db hc]
  rcases h with ⟨h1, h2⟩ | ⟨h1, r, hr, hk⟩
  · have h0 : node.db.lockcount ≠ 0 := by omega
    have h3 : (node.db.lock_holder == env.replication_origin_id
        && decide (lock_type.val > node.db.lock_type.val)) = false := by
      by_cases ha : node.db.lock_holder = env.replication_origin_id
      · by_cases hb : lock_type.val > node.db.lock_type.val
        · exact absurd ⟨ha, hb⟩ h2
        · simp [hb]
      · simp [ha]
    simp [ho, h0, h3, bdr_process_acquire_ddl_lock_decline, bdr_prepare_message]
  · have hany : (node.locks.any fun r => r.holder == origin) = true := by
      rw [List.any_eq_true]
      exact ⟨r, hr, by simp [hk]⟩
    simp [ho, h1, simple_heap_insert, hany, bdr_process_acquire_ddl_lock_decline,
      bdr_prepare_message]

/-- C9: whenever `bdr_process_acquire_ddl_lock` does not grant a request of
its peer (a lock is held and the request is not an upgrade by the holder, as
while a local acquisition is in flight; or the insert into the lock table
hits the unique key), it logs exactly one message, a decline that carries the
identifier of the holder recorded in the slot and the requested lock type,
and leaves the slot and the lock table unchanged. -/
theorem C9_decline (env : Env) (node : Node) (origin : BdrNodeId)
    (lock_type : BDRLockType)
    (ho : check_is_my_origin_node env origin = true) (hc : Configured env node.db)
    (h : (node.db.lockcount > 0 ∧
          ¬ (node.db.lock_holder = env.replication_origin_id ∧
             lock_type.val > node.db.lock_type.val)) ∨
         (node.db.lockcount = 0 ∧ ∃ r ∈ node.locks, r.holder = origin)) :
    bdr_process_acquire_ddl_lock env node origin lock_type =
      { node := node,
        effects := [Effect.LogStandbyMessage
          { origin := env.self,
            payload := .BDR_MESSAGE_DECLINE_LOCK
              (env.bdr_fetch_sysid_via_node_id node.db.lock_holder) lock_type } false],
        error := none } ∧
    loggedMessages (bdr_process_acquire_ddl_lock env node origin lock_type).effects =
      [{ origin := env.self,
         payload := .BDR_MESSAGE_DECLINE_LOCK
           (env.bdr_fetch_sysid_via_node_id node.db.lock_holder) lock_type }] := by
  have e := process_acquire_declines env node origin lock_type ho hc h
  refine ⟨e, ?_⟩
  rw [e]; rfl

/-- C9, instance: a request of peer 1 for the write lock arrives while a
local request is in flight. -/
theorem C9_decline_witness :
    bdr_process_acquire_ddl_lock (exampleEnv 0 2 true) exampleRequesting (exampleNodeId 1)
      .BDR_LOCK_WRITE =
      { node := exampleRequesting,
        effects := [Effect.LogStandbyMessage
          { origin := exampleNodeId 0,
            payload := .BDR_MESSAGE_DECLINE_LOCK (exampleNodeId 0) .BDR_LOCK_WRITE } false],
        error := none } :=
  (C9_decline (exampleEnv 0 2 true) exampleRequesting (exampleNodeId 1) .BDR_LOCK_WRITE
    (by decide) (by decide) (Or.inl (by decide))).1

/-! ## C10: a release message without a row -/

/-- What does hold for a release message of the worker's peer when the lock
table has no row of that node: no error is raised, the warning is the first
effect and the lock table is unchanged. -/
theorem process_release_without_row (env : Env) (node : Node) (origin lock : BdrNodeId)
    (ho : check_is_my_origin_node env origin = true) (hc : Configured env node.db)
    (hrow : locks_begin_scan node.locks origin = []) :
    (bdr_process_release_ddl_lock env node origin lock).error = none ∧
    (bdr_process_release_ddl_lock env node origin lock).node.locks = node.locks ∧
    (bdr_process_release_ddl_lock env node origin lock).effects.head? =
      some (Effect.warning .release_without_lock_entry) := by
  unfold bdr_process_release_ddl_lock
  rw [find_my_database_ok env node.db hc]
  have hf : node.locks.filter (fun r => !(r.holder == origin)) = node.locks := by
    rw [List.filter_eq_self]
    intro r hr
    have : r ∉ locks_begin_scan node.locks origin := by rw [hrow]; simp
    unfold locks_begin_scan at this
    simp only [List.mem_filter, not_and] at this
    simpa using this hr
  simp [ho, hrow, hf]

/-- C10, the failing input: node 0 holds the DDL lock for node 1; the worker
for node 2 handles a release message of node 2, of which the lock table has no
row. The handler warns and then gives up the lock of node 1: `lockcount`
drops to 0, `lock_holder` and `lock_type` are cleared and the waiting process
is woken, while the row of node 1 stays in the lock table. -/
theorem C10_release_without_row_unlocks :
    locks_begin_scan exampleHeldWithWaiter.locks (exampleNodeId 2) = [] ∧
    bdr_process_release_ddl_lock (exampleEnv 0 3 true) exampleHeldWithWaiter
      (exampleNodeId 2) (exampleNodeId 2) =
      { node :=
          { db := { exampleReady 2 with
              lockcount := 0, lock_holder := InvalidRepNodeId,
              lock_type := .BDR_LOCK_NOLOCK, waiters := [] },
            locks := exampleHeldWithWaiter.locks },
        effects := [Effect.warning .release_without_lock_entry, Effect.SetLatch 7],
        error := none } ∧
    (bdr_process_release_ddl_lock (exampleEnv 0 3 true) exampleHeldWithWaiter
      (exampleNodeId 2) (exampleNodeId 2)).node.db ≠ exampleHeldWithWaiter.db := by
  decide

/-! ## C1: mutual exclusion across the cluster -/

/-- Stations of `mutexTrace`. After 22 events node 0 is the only holder and
nodes 1 and 2 hold the local lock for it (origin 1). After 25 events node 1
has handled the old release message of node 2 and given up the lock it held
for node 0, whose row is still in its table. After 32 events node 0 has
handled the release message that followed node 1's declined request and
given up its own lock, its transaction still open; after 37 so has
node 2. -/
theorem mutexTrace_stations :
    (Cluster.run (Cluster.init 3) (mutexTrace.take 22)).map
      (fun c => (c.holders, c.map (fun p => (p.node.db.lockcount, p.node.db.lock_holder))))
      = some ([0], [(1, 0), (1, 1), (1, 1)]) ∧
    (Cluster.run (Cluster.init 3) (mutexTrace.take 25)).map
      (fun c => (c.holders,
        c.map (fun p => (p.node.db.lockcount, p.node.db.lock_holder, p.node.locks.length))))
      = some ([0], [(1, 0, 0), (0, 0, 1), (1, 1, 1)]) ∧
    (Cluster.run (Cluster.init 3) (mutexTrace.take 32)).map
      (fun c => (c.holders, c.map (fun p => (p.node.db.lockcount, p.call))))
      = some ([0], [(0, some .returned), (0, none), (1, none)]) ∧
    (Cluster.run (Cluster.init 3) (mutexTrace.take 37)).map
      (fun c => (c.holders, c.map (fun p => p.node.db.lockcount)))
      = some ([0], [0, 0, 0]) := by
  decide

/-- C1, the failing run: on a cluster of three nodes `mutexTrace` is a run of
`bdr_acquire_ddl_lock`, the transaction-end hook and the message handlers,
each stream handled in order, after which the backends of node 0 and of
node 1 both have a call of `bdr_acquire_ddl_lock` that returned in a
transaction that has not ended. -/
theorem C1_two_holders :
    (Cluster.run (Cluster.init 3) mutexTrace).map Cluster.holders = some [0, 1] := by
  decide

/-! ## C2: the invariant of the slot -/

theorem locks_update_holders (k : BdrNodeId) (f : LockRow → LockRow)
    (hf : ∀ r, (f r).holder = r.holder) (locks : List LockRow) :
    (locks_update locks k f).map (fun r => r.holder) = locks.map (fun r => r.holder) := by
  unfold locks_update
  rw [List.map_map]
  apply List.map_congr_left
  intro r _
  by_cases h : r.holder = k
  · simp [h, hf]
  · simp [h]

theorem send_confirm_view (env : Env) (node : Node) :
    (bdr_send_confirm_lock env node).node.view = node.view := by
  unfold bdr_send_confirm_lock
  dsimp only
  split
  · rfl
  · simp only [Node.view]
    rw [locks_update_holders _ (fun r => { r with state := "acquired" }) (fun _ => rfl)]
  · rfl

theorem granted_view (env : Env) (node : Node) (lock_type : BDRLockType) :
    (bdr_process_acquire_ddl_lock_granted env node lock_type).node.view = node.view := by
  unfold bdr_process_acquire_ddl_lock_granted
  split
  · rfl
  · exact send_confirm_view env node

theorem process_confirm_view (env : Env) (node : Node) (origin lock : BdrNodeId)
    (lock_type : BDRLockType) :
    (bdr_process_confirm_ddl_lock env node origin lock lock_type).node.view = node.view := by
  unfold bdr_process_confirm_ddl_lock
  repeat' split
  all_goals rfl

theorem process_decline_view (env : Env) (node : Node) (origin lock : BdrNodeId)
    (lock_type : BDRLockType) :
    (bdr_process_decline_ddl_lock env node origin lock lock_type).node.view = node.view := by
  unfold bdr_process_decline_ddl_lock
  repeat' split
  all_goals rfl

theorem process_request_replay_confirm_view (env : Env) (node : Node) (origin : BdrNodeId)
    (lsn : XLogRecPtr) :
    (bdr_process_request_replay_confirm env node origin lsn).node.view = node.view := by
  unfold bdr_process_request_replay_confirm
  repeat' split
  all_goals rfl

theorem process_replay_confirm_view (env : Env) (node : Node) (origin : BdrNodeId)
    (lsn : XLogRecPtr) :
    (bdr_process_replay_confirm env node origin lsn).node.view = node.view := by
  unfold bdr_process_replay_confirm
  by_cases ho : check_is_my_origin_node env origin = true
  · simp only [ho, Bool.not_true, Bool.false_eq_true, if_false]
    rcases find_my_database_false env node.db with hf | hf
    · rw [hf]
      dsimp only
      by_cases hl : (node.db.replay_confirmed_lsn == lsn) = true
      · simp only [hl, if_true]
        by_cases hq : node.db.replay_confirmed + 1 ≥ node.db.nnodes
        · simp only [hq, decide_True, if_true]
          rw [send_confirm_view]
          rfl
        · simp only [hq, decide_False, Bool.false_eq_true, if_false]
          rfl
      · simp only [hl, Bool.false_eq_true, if_false]
    · rw [hf]
  · simp only [ho, Bool.not_false, if_true]

theorem find_my_database_in_use (env : Env) (db db1 : BdrLocksDBState)
    (h : bdr_locks_find_my_database env db false = .ok db1) : db.in_use = true := by
  unfold bdr_locks_find_my_database bdr_locks_find_database at h
  by_cases hc : (db.in_use && db.dboid == env.MyDatabaseId) = true
  · simp only [Bool.and_eq_true] at hc
    exact hc.1
  · simp [hc] at h

theorem check_is_my_origin_node_eq (env : Env) (origin : BdrNodeId)
    (h : check_is_my_origin_node env origin = true) :
    origin = env.bdr_fetch_sysid_via_node_id env.replication_origin_id := by
  unfold check_is_my_origin_node at h
  generalize env.bdr_fetch_sysid_via_node_id env.replication_origin_id = k at h ⊢
  obtain ⟨a, b, c⟩ := origin
  obtain ⟨a1, b1, c1⟩ := k
  simp only [bne_iff_ne, ne_eq, Bool.or_eq_true, decide_eq_true_eq] at h
  by_cases h1 : a = a1
  · by_cases h2 : b = b1
    · by_cases h3 : c = c1
      · rw [h1, h2, h3]
      · simp [h1, h2, h3] at h
    · simp [h1, h2] at h
  · simp [h1] at h

/-- What `bdr_process_acquire_ddl_lock` does to the view when it raises no
error: nothing, a grant on an idle node, or an upgrade for the holder. -/
theorem process_acquire_view (env : Env) (node : Node) (origin : BdrNodeId)
    (lock_type : BDRLockType)
    (herr : (bdr_process_acquire_ddl_lock env node origin lock_type).error = none) :
    (bdr_process_acquire_ddl_lock env node origin lock_type).node.view = node.view ∨
    (node.db.lockcount = 0 ∧ node.db.in_use = true ∧
      origin = env.bdr_fetch_sysid_via_node_id env.replication_origin_id ∧
      (bdr_process_acquire_ddl_lock env node origin lock_type).node.view =
        { node.view with
          lockcount := 1, lock_type := lock_type,
          lock_holder := env.replication_origin_id,
          holders := node.view.holders ++ [origin] }) ∨
    (node.db.lockcount ≠ 0 ∧ node.db.lock_holder = env.replication_origin_id ∧
      lock_type.val > node.db.lock_type.val ∧
      (bdr_process_acquire_ddl_lock env node origin lock_type).node.view =
        { node.view with lock_type := lock_type }) := by
  unfold bdr_process_acquire_ddl_lock at herr ⊢
  by_cases ho : check_is_my_origin_node env origin = true
  · simp only [ho, Bool.not_true, Bool.false_eq_true, if_false] at herr ⊢
    rcases find_my_database_false env node.db with hf | hf
    swap
    · rw [hf] at herr; simp at herr
    · rw [hf] at herr ⊢
      dsimp only at herr ⊢
      by_cases h0 : node.db.lockcount = 0
      · simp only [h0, beq_self_eq_true, if_true] at herr ⊢
        cases hi : simple_heap_insert node.locks
            { lock_type := bdr_lock_type_to_name lock_type, holder := origin,
              acquired_at := env.GetCurrentTimestamp, owner := env.self,
              state := "catchup" } with
        | none => left; rfl
        | some locks =>
          right; left
          refine ⟨trivial, find_my_database_in_use env node.db node.db hf,
            check_is_my_origin_node_eq env origin ho, ?_⟩
          dsimp only
          rw [granted_view]
          unfold simple_heap_insert at hi
          split at hi
          · cases hi
          · simp only [Option.some.injEq] at hi
            subst hi
            simp [Node.view]
      · have hb : (node.db.lockcount == 0) = false := by simpa using h0
        simp only [hb, Bool.false_eq_true, if_false] at herr ⊢
        by_cases hu : (node.db.lock_holder == env.replication_origin_id
            && decide (lock_type.val > node.db.lock_type.val)) = true
        · simp only [hu, if_true] at herr ⊢
          right; right
          simp only [Bool.and_eq_true, beq_iff_eq, decide_eq_true_eq] at hu
          refine ⟨h0, hu.1, hu.2, ?_⟩
          split at herr
          · simp at herr
          · rw [granted_view]
            simp only [Node.view]
            rw [locks_update_holders _
              (fun r => { r with lock_type := bdr_lock_type_to_name lock_type })
              (fun _ => rfl)]
          · simp at herr
        · simp only [hu, Bool.false_eq_true, if_false] at herr ⊢
          left; rfl
  · simp only [ho, Bool.not_false, if_true]
    left; trivial

theorem on_unlock_fields (db : BdrLocksDBState) :
    (bdr_locks_on_unlock db).1 = { db with waiters := [] } := rfl

/-- What `bdr_process_release_ddl_lock` does to the view when it raises no
error: nothing, or the release. -/
theorem process_release_view (env : Env) (node : Node) (origin lock : BdrNodeId)
    (herr : (bdr_process_release_ddl_lock env node origin lock).error = none) :
    (bdr_process_release_ddl_lock env node origin lock).node.view = node.view ∨
    (bdr_process_release_ddl_lock env node origin lock).node.view =
      { node.view with
        lockcount := node.db.lockcount - 1, lock_type := .BDR_LOCK_NOLOCK,
        lock_holder := if node.db.lockcount > 0 then InvalidRepNodeId
                       else node.db.lock_holder,
        holders := node.view.holders.filter (fun k => !(k == origin)) } := by
  unfold bdr_process_release_ddl_lock at herr ⊢
  by_cases ho : check_is_my_origin_node env origin = true
  · simp only [ho, Bool.not_true, Bool.false_eq_true, if_false] at herr ⊢
    rcases find_my_database_false env node.db with hf | hf
    swap
    · rw [hf] at herr; simp at herr
    · rw [hf]
      right
      dsimp only
      have hh : List.map (fun r => r.holder)
          (List.filter (fun r => !(r.holder == origin)) node.locks) =
          List.filter (fun k => !(k == origin)) (List.map (fun r => r.holder) node.locks) := by
        rw [List.filter_map]; rfl
      by_cases h0 : node.db.lockcount > 0
      · by_cases h1 : node.db.lockcount - 1 = 0
        · simp [Node.view, h0, h1, bdr_locks_on_unlock, hh]
        · simp [Node.view, h0, h1, hh]
      · have h2 : node.db.lockcount = 0 := by omega
        simp [Node.view, h2, bdr_locks_on_unlock, hh]
  · simp only [ho, Bool.not_false, if_true]
    left; trivial

theorem remote_startup_row_flags (acc : BdrLocksDBState × List Effect) :
    (bdr_locks_process_remote_startup_row acc).1.in_use = acc.1.in_use ∧
    (bdr_locks_process_remote_startup_row acc).1.locked_and_loaded
      = acc.1.locked_and_loaded := by
  unfold bdr_locks_process_remote_startup_row
  by_cases h0 : acc.1.lockcount = 0
  · simp [h0, bdr_locks_on_unlock]
  · by_cases h1 : acc.1.lockcount - 1 = 0
    · simp [h0, h1, bdr_locks_on_unlock]
    · simp [h0, h1]

theorem remote_startup_row_idle (acc : BdrLocksDBState × List Effect)
    (h : acc.1.lockcount = 0) :
    (bdr_locks_process_remote_startup_row acc).1.lockcount = 0 ∧
    (bdr_locks_process_remote_startup_row acc).1.lock_type = acc.1.lock_type ∧
    (bdr_locks_process_remote_startup_row acc).1.lock_holder = acc.1.lock_holder := by
  unfold bdr_locks_process_remote_startup_row
  simp [h, bdr_locks_on_unlock]

theorem remote_startup_row_held (acc : BdrLocksDBState × List Effect)
    (h : acc.1.lockcount = 1) :
    (bdr_locks_process_remote_startup_row acc).1.lockcount = 0 ∧
    (bdr_locks_process_remote_startup_row acc).1.lock_type = .BDR_LOCK_NOLOCK ∧
    (bdr_locks_process_remote_startup_row acc).1.lock_holder = InvalidRepNodeId := by
  unfold bdr_locks_process_remote_startup_row
  simp [h, bdr_locks_on_unlock]

theorem remote_startup_fold_flags (rows : List LockRow) :
    ∀ acc : BdrLocksDBState × List Effect,
      (rows.foldl (fun a _ => bdr_locks_process_remote_startup_row a) acc).1.in_use
        = acc.1.in_use ∧
      (rows.foldl (fun a _ => bdr_locks_process_remote_startup_row a) acc).1.locked_and_loaded
        = acc.1.locked_and_loaded := by
  induction rows with
  | nil => intro acc; exact ⟨rfl, rfl⟩
  | cons r rest ih =>
    intro acc
    rw [List.foldl_cons]
    obtain ⟨h1, h2⟩ := ih (bdr_locks_process_remote_startup_row acc)
    obtain ⟨h3, h4⟩ := remote_startup_row_flags acc
    exact ⟨h1.trans h3, h2.trans h4⟩

theorem remote_startup_fold_idle (rows : List LockRow) :
    ∀ acc : BdrLocksDBState × List Effect, acc.1.lockcount = 0 →
      (rows.foldl (fun a _ => bdr_locks_process_remote_startup_row a) acc).1.lockcount = 0 ∧
      (rows.foldl (fun a _ => bdr_locks_process_remote_startup_row a) acc).1.lock_type
        = acc.1.lock_type ∧
      (rows.foldl (fun a _ => bdr_locks_process_remote_startup_row a) acc).1.lock_holder
        = acc.1.lock_holder := by
  induction rows with
  | nil => intro acc h; exact ⟨h, rfl, rfl⟩
  | cons r rest ih =>
    intro acc h
    rw [List.foldl_cons]
    obtain ⟨h1, h2, h3⟩ := remote_startup_row_idle acc h
    obtain ⟨h4, h5, h6⟩ := ih (bdr_locks_process_remote_startup_row acc) h1
    exact ⟨h4, h5.trans h2, h6.trans h3⟩

theorem remote_startup_fold_held (rows : List LockRow) (hne : rows ≠ [])
    (acc : BdrLocksDBState × List Effect) (h : acc.1.lockcount = 1) :
    (rows.foldl (fun a _ => bdr_locks_process_remote_startup_row a) acc).1.lockcount = 0 ∧
    (rows.foldl (fun a _ => bdr_locks_process_remote_startup_row a) acc).1.lock_type
      = .BDR_LOCK_NOLOCK ∧
    (rows.foldl (fun a _ => bdr_locks_process_remote_startup_row a) acc).1.lock_holder
      = InvalidRepNodeId := by
  cases rows with
  | nil => exact absurd rfl hne
  | cons r rest =>
    rw [List.foldl_cons]
    obtain ⟨h1, h2, h3⟩ := remote_startup_row_held acc h
    obtain ⟨h4, h5, h6⟩ := remote_startup_fold_idle rest _ h1
    exact ⟨h4, h5.trans h2, h6.trans h3⟩

theorem remote_startup_node (env : Env) (node : Node) (origin : BdrNodeId)
    (herr : (bdr_locks_process_remote_startup env node origin).error = none) :
    (bdr_locks_process_remote_startup env node origin).node.db =
      ((locks_begin_scan node.locks origin).foldl
        (fun a _ => bdr_locks_process_remote_startup_row a) (node.db, [])).1 ∧
    (bdr_locks_process_remote_startup env node origin).node.locks =
      node.locks.filter (fun r => !(r.holder == origin)) := by
  unfold bdr_locks_process_remote_startup at herr ⊢
  rcases find_my_database_false env node.db with hf | hf
  · rw [hf]
    exact ⟨rfl, rfl⟩
  · rw [hf] at herr; simp at herr

/-- What the first part of `bdr_acquire_ddl_lock` does to the view and to
the backend's flag: nothing, a first acquisition on an idle node, or a
further request of the transaction that acquired the lock. -/
theorem acquire_begin_view (env : Env) (b : Backend) (node : Node) (lock_type : BDRLockType) :
    ((bdr_acquire_ddl_lock_begin env b node lock_type).node.view = node.view ∧
      (bdr_acquire_ddl_lock_begin env b node lock_type).backend.this_xact_acquired_lock
        = b.this_xact_acquired_lock) ∨
    (b.this_xact_acquired_lock = false ∧ node.db.lockcount = 0 ∧
      (bdr_acquire_ddl_lock_begin env b node lock_type).backend.this_xact_acquired_lock
        = true ∧
      (bdr_acquire_ddl_lock_begin env b node lock_type).node.view =
        { node.view with lockcount := 1, lock_type := lock_type }) ∨
    (b.this_xact_acquired_lock = true ∧
      (bdr_acquire_ddl_lock_begin env b node lock_type).backend.this_xact_acquired_lock
        = true ∧
      (bdr_acquire_ddl_lock_begin env b node lock_type).node.view =
        { node.view with lock_type := lock_type }) := by
  have hr := register_xact_callback_flag b
  unfold bdr_acquire_ddl_lock_begin
  rcases find_my_database_false env node.db with hf | hf
  swap
  · rw [hf]; left; exact ⟨rfl, rfl⟩
  · rw [hf]
    dsimp only
    by_cases hflag : b.this_xact_acquired_lock = true
    · by_cases hge : node.db.lock_type.val ≥ lock_type.val
      · left
        simp [hflag, hge]
      · right; right
        simp [hflag, hge, hr, Node.view]
    · simp only [Bool.not_eq_true] at hflag
      by_cases hp : env.bdr_permit_ddl_locking = true
      · by_cases hn : node.db.nnodes = 0
        · left
          simp [hflag, hp, hn]
        · by_cases hl : node.db.lockcount > 0
          · left
            simp [hflag, hp, hn, hr, hl]
          · right; left
            have h0 : node.db.lockcount = 0 := by omega
            simp [hflag, hp, hn, hr, h0, Node.view]
      · simp only [Bool.not_eq_true] at hp
        left
        simp [hflag, hp]

/-- What `bdr_lock_xact_callback` does to the view and to the backend's flag:
nothing, or the release by the transaction that acquired the lock. -/
theorem xact_callback_view (env : Env) (b : Backend) (node : Node) (event : XactEvent) :
    ((bdr_lock_xact_callback env b node event).node.view = node.view ∧
      (bdr_lock_xact_callback env b node event).backend.this_xact_acquired_lock
        = b.this_xact_acquired_lock) ∨
    (b.this_xact_acquired_lock = true ∧
      (bdr_lock_xact_callback env b node event).backend.this_xact_acquired_lock = false ∧
      (bdr_lock_xact_callback env b node event).node.view =
        { node.view with
          lockcount := node.db.lockcount - 1, lock_type := .BDR_LOCK_NOLOCK }) := by
  unfold bdr_lock_xact_callback
  by_cases hflag : b.this_xact_acquired_lock = true
  · by_cases he : (event == .XACT_EVENT_ABORT || event == .XACT_EVENT_COMMIT) = true
    · right
      refine ⟨hflag, ?_, ?_⟩
      · simp [hflag, he]
      · by_cases h0 : node.db.lockcount > 0
        · by_cases h1 : node.db.lockcount - 1 = 0
          · simp [hflag, he, Node.view, h0, h1, bdr_locks_on_unlock]
          · simp [hflag, he, Node.view, h0, h1]
        · have h2 : node.db.lockcount = 0 := by omega
          simp [hflag, he, Node.view, h2, bdr_locks_on_unlock]
    · left
      simp [hflag, he]
  · left
    simp [hflag]

/-- What `bdr_locks_startup` does to the view of a node whose lock table is
empty until start-up has run. -/
theorem startup_view (env : Env) (node : Node)
    (hl : node.db.in_use = true → node.db.locked_and_loaded = true)
    (hfresh : node.db.locked_and_loaded = false → node.locks = [])
    (herr : (bdr_locks_startup env node).error = none) :
    (bdr_locks_startup env node).node.view = node.view ∨
    (bdr_locks_startup env node).node.view =
      { node.view with in_use := true, locked_and_loaded := true } := by
  unfold bdr_locks_startup at herr ⊢
  unfold bdr_locks_find_my_database bdr_locks_find_database at herr ⊢
  by_cases hc : (node.db.in_use && node.db.dboid == env.MyDatabaseId) = true
  · have hu : node.db.in_use = true := by
      simp only [Bool.and_eq_true] at hc; exact hc.1
    left
    simp [hc, hl hu]
  · by_cases hu : node.db.in_use = true
    · have hd : ¬ node.db.dboid = env.MyDatabaseId := by
        intro h; apply hc; simp [hu, h]
      simp [hu, hd] at herr
    · simp only [Bool.not_eq_true] at hu
      by_cases hld : node.db.locked_and_loaded = true
      · right
        simp [hc, hu, Node.view, hld]
      · simp only [Bool.not_eq_true] at hld
        right
        simp [hc, hu, hld, Node.view, hfresh hld, bdr_locks_startup_rows]

theorem Consistent.same {fetch : RepNodeId → BdrNodeId} {v v1 : LockView}
    {flag flag1 : Nat → Bool} (h : Consistent fetch v flag) (hv : v1 = v)
    (hf : ∀ i, flag1 i = flag i) : Consistent fetch v1 flag1 := by
  have : flag1 = flag := funext hf
  subst hv; subst this; exact h

theorem Consistent.no_rows_idle {fetch : RepNodeId → BdrNodeId} {v : LockView}
    {flag : Nat → Bool} (h : Consistent fetch v flag) (h0 : v.lockcount = 0) :
    v.holders = [] := by
  cases hh : v.holders with
  | nil => rfl
  | cons k rest =>
    have := (h.rows k (by rw [hh]; simp)).1
    omega

theorem Consistent.no_rows_flagged {fetch : RepNodeId → BdrNodeId} {v : LockView}
    {flag : Nat → Bool} (h : Consistent fetch v flag) (i : Nat) (hi : flag i = true) :
    v.holders = [] := by
  cases hh : v.holders with
  | nil => rfl
  | cons k rest =>
    have h1 := (h.rows k (by rw [hh]; simp)).2.1
    exact absurd (h.flagged i hi).2 h1

theorem Consistent.startup {fetch : RepNodeId → BdrNodeId} {v : LockView}
    {flag : Nat → Bool} (h : Consistent fetch v flag) :
    Consistent fetch { v with in_use := true, locked_and_loaded := true } flag :=
  { count_le := h.count_le, type_iff := h.type_iff, holder_zero := h.holder_zero,
    rows := h.rows, flagged := h.flagged, unique := h.unique,
    loaded := fun _ => rfl, fresh := fun hh => by cases hh }

theorem Consistent.grant {fetch : RepNodeId → BdrNodeId} {v : LockView}
    {flag : Nat → Bool} (h : Consistent fetch v flag) (h0 : v.lockcount = 0)
    (hu : v.in_use = true) (roi : RepNodeId) (hroi : roi ≠ InvalidRepNodeId)
    (lock_type : BDRLockType) (hlt : lock_type ≠ .BDR_LOCK_NOLOCK)
    (origin : BdrNodeId) (ho : origin = fetch roi) :
    Consistent fetch
      { v with lockcount := 1, lock_type := lock_type, lock_holder := roi,
               holders := v.holders ++ [origin] } flag :=
  { count_le := le_refl _
    type_iff := ⟨fun hh => (by cases hh), fun hh => absurd hh hlt⟩
    holder_zero := fun hh => by cases hh
    rows := by
      intro k hk
      rw [h.no_rows_idle h0] at hk
      simp only [List.nil_append, List.mem_singleton] at hk
      exact ⟨rfl, hroi, by rw [hk, ho]⟩
    flagged := by
      intro i hi
      have := (h.flagged i hi).1
      omega
    unique := h.unique
    loaded := fun _ => h.loaded hu
    fresh := by
      intro hh
      have := h.loaded hu
      simp only at hh
      rw [this] at hh
      cases hh }

theorem Consistent.upgrade {fetch : RepNodeId → BdrNodeId} {v : LockView}
    {flag : Nat → Bool} (h : Consistent fetch v flag) (h0 : v.lockcount ≠ 0)
    (lock_type : BDRLockType) (hlt : lock_type ≠ .BDR_LOCK_NOLOCK) :
    Consistent fetch { v with lock_type := lock_type } flag :=
  { count_le := h.count_le
    type_iff := ⟨fun hh => absurd hh h0, fun hh => absurd hh hlt⟩
    holder_zero := h.holder_zero, rows := h.rows, flagged := h.flagged
    unique := h.unique, loaded := h.loaded, fresh := h.fresh }

theorem Consistent.release {fetch : RepNodeId → BdrNodeId} {v : LockView}
    {flag : Nat → Bool} (h : Consistent fetch v flag) (origin : BdrNodeId)
    (hadm : origin ∈ v.holders ∨ v.lockcount = 0) :
    Consistent fetch
      { v with
        lockcount := v.lockcount - 1, lock_type := .BDR_LOCK_NOLOCK,
        lock_holder := if v.lockcount > 0 then InvalidRepNodeId else v.lock_holder,
        holders := v.holders.filter (fun k => !(k == origin)) } flag := by
  have hcnt := h.count_le
  have hfil : v.holders.filter (fun k => !(k == origin)) = [] := by
    rcases hadm with hm | h0
    · rw [List.filter_eq_nil_iff]
      intro k hk
      have h1 := (h.rows k hk).2.2
      have h2 := (h.rows origin hm).2.2
      simp [h1, h2]
    · rw [h.no_rows_idle h0]; rfl
  have hnf : ∀ i, flag i = true → False := by
    intro i hi
    rcases hadm with hm | h0
    · exact (h.rows origin hm).2.1 (h.flagged i hi).2
    · have := (h.flagged i hi).1
      omega
  exact
    { count_le := by simp only; omega
      type_iff := ⟨fun _ => rfl, fun _ => by simp only; omega⟩
      holder_zero := by
        intro _
        simp only
        by_cases hp : v.lockcount > 0
        · simp [hp]
        · simp only [hp, if_false]
          exact h.holder_zero (by omega)
      rows := by intro k hk; simp only [hfil] at hk; cases hk
      flagged := fun i hi => (hnf i hi).elim
      unique := h.unique
      loaded := h.loaded
      fresh := fun _ => hfil }

theorem Consistent.local_first {fetch : RepNodeId → BdrNodeId} {v : LockView}
    {flag flag1 : Nat → Bool} (h : Consistent fetch v flag) (h0 : v.lockcount = 0)
    (lock_type : BDRLockType) (hlt : lock_type ≠ .BDR_LOCK_NOLOCK) (i : Nat)
    (hf : ∀ j, flag1 j = if j = i then true else flag j) :
    Consistent fetch { v with lockcount := 1, lock_type := lock_type } flag1 := by
  have hnf : ∀ j, flag j = true → False := by
    intro j hj
    have := (h.flagged j hj).1
    omega
  have hi : ∀ j, flag1 j = true → j = i := by
    intro j hj
    rw [hf j] at hj
    by_cases hji : j = i
    · exact hji
    · simp only [hji, if_false] at hj
      exact (hnf j hj).elim
  exact
    { count_le := le_refl _
      type_iff := ⟨fun hh => (by cases hh), fun hh => absurd hh hlt⟩
      holder_zero := fun hh => by cases hh
      rows := by
        intro k hk
        simp only [h.no_rows_idle h0] at hk
        cases hk
      flagged := fun _ _ => ⟨rfl, h.holder_zero h0⟩
      unique := fun a b ha hb => (hi a ha).trans (hi b hb).symm
      loaded := h.loaded
      fresh := h.fresh }

theorem Consistent.local_end {fetch : RepNodeId → BdrNodeId} {v : LockView}
    {flag flag1 : Nat → Bool} (h : Consistent fetch v flag) (i : Nat)
    (hi : flag i = true) (hf : ∀ j, flag1 j = if j = i then false else flag j) :
    Consistent fetch
      { v with lockcount := v.lockcount - 1, lock_type := .BDR_LOCK_NOLOCK } flag1 := by
  obtain ⟨h1, h2⟩ := h.flagged i hi
  have hnf : ∀ j, flag1 j = true → False := by
    intro j hj
    rw [hf j] at hj
    by_cases hji : j = i
    · simp [hji] at hj
    · simp only [hji, if_false] at hj
      exact hji (h.unique j i hj hi)
  exact
    { count_le := by simp only; omega
      type_iff := ⟨fun _ => rfl, fun _ => by simp only; omega⟩
      holder_zero := fun _ => h2
      rows := by
        intro k hk
        simp only [h.no_rows_flagged i hi] at hk
        cases hk
      flagged := fun j hj => (hnf j hj).elim
      unique := fun a _ ha _ => (hnf a ha).elim
      loaded := h.loaded
      fresh := h.fresh }

theorem Site.Inv.init (fetch : RepNodeId → BdrNodeId) : Site.init.Inv fetch :=
  { count_le := Nat.zero_le _
    type_iff := ⟨fun _ => rfl, fun _ => rfl⟩
    holder_zero := fun _ => rfl
    rows := fun k hk => by cases hk
    flagged := fun i hi => by cases hi
    unique := fun i _ hi _ => by cases hi
    loaded := fun hh => by cases hh
    fresh := fun _ => rfl }

theorem Site.Inv.message {fetch : RepNodeId → BdrNodeId} {s : Site} (h : s.Inv fetch)
    (env : Env) (msg : BdrMessage)
    (ha : (SiteEvent.message env msg).admissible fetch s)
    (herr : (bdr_process_remote_message env s.node msg).error = none) :
    Consistent fetch (bdr_process_remote_message env s.node msg).node.view s.flags := by
  obtain ⟨hfetch, hroi, hpay⟩ := ha
  unfold bdr_process_remote_message at herr ⊢
  cases hp : msg.payload with
  | BDR_MESSAGE_START =>
    simp only [hp] at herr ⊢
    obtain ⟨hdb, hlocks⟩ := remote_startup_node env s.node msg.origin herr
    have hflags := remote_startup_fold_flags (locks_begin_scan s.node.locks msg.origin)
      (s.node.db, [])
    by_cases hscan : locks_begin_scan s.node.locks msg.origin = []
    · have hfil : s.node.locks.filter (fun r => !(r.holder == msg.origin)) = s.node.locks := by
        rw [List.filter_eq_self]
        intro r hr
        have : r ∉ locks_begin_scan s.node.locks msg.origin := by rw [hscan]; simp
        unfold locks_begin_scan at this
        simp only [List.mem_filter, not_and] at this
        simpa using this hr
      apply h.same _ (fun _ => rfl)
      simp only [Node.view, hdb, hlocks, hscan, hfil, List.foldl_nil]
    · obtain ⟨r, hr⟩ := List.exists_mem_of_ne_nil _ hscan
      unfold locks_begin_scan at hr
      simp only [List.mem_filter, beq_iff_eq] at hr
      have hmem : msg.origin ∈ s.node.view.holders := by
        simp only [Node.view, List.mem_map]
        exact ⟨r, hr.1, hr.2⟩
      obtain ⟨h1, h2, h3⟩ := h.rows _ hmem
      obtain ⟨f1, f2, f3⟩ := remote_startup_fold_held _ hscan (s.node.db, []) h1
      have hrel := h.release msg.origin (Or.inl hmem)
      have hv : (bdr_locks_process_remote_startup env s.node msg.origin).node.view =
          { s.node.view with
            lockcount := s.node.view.lockcount - 1, lock_type := .BDR_LOCK_NOLOCK,
            lock_holder := if s.node.view.lockcount > 0 then InvalidRepNodeId
                           else s.node.view.lock_holder,
            holders := s.node.view.holders.filter (fun k => !(k == msg.origin)) } := by
        have hh : List.map (fun r => r.holder)
            (List.filter (fun r => !(r.holder == msg.origin)) s.node.locks) =
            List.filter (fun k => !(k == msg.origin))
              (List.map (fun r => r.holder) s.node.locks) := by
          rw [List.filter_map]; rfl
        have h1v : s.node.view.lockcount = 1 := h1
        simp only [Node.view, hdb, hlocks, f1, f2, f3, hflags.1, hflags.2, hh]
        simp only [Node.view] at h1v
        simp [h1v]
      exact hrel.same hv (fun _ => rfl)
  | BDR_MESSAGE_ACQUIRE_LOCK lock_type =>
    simp only [hp] at herr hpay ⊢
    rcases process_acquire_view env s.node msg.origin lock_type herr with
      hv | ⟨h0, hu, ho, hv⟩ | ⟨h0, _, _, hv⟩
    · exact h.same hv (fun _ => rfl)
    · exact (h.grant h0 hu env.replication_origin_id hroi lock_type hpay msg.origin
        (by rw [ho, hfetch])).same hv (fun _ => rfl)
    · exact (h.upgrade h0 lock_type hpay).same hv (fun _ => rfl)
  | BDR_MESSAGE_RELEASE_LOCK lock =>
    simp only [hp] at herr hpay ⊢
    rcases process_release_view env s.node msg.origin lock herr with hv | hv
    · exact h.same hv (fun _ => rfl)
    · refine (h.release msg.origin ?_).same hv (fun _ => rfl)
      rcases hpay with hne | h0
      · left
        obtain ⟨r, hr⟩ := List.exists_mem_of_ne_nil _ hne
        unfold locks_begin_scan at hr
        simp only [List.mem_filter, beq_iff_eq] at hr
        simp only [Node.view, List.mem_map]
        exact ⟨r, hr.1, hr.2⟩
      · right; exact h0
  | BDR_MESSAGE_CONFIRM_LOCK lock lock_type =>
    simp only [hp]
    exact h.same (process_confirm_view env s.node msg.origin lock lock_type) (fun _ => rfl)
  | BDR_MESSAGE_DECLINE_LOCK lock lock_type =>
    simp only [hp]
    exact h.same (process_decline_view env s.node msg.origin lock lock_type) (fun _ => rfl)
  | BDR_MESSAGE_REQUEST_REPLAY_CONFIRM lsn =>
    simp only [hp]
    exact h.same (process_request_replay_confirm_view env s.node msg.origin lsn)
      (fun _ => rfl)
  | BDR_MESSAGE_REPLAY_CONFIRM lsn =>
    simp only [hp]
    exact h.same (process_replay_confirm_view env s.node msg.origin lsn) (fun _ => rfl)

theorem Site.Inv.step {fetch : RepNodeId → BdrNodeId} {s s1 : Site} {e : SiteEvent}
    (h : s.Inv fetch) (ha : e.admissible fetch s) (hs : s.step e = some s1) :
    s1.Inv fetch := by
  cases e with
  | startup env =>
    simp only [Site.step] at hs
    by_cases herr : (bdr_locks_startup env s.node).error = none
    · simp only [herr, if_true, Option.some.injEq] at hs
      subst hs
      have hfresh : s.node.db.locked_and_loaded = false → s.node.locks = [] := by
        intro hl
        have := h.fresh hl
        simpa [Node.view] using this
      rcases startup_view env s.node h.loaded hfresh herr with hv | hv
      · exact h.same hv (fun _ => rfl)
      · exact h.startup.same hv (fun _ => rfl)
    · simp [herr] at hs
  | set_nnodes n =>
    simp only [Site.step, Option.some.injEq] at hs
    subst hs
    exact h.same rfl (fun _ => rfl)
  | acquire_begin env i lock_type =>
    simp only [Site.step, Option.some.injEq] at hs
    subst hs
    obtain ⟨_, hlt⟩ := ha
    rcases acquire_begin_view env (s.backends i) s.node lock_type with
      ⟨hv, hf⟩ | ⟨hf0, h0, hf1, hv⟩ | ⟨hf0, hf1, hv⟩
    · refine h.same hv ?_
      intro j
      simp only [Site.flags, Function.update_apply]
      by_cases hji : j = i
      · simp [hji, hf]
      · simp [hji]
    · refine (h.local_first h0 lock_type hlt i ?_).same hv (fun _ => rfl)
      intro j
      simp only [Site.flags, Function.update_apply]
      by_cases hji : j = i
      · simp [hji, hf1]
      · simp [hji]
    · have hc : s.node.view.lockcount ≠ 0 := by
        have := (h.flagged i hf0).1
        omega
      refine (h.upgrade hc lock_type hlt).same hv ?_
      intro j
      simp only [Site.flags, Function.update_apply]
      by_cases hji : j = i
      · simp [hji, hf1, hf0]
      · simp [hji]
  | acquire_finish =>
    simp only [Site.step, Option.some.injEq] at hs
    subst hs
    exact h.same rfl (fun _ => rfl)
  | xact_callback env i event =>
    simp only [Site.step, Option.some.injEq] at hs
    subst hs
    rcases xact_callback_view env (s.backends i) s.node event with ⟨hv, hf⟩ | ⟨hf0, hf1, hv⟩
    · refine h.same hv ?_
      intro j
      simp only [Site.flags, Function.update_apply]
      by_cases hji : j = i
      · simp [hji, hf]
      · simp [hji]
    · refine (h.local_end i hf0 ?_).same hv (fun _ => rfl)
      intro j
      simp only [Site.flags, Function.update_apply]
      by_cases hji : j = i
      · simp [hji, hf1]
      · simp [hji]
  | addwaiter proc =>
    simp only [Site.step, Option.some.injEq] at hs
    subst hs
    exact h.same rfl (fun _ => rfl)
  | message env msg =>
    simp only [Site.step] at hs
    by_cases herr : (bdr_process_remote_message env s.node msg).error = none
    · simp only [herr, if_true, Option.some.injEq] at hs
      subst hs
      exact Site.Inv.message h env msg ha herr
    · simp [herr] at hs

theorem Site.Reachable.inv {fetch : RepNodeId → BdrNodeId} {s : Site}
    (h : Site.Reachable fetch s) : s.Inv fetch := by
  induction h with
  | init => exact Site.Inv.init fetch
  | step s s1 e _ ha hs ih => exact ih.step ha hs

theorem exampleLocalHolder_reachable :
    Site.Reachable (exampleEnv 0 0 true).bdr_fetch_sysid_via_node_id exampleLocalHolder := by
  have h1 := Site.Reachable.step Site.init _ (.startup (exampleEnv 0 0 true))
    (Site.Reachable.init :
      Site.Reachable (exampleEnv 0 0 true).bdr_fetch_sysid_via_node_id Site.init)
    rfl rfl
  have h2 := Site.Reachable.step _ _ (.set_nnodes 1) h1 trivial rfl
  exact Site.Reachable.step _ _ (.acquire_begin (exampleEnv 0 0 true) 0 .BDR_LOCK_DDL) h2
    ⟨rfl, by decide⟩ rfl

/-- C2, as stated, fails: after start-up, `bdr_locks_set_nnodes 1` and a
request for the DDL lock by a local backend, `lockcount > 0` and
`lock_type != BDR_LOCK_NOLOCK` are true while `lock_holder` is
`InvalidRepNodeId`: `bdr_acquire_ddl_lock` never records a holder. -/
theorem C2_counterexample :
    Site.Reachable (exampleEnv 0 0 true).bdr_fetch_sysid_via_node_id exampleLocalHolder ∧
    Site.init.run exampleLocalAcquire = some exampleLocalHolder ∧
    exampleLocalHolder.node.db.lockcount > 0 ∧
    exampleLocalHolder.node.db.lock_type ≠ .BDR_LOCK_NOLOCK ∧
    ¬ (exampleLocalHolder.node.db.lock_holder ≠ InvalidRepNodeId) :=
  ⟨exampleLocalHolder_reachable, rfl, by decide, by decide, by decide⟩

/-- C2, amended: in every state reached from the zero-initialised slot and an
empty lock table through start-up, `bdr_locks_set_nnodes`,
`bdr_acquire_ddl_lock`, the transaction-end hook, the registration of a DML
waiter and the peer-message handlers (lock requests name `BDR_LOCK_DDL` or
`BDR_LOCK_WRITE`, apply workers have a valid replication origin, and a
release message is handled when the lock table has a row of the releasing
node or no lock is held), `lockcount > 0` holds exactly when
`lock_type != BDR_LOCK_NOLOCK`, a recorded holder implies `lockcount > 0`,
and a lock acquired by a local transaction is held with `lock_holder ==
InvalidRepNodeId`. -/
theorem C2_lock_fields_consistent (fetch : RepNodeId → BdrNodeId) (s : Site)
    (h : Site.Reachable fetch s) :
    (s.node.db.lockcount > 0 ↔ s.node.db.lock_type ≠ .BDR_LOCK_NOLOCK) ∧
    (s.node.db.lock_holder ≠ InvalidRepNodeId → s.node.db.lockcount > 0) ∧
    (∀ i, (s.backends i).this_xact_acquired_lock = true →
      s.node.db.lockcount > 0 ∧ s.node.db.lock_holder = InvalidRepNodeId) := by
  have hi := h.inv
  have h1 : s.node.db.lockcount = 0 ↔ s.node.db.lock_type = .BDR_LOCK_NOLOCK := hi.type_iff
  have h2 : s.node.db.lockcount = 0 → s.node.db.lock_holder = InvalidRepNodeId :=
    hi.holder_zero
  refine ⟨?_, ?_, ?_⟩
  · constructor
    · intro hp hn
      have := h1.2 hn
      omega
    · intro hn
      by_cases h0 : s.node.db.lockcount = 0
      · exact absurd (h1.1 h0) hn
      · omega
  · intro hh
    by_cases h0 : s.node.db.lockcount = 0
    · exact absurd (h2 h0) hh
    · omega
  · intro i hf
    have h3 : s.node.db.lockcount = 1 ∧ s.node.db.lock_holder = InvalidRepNodeId :=
      hi.flagged i hf
    exact ⟨by omega, h3.2⟩

/-- C2, instance: the state after a local request for the DDL lock. -/
theorem C2_lock_fields_consistent_witness :
    (exampleLocalHolder.node.db.lockcount > 0 ↔
      exampleLocalHolder.node.db.lock_type ≠ .BDR_LOCK_NOLOCK) ∧
    (exampleLocalHolder.backends 0).this_xact_acquired_lock = true ∧
    exampleLocalHolder.node.db.lock_holder = InvalidRepNodeId :=
  ⟨(C2_lock_fields_consistent _ exampleLocalHolder exampleLocalHolder_reachable).1,
   rfl,
   ((C2_lock_fields_consistent _ exampleLocalHolder exampleLocalHolder_reachable).2.2 0
     rfl).2⟩

/-! ## C11: the start-up message of a peer, twice -/

theorem remote_startup_row_slot (acc : BdrLocksDBState × List Effect) :
    (bdr_locks_process_remote_startup_row acc).1.in_use = acc.1.in_use ∧
    (bdr_locks_process_remote_startup_row acc).1.dboid = acc.1.dboid := by
  unfold bdr_locks_process_remote_startup_row
  by_cases h0 : acc.1.lockcount = 0
  · simp [h0, bdr_locks_on_unlock]
  · by_cases h1 : acc.1.lockcount - 1 = 0
    · simp [h0, h1, bdr_locks_on_unlock]
    · simp [h0, h1]

theorem remote_startup_fold_slot (rows : List LockRow) :
    ∀ acc : BdrLocksDBState × List Effect,
      (rows.foldl (fun a _ => bdr_locks_process_remote_startup_row a) acc).1.in_use
        = acc.1.in_use ∧
      (rows.foldl (fun a _ => bdr_locks_process_remote_startup_row a) acc).1.dboid
        = acc.1.dboid := by
  induction rows with
  | nil => intro acc; exact ⟨rfl, rfl⟩
  | cons r rest ih =>
    intro acc
    rw [List.foldl_cons]
    obtain ⟨h1, h2⟩ := ih (bdr_locks_process_remote_startup_row acc)
    obtain ⟨h3, h4⟩ := remote_startup_row_slot acc
    exact ⟨h1.trans h3, h2.trans h4⟩

theorem locks_scan_after_delete (locks : List LockRow) (k : BdrNodeId) :
    locks_begin_scan (locks.filter (fun r => !(r.holder == k))) k = [] := by
  unfold locks_begin_scan
  rw [List.filter_filter, List.filter_eq_nil_iff]
  intro r _
  simp

/-- On a configured slot the handler raises no error, updates the slot row by
row and deletes the rows of the sender. -/
theorem remote_startup_configured (env : Env) (node : Node) (origin : BdrNodeId)
    (hc : Configured env node.db) :
    bdr_locks_process_remote_startup env node origin =
      { node :=
          { db := ((locks_begin_scan node.locks origin).foldl
              (fun a _ => bdr_locks_process_remote_startup_row a) (node.db, [])).1,
            locks := node.locks.filter (fun r => !(r.holder == origin)) },
        effects := ((locks_begin_scan node.locks origin).foldl
              (fun a _ => bdr_locks_process_remote_startup_row a) (node.db, [])).2,
        error := none } := by
  unfold bdr_locks_process_remote_startup
  rw [find_my_database_ok env node.db hc]

/-- C11: handling the start-up message of a node twice in succession leaves
the slot and the lock table as the first run left them, and the second run
has no effect of its own (no latch set, no warning, no message) and ends as
the first did; on a configured slot the first run raises no error and deletes
every row whose holder is the sender, so that the second finds none. -/
theorem C11_remote_startup_twice (env : Env) (node : Node) (origin : BdrNodeId) :
    (bdr_locks_process_remote_startup env
      (bdr_locks_process_remote_startup env node origin).node origin).node =
      (bdr_locks_process_remote_startup env node origin).node ∧
    (bdr_locks_process_remote_startup env
      (bdr_locks_process_remote_startup env node origin).node origin).effects = [] ∧
    (bdr_locks_process_remote_startup env
      (bdr_locks_process_remote_startup env node origin).node origin).error =
      (bdr_locks_process_remote_startup env node origin).error ∧
    (Configured env node.db →
      (bdr_locks_process_remote_startup env node origin).error = none ∧
      (bdr_locks_process_remote_startup env node origin).node.locks =
        node.locks.filter (fun r => !(r.holder == origin)) ∧
      locks_begin_scan (bdr_locks_process_remote_startup env node origin).node.locks
        origin = []) := by
  by_cases hc : Configured env node.db
  · have e1 := remote_startup_configured env node origin hc
    have hc1 : Configured env (bdr_locks_process_remote_startup env node origin).node.db := by
      rw [e1]
      obtain ⟨h1, h2⟩ := remote_startup_fold_slot (locks_begin_scan node.locks origin)
        (node.db, [])
      exact ⟨h1.trans hc.1, h2.trans hc.2⟩
    have e2 := remote_startup_configured env
      (bdr_locks_process_remote_startup env node origin).node origin hc1
    have hs : locks_begin_scan (bdr_locks_process_remote_startup env node origin).node.locks
        origin = [] := by
      rw [e1]; exact locks_scan_after_delete node.locks origin
    have hl : (bdr_locks_process_remote_startup env node origin).node.locks =
        node.locks.filter (fun r => !(r.holder == origin)) := by
      rw [e1]
    have hf : (bdr_locks_process_remote_startup env node origin).node.locks.filter
        (fun r => !(r.holder == origin)) =
        (bdr_locks_process_remote_startup env node origin).node.locks := by
      rw [hl, List.filter_filter]
      simp
    rw [e2, hs, hf]
    refine ⟨rfl, rfl, ?_, fun _ => ⟨?_, hl, rfl⟩⟩
    · rw [e1]
    · rw [e1]
  · have hf : bdr_locks_find_my_database env node.db false = .error .not_configured := by
      rcases find_my_database_false env node.db with h | h
      · exact absurd ⟨find_my_database_in_use env node.db node.db h, by
          unfold bdr_locks_find_my_database bdr_locks_find_database at h
          by_cases hh : (node.db.in_use && node.db.dboid == env.MyDatabaseId) = true
          · simp only [Bool.and_eq_true, beq_iff_eq] at hh; exact hh.2
          · simp [hh] at h⟩ hc
      · exact h
    have e1 : bdr_locks_process_remote_startup env node origin =
        { node := node, effects := [], error := some .not_configured } := by
      unfold bdr_locks_process_remote_startup
      rw [hf]
    rw [e1]
    simp only
    rw [e1]
    exact ⟨rfl, rfl, rfl, fun h => absurd h hc⟩

/-- C11, instance: node 1, for which node 0 holds the DDL lock, restarts. -/
theorem C11_remote_startup_twice_witness :
    (bdr_locks_process_remote_startup (exampleEnv 0 2 true) exampleHeldWithWaiter
      (exampleNodeId 1)).effects = [Effect.SetLatch 7] ∧
    (bdr_locks_process_remote_startup (exampleEnv 0 2 true) exampleHeldWithWaiter
      (exampleNodeId 1)).node.locks = [] ∧
    locks_begin_scan (bdr_locks_process_remote_startup (exampleEnv 0 2 true)
      exampleHeldWithWaiter (exampleNodeId 1)).node.locks (exampleNodeId 1) = [] :=
  ⟨by decide, by decide,
    ((C11_remote_startup_twice (exampleEnv 0 2 true) exampleHeldWithWaiter
      (exampleNodeId 1)).2.2.2 (by decide)).2.2⟩

/-! ## C13: the order of the waiters -/

theorem locks_scan_none (locks : List LockRow) (k : BdrNodeId)
    (h : ∀ r ∈ locks, r.holder ≠ k) : locks_begin_scan locks k = [] := by
  unfold locks_begin_scan
  rw [List.filter_eq_nil_iff]
  intro r hr
  simp [h r hr]

theorem locks_update_none (locks : List LockRow) (k : BdrNodeId) (f : LockRow → LockRow)
    (h : ∀ r ∈ locks, r.holder ≠ k) : locks_update locks k f = locks := by
  unfold locks_update
  conv => rhs; rw [← List.map_id locks]
  apply List.map_congr_left
  intro r hr
  simp [h r hr]

theorem simple_heap_insert_new (locks : List LockRow) (tup : LockRow)
    (h : ∀ r ∈ locks, r.holder ≠ tup.holder) :
    simple_heap_insert locks tup = some (locks ++ [tup]) := by
  unfold simple_heap_insert
  have : (locks.any fun r => r.holder == tup.holder) = false := by
    rw [List.any_eq_false]
    intro r hr
    simp [h r hr]
  simp [this]

/-- The insert of the grant branch succeeds: the slot and the table as they
are handed to the tail of the branch. -/
theorem process_acquire_grant (env : Env) (node : Node) (origin : BdrNodeId)
    (lock_type : BDRLockType)
    (ho : check_is_my_origin_node env origin = true) (hc : Configured env node.db)
    (h0 : node.db.lockcount = 0) (hrow : ∀ r ∈ node.locks, r.holder ≠ origin) :
    bdr_process_acquire_ddl_lock env node origin lock_type =
      bdr_process_acquire_ddl_lock_granted env
        { db := { node.db with
            lockcount := 1, lock_type := lock_type,
            lock_holder := env.replication_origin_id },
          locks := node.locks ++
            [{ lock_type := bdr_lock_type_to_name lock_type, holder := origin,
               acquired_at := env.GetCurrentTimestamp, owner := env.self,
               state := "catchup" }] }
        lock_type := by
  unfold bdr_process_acquire_ddl_lock
  rw [find_my_database_ok env node.db hc]
  simp only [ho, Bool.not_true, Bool.false_eq_true, if_false, h0, beq_self_eq_true, if_true]
  rw [simple_heap_insert_new _ _ hrow]

/-- C17: a request for the DDL lock from the worker's peer, handled when
`lockcount == 0` and the lock table has no row of the sender: afterwards
`lockcount == 1`, `lock_holder` is the origin of the sender, `lock_type` is
`BDR_LOCK_DDL`, the lock table has one new row, of the sender, with lock name
"ddl_lock" and state "acquired", and the only message logged is one
transactional confirmation with the identifier of the sender and
`BDR_LOCK_DDL`: no decline and no replay request. -/
theorem C17_grant_ddl (env : Env) (node : Node) (origin : BdrNodeId)
    (ho : check_is_my_origin_node env origin = true) (hc : Configured env node.db)
    (h0 : node.db.lockcount = 0) (hrow : ∀ r ∈ node.locks, r.holder ≠ origin) :
    bdr_process_acquire_ddl_lock env node origin .BDR_LOCK_DDL =
      { node :=
          { db := { node.db with
              lockcount := 1, lock_type := .BDR_LOCK_DDL,
              lock_holder := env.replication_origin_id, replay_confirmed := 0,
              replay_confirmed_lsn := InvalidXLogRecPtr, requestor := none },
            locks := node.locks ++
              [{ lock_type := "ddl_lock", holder := origin,
                 acquired_at := env.GetCurrentTimestamp, owner := env.self,
                 state := "acquired" }] },
        effects :=
          [Effect.LogStandbyMessage
            { origin := env.self,
              payload := .BDR_MESSAGE_CONFIRM_LOCK origin .BDR_LOCK_DDL } true],
        error := none } ∧
    env.bdr_fetch_sysid_via_node_id env.replication_origin_id = origin := by
  have hk := check_is_my_origin_node_eq env origin ho
  refine ⟨?_, hk.symm⟩
  rw [process_acquire_grant env node origin .BDR_LOCK_DDL ho hc h0 hrow]
  have hv : ¬ (BDRLockType.BDR_LOCK_DDL.val ≥ BDRLockType.BDR_LOCK_WRITE.val) := by
    simp [BDRLockType.val]
  unfold bdr_process_acquire_ddl_lock_granted
  rw [if_neg hv]
  unfold bdr_send_confirm_lock
  have hscan : locks_begin_scan
      (node.locks ++
        [{ lock_type := bdr_lock_type_to_name .BDR_LOCK_DDL, holder := origin,
           acquired_at := env.GetCurrentTimestamp, owner := env.self,
           state := "catchup" }])
      origin =
      [{ lock_type := bdr_lock_type_to_name .BDR_LOCK_DDL, holder := origin,
         acquired_at := env.GetCurrentTimestamp, owner := env.self,
         state := "catchup" }] := by
    unfold locks_begin_scan
    rw [List.filter_append]
    have := locks_scan_none node.locks origin hrow
    unfold locks_begin_scan at this
    rw [this]
    simp
  have hupd : locks_update
      (node.locks ++
        [{ lock_type := bdr_lock_type_to_name .BDR_LOCK_DDL, holder := origin,
           acquired_at := env.GetCurrentTimestamp, owner := env.self,
           state := "catchup" }])
      origin
      (fun r => { r with state := "acquired" }) =
      node.locks ++
        [{ lock_type := "ddl_lock", holder := origin,
           acquired_at := env.GetCurrentTimestamp, owner := env.self,
           state := "acquired" }] := by
    have h1 := locks_update_none node.locks origin
      (fun r => { r with state := "acquired" }) hrow
    unfold locks_update at h1 ⊢
    rw [List.map_append, h1]
    simp [bdr_lock_type_to_name]
  simp only [← hk, hscan, hupd, bdr_prepare_message]

/-- C17, instance: node 1 asks an idle node 0 for the DDL lock. -/
theorem C17_grant_ddl_witness :
    (bdr_process_acquire_ddl_lock (exampleEnv 0 2 true)
      { db := exampleReady 1, locks := [] } (exampleNodeId 1) .BDR_LOCK_DDL).node =
      exampleHeldByPeer ∧
    loggedMessages (bdr_process_acquire_ddl_lock (exampleEnv 0 2 true)
      { db := exampleReady 1, locks := [] } (exampleNodeId 1) .BDR_LOCK_DDL).effects =
      [{ origin := exampleNodeId 0,
         payload := .BDR_MESSAGE_CONFIRM_LOCK (exampleNodeId 1) .BDR_LOCK_DDL }] := by
  have h := (C17_grant_ddl (exampleEnv 0 2 true) { db := exampleReady 1, locks := [] }
    (exampleNodeId 1) (by decide) (by decide) rfl (by decide)).1
  rw [h]
  exact ⟨by decide, by decide⟩

/-! ## C19 and C20: confirmations and declines -/

/-- The confirm handler, case by case. -/
theorem C19_confirm_handler_aux (env : Env) (node : Node) (origin lock : BdrNodeId)
    (lock_type : BDRLockType) :
    ((check_is_my_origin_node env origin = false ∨ check_is_my_node env lock = false ∨
        node.db.lock_type ≠ lock_type) →
      (bdr_process_confirm_ddl_lock env node origin lock lock_type).node = node ∧
      latchesSet (bdr_process_confirm_ddl_lock env node origin lock lock_type).effects
        = []) ∧
    (check_is_my_origin_node env origin = true → check_is_my_node env lock = true →
      node.db.lock_type = lock_type → Configured env node.db →
      bdr_process_confirm_ddl_lock env node origin lock lock_type =
        { node := { node with db := { node.db with
            acquire_confirmed := node.db.acquire_confirmed + 1 } },
          effects := (match node.db.requestor with
            | some l => [Effect.SetLatch l]
            | none => []),
          error := none }) := by
  constructor
  · intro h
    unfold bdr_process_confirm_ddl_lock
    by_cases ho : check_is_my_origin_node env origin = true
    · by_cases hn : check_is_my_node env lock = true
      · have ht : node.db.lock_type ≠ lock_type := by
          rcases h with h | h | h
          · rw [ho] at h; cases h
          · rw [hn] at h; cases h
          · exact h
        rcases find_my_database_false env node.db with hf | hf
        · rw [hf]; simp [ho, hn, ht, latchesSet]
        · rw [hf]; simp [ho, hn, latchesSet]
      · simp [ho, hn, latchesSet]
    · simp [ho, latchesSet]
  · intro ho hn ht hc
    unfold bdr_process_confirm_ddl_lock
    rw [find_my_database_ok env node.db hc]
    simp [ho, hn, ht]

/-- C19: for every state and every confirmation message: if the sender is not
the worker's peer, or the node named is not this node, or the lock type is not
the one recorded in the slot, the slot and the lock table are unchanged and no
latch is set; otherwise, on a configured slot, `acquire_confirmed` grows by
exactly 1, the latch of the requestor (if any) is set, and no other field and
no row changes. -/
theorem C19_confirm_handler (env : Env) (node : Node) (origin lock : BdrNodeId)
    (lock_type : BDRLockType) :
    ((check_is_my_origin_node env origin = false ∨ check_is_my_node env lock = false ∨
        node.db.lock_type ≠ lock_type) →
      (bdr_process_confirm_ddl_lock env node origin lock lock_type).node = node ∧
      latchesSet (bdr_process_confirm_ddl_lock env node origin lock lock_type).effects
        = []) ∧
    (check_is_my_origin_node env origin = true → check_is_my_node env lock = true →
      node.db.lock_type = lock_type → Configured env node.db →
      bdr_process_confirm_ddl_lock env node origin lock lock_type =
        { node := { node with db := { node.db with
            acquire_confirmed := node.db.acquire_confirmed + 1 } },
          effects := (match node.db.requestor with
            | some l => [Effect.SetLatch l]
            | none => []),
          error := none }) :=
  C19_confirm_handler_aux env node origin lock lock_type

/-- C19, instance: the peer confirms the request in flight on node 0. -/
theorem C19_confirm_handler_witness :
    bdr_process_confirm_ddl_lock (exampleEnv 0 2 true) exampleRequesting (exampleNodeId 1)
      (exampleNodeId 0) .BDR_LOCK_DDL =
      { node := { exampleRequesting with db := { exampleRequesting.db with
          acquire_confirmed := 1 } },
        effects := [Effect.SetLatch 0], error := none } :=
  (C19_confirm_handler (exampleEnv 0 2 true) exampleRequesting (exampleNodeId 1)
    (exampleNodeId 0) .BDR_LOCK_DDL).2 (by decide) (by decide) (by decide) (by decide)

/-- C20, as stated, fails: a decline message of the worker's peer that names
another node than this one (here the sender itself) is not discarded:
`acquire_declined` grows and the requestor is woken. -/
theorem C20_counterexample :
    check_is_my_node (exampleEnv 0 2 true) (exampleNodeId 1) = false ∧
    bdr_process_decline_ddl_lock (exampleEnv 0 2 true) exampleRequesting (exampleNodeId 1)
      (exampleNodeId 1) .BDR_LOCK_DDL =
      { node := { exampleRequesting with db := { exampleRequesting.db with
          acquire_declined := 1 } },
        effects := [Effect.SetLatch 0], error := none } ∧
    (bdr_process_decline_ddl_lock (exampleEnv 0 2 true) exampleRequesting (exampleNodeId 1)
      (exampleNodeId 1) .BDR_LOCK_DDL).node ≠ exampleRequesting := by
  decide

/-- The decline handler, case by case. -/
theorem C20_decline_handler_aux (env : Env) (node : Node) (origin lock : BdrNodeId)
    (lock_type : BDRLockType) :
    ((check_is_my_origin_node env origin = false ∨ node.db.lock_type ≠ lock_type) →
      (bdr_process_decline_ddl_lock env node origin lock lock_type).node = node ∧
      latchesSet (bdr_process_decline_ddl_lock env node origin lock lock_type).effects
        = []) ∧
    (check_is_my_origin_node env origin = true → node.db.lock_type = lock_type →
      Configured env node.db →
      bdr_process_decline_ddl_lock env node origin lock lock_type =
        { node := { node with db := { node.db with
            acquire_declined := node.db.acquire_declined + 1 } },
          effects := (match node.db.requestor with
            | some l => [Effect.SetLatch l]
            | none => []),
          error := none }) := by
  constructor
  · intro h
    unfold bdr_process_decline_ddl_lock
    by_cases ho : check_is_my_origin_node env origin = true
    · have ht : node.db.lock_type ≠ lock_type := by
        rcases h with h | h
        · rw [ho] at h; cases h
        · exact h
      rcases find_my_database_false env node.db with hf | hf
      · rw [hf]; simp [ho, ht, latchesSet]
      · rw [hf]; simp [ho, latchesSet]
    · simp [ho, latchesSet]
  · intro ho ht hc
    unfold bdr_process_decline_ddl_lock
    rw [find_my_database_ok env node.db hc]
    simp [ho, ht]

/-- C20, amended: for every state and every decline message: if the sender is
not the worker's peer, or the lock type is not the one recorded in the slot,
the slot and the lock table are unchanged and no latch is set; otherwise, on
a configured slot and whatever node the message names, `acquire_declined`
grows by exactly 1, the latch of the requestor (if any) is set, and nothing
else changes. -/
theorem C20_decline_handler (env : Env) (node : Node) (origin lock : BdrNodeId)
    (lock_type : BDRLockType) :
    ((check_is_my_origin_node env origin = false ∨ node.db.lock_type ≠ lock_type) →
      (bdr_process_decline_ddl_lock env node origin lock lock_type).node = node ∧
      latchesSet (bdr_process_decline_ddl_lock env node origin lock lock_type).effects
        = []) ∧
    (check_is_my_origin_node env origin = true → node.db.lock_type = lock_type →
      Configured env node.db →
      bdr_process_decline_ddl_lock env node origin lock lock_type =
        { node := { node with db := { node.db with
            acquire_declined := node.db.acquire_declined + 1 } },
          effects := (match node.db.requestor with
            | some l => [Effect.SetLatch l]
            | none => []),
          error := none }) :=
  C20_decline_handler_aux env node origin lock lock_type

/-- C20, instance: the peer declines the request in flight on node 0 and
names node 2. -/
theorem C20_decline_handler_witness :
    bdr_process_decline_ddl_lock (exampleEnv 0 2 true) exampleRequesting (exampleNodeId 1)
      (exampleNodeId 2) .BDR_LOCK_DDL =
      { node := { exampleRequesting with db := { exampleRequesting.db with
          acquire_declined := 1 } },
        effects := [Effect.SetLatch 0], error := none } :=
  (C20_decline_handler (exampleEnv 0 2 true) exampleRequesting (exampleNodeId 1)
    (exampleNodeId 2) .BDR_LOCK_DDL).2 (by decide) (by decide) (by decide)

/-! ## C15: the tallies of a request in flight -/

/-- The scan loop touches five fields of the slot only. -/
theorem startup_rows_frame (env : Env) (rows : List LockRow) :
    ∀ (k : Nat) (db : BdrLocksDBState) (eff : List Effect),
      (bdr_locks_startup_rows env rows k db eff).1 =
        { db with
          lockcount := (bdr_locks_startup_rows env rows k db eff).1.lockcount,
          lock_holder := (bdr_locks_startup_rows env rows k db eff).1.lock_holder,
          lock_type := (bdr_locks_startup_rows env rows k db eff).1.lock_type,
          replay_confirmed := (bdr_locks_startup_rows env rows k db eff).1.replay_confirmed,
          replay_confirmed_lsn :=
            (bdr_locks_startup_rows env rows k db eff).1.replay_confirmed_lsn } := by
  induction rows with
  | nil => intro k db eff; rfl
  | cons tup rest ih =>
    intro k db eff
    unfold bdr_locks_startup_rows
    cases bdr_lock_name_to_type tup.lock_type with
    | error e => rfl
    | ok lock_type =>
      dsimp only
      by_cases ha : (tup.state == "acquired") = true
      · simp only [ha, if_true]
        conv_lhs => rw [ih]
      · by_cases hcu : (tup.state == "catchup") = true
        · simp only [ha, hcu, if_true, Bool.false_eq_true, if_false]
          conv_lhs => rw [ih]
        · simp only [ha, hcu, Bool.false_eq_true, if_false]

/-- The effects of the scan loop extend the effects so far. -/
theorem startup_rows_effects (env : Env) (rows : List LockRow) :
    ∀ (k : Nat) (db : BdrLocksDBState) (eff : List Effect),
      ∃ more, (bdr_locks_startup_rows env rows k db eff).2.1 = eff ++ more := by
  induction rows with
  | nil => intro k db eff; exact ⟨[], by simp [bdr_locks_startup_rows]⟩
  | cons tup rest ih =>
    intro k db eff
    unfold bdr_locks_startup_rows
    cases bdr_lock_name_to_type tup.lock_type with
    | error e => exact ⟨[], by simp⟩
    | ok lock_type =>
      dsimp only
      by_cases ha : (tup.state == "acquired") = true
      · simp only [ha, if_true]
        exact ih _ _ _
      · by_cases hcu : (tup.state == "catchup") = true
        · simp only [ha, hcu, if_true, Bool.false_eq_true, if_false]
          obtain ⟨more, hm⟩ := ih (k + 1)
            { db with
              lock_holder := env.bdr_fetch_node_id_via_sysid tup.holder,
              lockcount := db.lockcount + 1, lock_type := lock_type, replay_confirmed := 0,
              replay_confirmed_lsn := env.GetXLogInsertRecPtr k }
            (eff ++ [Effect.LogStandbyMessage (bdr_prepare_message env
              (.BDR_MESSAGE_REQUEST_REPLAY_CONFIRM (env.GetXLogInsertRecPtr k))) false])
          exact ⟨Effect.LogStandbyMessage (bdr_prepare_message env
              (.BDR_MESSAGE_REQUEST_REPLAY_CONFIRM (env.GetXLogInsertRecPtr k))) false :: more,
            by rw [hm]; simp⟩
        · simp only [ha, hcu, Bool.false_eq_true, if_false]
          exact ⟨[], by simp⟩

/-- A row in another state than "acquired" and "catchup" makes the scan loop
fail. -/
theorem startup_rows_fatal (env : Env) (rows : List LockRow) :
    ∀ (k : Nat) (db : BdrLocksDBState) (eff : List Effect),
      (∃ r ∈ rows, r.state ≠ "acquired" ∧ r.state ≠ "catchup") →
      (bdr_locks_startup_rows env rows k db eff).2.2 ≠ none := by
  induction rows with
  | nil => intro k db eff h; obtain ⟨r, hr, _⟩ := h; cases hr
  | cons tup rest ih =>
    intro k db eff h
    unfold bdr_locks_startup_rows
    cases bdr_lock_name_to_type tup.lock_type with
    | error e => simp
    | ok lock_type =>
      dsimp only
      by_cases ha : tup.state = "acquired"
      · have hrest : ∃ r ∈ rest, r.state ≠ "acquired" ∧ r.state ≠ "catchup" := by
          obtain ⟨r, hr, h1, h2⟩ := h
          rcases List.mem_cons.1 hr with hh | hh
          · subst hh; exact absurd ha h1
          · exact ⟨r, hh, h1, h2⟩
        simp only [ha, beq_self_eq_true, if_true]
        exact ih _ _ _ hrest
      · by_cases hcu : tup.state = "catchup"
        · have hrest : ∃ r ∈ rest, r.state ≠ "acquired" ∧ r.state ≠ "catchup" := by
            obtain ⟨r, hr, h1, h2⟩ := h
            rcases List.mem_cons.1 hr with hh | hh
            · subst hh; exact absurd hcu h2
            · exact ⟨r, hh, h1, h2⟩
          have ha2 : (tup.state == "acquired") = false := by simpa using ha
          simp only [ha2, hcu, beq_self_eq_true, if_true, Bool.false_eq_true, if_false]
          exact ih _ _ _ hrest
        · have ha2 : (tup.state == "acquired") = false := by simpa using ha
          have hc2 : (tup.state == "catchup") = false := by simpa using hcu
          simp [ha2, hc2]


theorem startupRequests_succ (env : Env) (k n : Nat) :
    startupRequests env k (n + 1) =
      Effect.LogStandbyMessage
        (bdr_prepare_message env
          (.BDR_MESSAGE_REQUEST_REPLAY_CONFIRM (env.GetXLogInsertRecPtr k))) false ::
        startupRequests env (k + 1) n := by
  unfold startupRequests
  rw [List.range_succ_eq_map, List.map_cons, List.map_map]
  refine congrArg₂ _ rfl (List.map_congr_left ?_)
  intro j _
  have e : k + (j + 1) = k + 1 + j := by omega
  simp only [Function.comp, Nat.succ_eq_add_one, e]

theorem catchupRows_cons (r : LockRow) (rest : List LockRow) :
    catchupRows (r :: rest) =
      (if r.state = "catchup" then catchupRows rest + 1 else catchupRows rest) := by
  unfold catchupRows
  by_cases h : r.state = "catchup"
  · simp [List.filter_cons, h]
  · simp [List.filter_cons, h]

/-- What the scan loop of `bdr_locks_startup` leaves when every row is
readable. -/
theorem startup_rows_readable (env : Env) (rows : List LockRow) :
    ∀ (k : Nat) (db : BdrLocksDBState) (eff : List Effect),
      (∀ r ∈ rows, r.readable) →
      (bdr_locks_startup_rows env rows k db eff).2.2 = none ∧
      (bdr_locks_startup_rows env rows k db eff).1.lockcount = db.lockcount + rows.length ∧
      (bdr_locks_startup_rows env rows k db eff).2.1 =
        eff ++ startupRequests env k (catchupRows rows) ∧
      (∀ last, rows.getLast? = some last →
        (bdr_locks_startup_rows env rows k db eff).1.lock_holder =
          env.bdr_fetch_node_id_via_sysid last.holder ∧
        bdr_lock_name_to_type last.lock_type =
          .ok (bdr_locks_startup_rows env rows k db eff).1.lock_type) ∧
      (catchupRows rows = 0 →
        (bdr_locks_startup_rows env rows k db eff).1.replay_confirmed = db.replay_confirmed ∧
        (bdr_locks_startup_rows env rows k db eff).1.replay_confirmed_lsn =
          db.replay_confirmed_lsn) ∧
      (0 < catchupRows rows →
        (bdr_locks_startup_rows env rows k db eff).1.replay_confirmed = 0 ∧
        (bdr_locks_startup_rows env rows k db eff).1.replay_confirmed_lsn =
          env.GetXLogInsertRecPtr (k + catchupRows rows - 1)) := by
  induction rows with
  | nil =>
    intro k db eff _
    simp [bdr_locks_startup_rows, startupRequests, catchupRows]
  | cons tup rest ih =>
    intro k db eff hr
    obtain ⟨⟨t, ht⟩, hst⟩ := hr tup (List.mem_cons_self _ _)
    have hrest : ∀ r ∈ rest, r.readable := fun r h => hr r (List.mem_cons_of_mem _ h)
    rcases hst with ha | hcu
    · have e : bdr_locks_startup_rows env (tup :: rest) k db eff =
          bdr_locks_startup_rows env rest k
            { db with lock_holder := env.bdr_fetch_node_id_via_sysid tup.holder,
                      lockcount := db.lockcount + 1, lock_type := t } eff := by
        rw [bdr_locks_startup_rows]; simp only [ht, ha]; rfl
      have hn : catchupRows (tup :: rest) = catchupRows rest := by
        rw [catchupRows_cons, ha]; simp
      obtain ⟨i1, i2, i3, i4, i5, i6⟩ := ih k
        { db with lock_holder := env.bdr_fetch_node_id_via_sysid tup.holder,
                  lockcount := db.lockcount + 1, lock_type := t } eff hrest
      rw [e, hn]
      refine ⟨i1, ?_, i3, ?_, i5, i6⟩
      · rw [i2, List.length_cons]; simp only; omega
      · intro last hl
        cases rest with
        | nil =>
          simp only [List.getLast?_singleton, Option.some.injEq] at hl
          subst hl
          simp [bdr_locks_startup_rows, ht]
        | cons r2 rest2 =>
          rw [List.getLast?_cons_cons] at hl
          exact i4 last hl
    · have e : bdr_locks_startup_rows env (tup :: rest) k db eff =
          bdr_locks_startup_rows env rest (k + 1)
            { db with lock_holder := env.bdr_fetch_node_id_via_sysid tup.holder,
                      lockcount := db.lockcount + 1, lock_type := t, replay_confirmed := 0,
                      replay_confirmed_lsn := env.GetXLogInsertRecPtr k }
            (eff ++ [Effect.LogStandbyMessage (bdr_prepare_message env
              (.BDR_MESSAGE_REQUEST_REPLAY_CONFIRM (env.GetXLogInsertRecPtr k))) false]) := by
        rw [bdr_locks_startup_rows]; simp only [ht, hcu]; rfl
      have hn : catchupRows (tup :: rest) = catchupRows rest + 1 := by
        rw [catchupRows_cons, hcu]; simp
      obtain ⟨i1, i2, i3, i4, i5, i6⟩ := ih (k + 1)
        { db with lock_holder := env.bdr_fetch_node_id_via_sysid tup.holder,
                  lockcount := db.lockcount + 1, lock_type := t, replay_confirmed := 0,
                  replay_confirmed_lsn := env.GetXLogInsertRecPtr k }
        (eff ++ [Effect.LogStandbyMessage (bdr_prepare_message env
          (.BDR_MESSAGE_REQUEST_REPLAY_CONFIRM (env.GetXLogInsertRecPtr k))) false]) hrest
      rw [e, hn]
      refine ⟨i1, ?_, ?_, ?_, ?_, ?_⟩
      · rw [i2, List.length_cons]; simp only; omega
      · rw [i3, startupRequests_succ]; simp
      · intro last hl
        cases rest with
        | nil =>
          simp only [List.getLast?_singleton, Option.some.injEq] at hl
          subst hl
          simp [bdr_locks_startup_rows, ht]
        | cons r2 rest2 =>
          rw [List.getLast?_cons_cons] at hl
          exact i4 last hl
      · intro h0; omega
      · intro _
        rcases Nat.eq_zero_or_pos (catchupRows rest) with h0 | hp
        · obtain ⟨j1, j2⟩ := i5 h0
          rw [j1, j2, h0]; exact ⟨rfl, rfl⟩
        · obtain ⟨j1, j2⟩ := i6 hp
          rw [j1, j2]
          have e2 : k + 1 + catchupRows rest - 1 = k + (catchupRows rest + 1) - 1 := by omega
          rw [e2]; exact ⟨rfl, rfl⟩


/-- At start-up the slot of this database is found or taken: only `dboid` and
`in_use` can change. -/
theorem find_my_database_create (env : Env) (db : BdrLocksDBState)
    (hslot : db.in_use = true → db.dboid = env.MyDatabaseId) :
    bdr_locks_find_my_database env db true =
      .ok { db with dboid := env.MyDatabaseId, in_use := true } := by
  unfold bdr_locks_find_my_database bdr_locks_find_database
  cases hu : db.in_use with
  | true =>
    have hd := hslot hu
    have e : { db with dboid := env.MyDatabaseId, in_use := true } = db := by
      cases db; simp only at hu hd; subst hu; subst hd; rfl
    rw [e]; simp [hd]
  | false => simp

/-- The routine `bdr_locks_startup` in terms of its scan loop, when the slot
is found and not yet loaded. -/
theorem startup_eq (env : Env) (node : Node) (db0 : BdrLocksDBState)
    (hf : bdr_locks_find_my_database env node.db true = .ok db0)
    (hl : db0.locked_and_loaded = false) :
    bdr_locks_startup env node =
      { node :=
          { node with
            db :=
              if (bdr_locks_startup_rows env
                    (node.locks.filter (fun r => r.owner.datid == db0.dboid)) 0
                    { db0 with waiters := [], nnodes := 0 }
                    [Effect.LogStandbyMessage
                      (bdr_prepare_message env .BDR_MESSAGE_START) false]).2.2 = none
              then
                { (bdr_locks_startup_rows env
                    (node.locks.filter (fun r => r.owner.datid == db0.dboid)) 0
                    { db0 with waiters := [], nnodes := 0 }
                    [Effect.LogStandbyMessage
                      (bdr_prepare_message env .BDR_MESSAGE_START) false]).1 with
                  locked_and_loaded := true }
              else
                (bdr_locks_startup_rows env
                    (node.locks.filter (fun r => r.owner.datid == db0.dboid)) 0
                    { db0 with waiters := [], nnodes := 0 }
                    [Effect.LogStandbyMessage
                      (bdr_prepare_message env .BDR_MESSAGE_START) false]).1 },
        effects :=
          (bdr_locks_startup_rows env
            (node.locks.filter (fun r => r.owner.datid == db0.dboid)) 0
            { db0 with waiters := [], nnodes := 0 }
            [Effect.LogStandbyMessage (bdr_prepare_message env .BDR_MESSAGE_START) false]).2.1,
        error :=
          (bdr_locks_startup_rows env
            (node.locks.filter (fun r => r.owner.datid == db0.dboid)) 0
            { db0 with waiters := [], nnodes := 0 }
            [Effect.LogStandbyMessage
              (bdr_prepare_message env .BDR_MESSAGE_START) false]).2.2 } := by
  unfold bdr_locks_startup
  rw [hf]
  simp only [hl, Bool.false_eq_true, if_false]
  generalize bdr_locks_startup_rows env _ 0 _ _ = res
  rcases res with ⟨db2, eff, _ | e⟩
  · simp
  · simp

/-- When the slot is already loaded, `bdr_locks_startup` returns at once. -/
theorem startup_loaded (env : Env) (node : Node) (hc : Configured env node.db)
    (hl : node.db.locked_and_loaded = true) :
    bdr_locks_startup env node = { node := node, effects := [], error := none } := by
  obtain ⟨h1, h2⟩ := hc
  unfold bdr_locks_startup bdr_locks_find_my_database bdr_locks_find_database
  simp [h1, h2, hl]


/-- C16: recovery postcondition of `bdr_locks_startup`. From a slot that is
free or this database's, not loaded and with `lockcount = 0`: the first
message logged is START; when every row of this database is readable the
call succeeds, `lockcount` is the number of those rows, holder and lock type
are those of the last row read, one replay confirmation request is logged per
"catchup" row and none per "acquired" row, `replay_confirmed = 0` and
`replay_confirmed_lsn` is the position of the last request, and
`locked_and_loaded` is set; a row in any other state makes the call fail
with the slot left not loaded; and on a loaded slot the call changes nothing
and logs nothing. -/
theorem C16_startup_recovery (env : Env) (node : Node)
    (hslot : node.db.in_use = true → node.db.dboid = env.MyDatabaseId)
    (hready : node.db.locked_and_loaded = false) (hheld : node.db.lockcount = 0) :
    (bdr_locks_startup env node).effects.head? =
      some (Effect.LogStandbyMessage (bdr_prepare_message env .BDR_MESSAGE_START) false) ∧
    ((∀ r ∈ node.locks.filter (fun r => r.owner.datid == env.MyDatabaseId), r.readable) →
      (bdr_locks_startup env node).error = none ∧
      (bdr_locks_startup env node).node.locks = node.locks ∧
      (bdr_locks_startup env node).effects =
        Effect.LogStandbyMessage (bdr_prepare_message env .BDR_MESSAGE_START) false ::
          startupRequests env 0
            (catchupRows (node.locks.filter (fun r => r.owner.datid == env.MyDatabaseId))) ∧
      (bdr_locks_startup env node).node.db.lockcount =
        (node.locks.filter (fun r => r.owner.datid == env.MyDatabaseId)).length ∧
      (bdr_locks_startup env node).node.db.locked_and_loaded = true ∧
      (∀ last,
        (node.locks.filter (fun r => r.owner.datid == env.MyDatabaseId)).getLast? = some last →
        (bdr_locks_startup env node).node.db.lock_holder =
          env.bdr_fetch_node_id_via_sysid last.holder ∧
        bdr_lock_name_to_type last.lock_type =
          .ok (bdr_locks_startup env node).node.db.lock_type) ∧
      (0 < catchupRows (node.locks.filter (fun r => r.owner.datid == env.MyDatabaseId)) →
        (bdr_locks_startup env node).node.db.replay_confirmed = 0 ∧
        (bdr_locks_startup env node).node.db.replay_confirmed_lsn =
          env.GetXLogInsertRecPtr
            (catchupRows (node.locks.filter (fun r => r.owner.datid == env.MyDatabaseId))
              - 1)) ∧
      (catchupRows (node.locks.filter (fun r => r.owner.datid == env.MyDatabaseId)) = 0 →
        (bdr_locks_startup env node).node.db.replay_confirmed = node.db.replay_confirmed ∧
        (bdr_locks_startup env node).node.db.replay_confirmed_lsn =
          node.db.replay_confirmed_lsn)) ∧
    ((∃ r ∈ node.locks.filter (fun r => r.owner.datid == env.MyDatabaseId),
        r.state ≠ "acquired" ∧ r.state ≠ "catchup") →
      (bdr_locks_startup env node).error ≠ none ∧
      (bdr_locks_startup env node).node.db.locked_and_loaded = false) ∧
    (∀ loaded : Node, Configured env loaded.db → loaded.db.locked_and_loaded = true →
      bdr_locks_startup env loaded = { node := loaded, effects := [], error := none }) := by
  have hf := find_my_database_create env node.db hslot
  have e := startup_eq env node _ hf hready
  simp only at e
  refine ⟨?_, ?_, ?_, fun loaded hc hl => startup_loaded env loaded hc hl⟩
  · rw [e]
    obtain ⟨more, hm⟩ := startup_rows_effects env
      (node.locks.filter (fun r => r.owner.datid == env.MyDatabaseId)) 0
      { node.db with dboid := env.MyDatabaseId, in_use := true, waiters := [], nnodes := 0 }
      [Effect.LogStandbyMessage (bdr_prepare_message env .BDR_MESSAGE_START) false]
    simp only at hm ⊢
    rw [hm]; rfl
  · intro hr
    obtain ⟨i1, i2, i3, i4, i5, i6⟩ := startup_rows_readable env
      (node.locks.filter (fun r => r.owner.datid == env.MyDatabaseId)) 0
      { node.db with dboid := env.MyDatabaseId, in_use := true, waiters := [], nnodes := 0 }
      [Effect.LogStandbyMessage (bdr_prepare_message env .BDR_MESSAGE_START) false] hr
    simp only at i1 i2 i3 i4 i5 i6
    rw [e, if_pos i1]
    refine ⟨?_, ?_, ?_, ?_, ?_, ?_, ?_, ?_⟩
    · exact i1
    · rfl
    · dsimp only; rw [i3]; rfl
    · dsimp only; rw [i2]; simp only [hheld]; omega
    · rfl
    · exact i4
    · intro hp
      obtain ⟨j1, j2⟩ := i6 hp
      dsimp only
      rw [j1, j2]; simp
    · exact i5
  · intro hbad
    have hne := startup_rows_fatal env
      (node.locks.filter (fun r => r.owner.datid == env.MyDatabaseId)) 0
      { node.db with dboid := env.MyDatabaseId, in_use := true, waiters := [], nnodes := 0 }
      [Effect.LogStandbyMessage (bdr_prepare_message env .BDR_MESSAGE_START) false] hbad
    have hfr := startup_rows_frame env
      (node.locks.filter (fun r => r.owner.datid == env.MyDatabaseId)) 0
      { node.db with dboid := env.MyDatabaseId, in_use := true, waiters := [], nnodes := 0 }
      [Effect.LogStandbyMessage (bdr_prepare_message env .BDR_MESSAGE_START) false]
    simp only at hne hfr
    rw [e, if_neg hne]
    refine ⟨hne, ?_⟩
    dsimp only
    rw [hfr]; exact hready

theorem C16_startup_recovery_witness :
    (exampleCatchup.db.in_use = true →
      exampleCatchup.db.dboid = (exampleEnv 0 0 false).MyDatabaseId) ∧
    exampleCatchup.db.locked_and_loaded = false ∧ exampleCatchup.db.lockcount = 0 ∧
    (∀ r ∈ exampleCatchup.locks.filter
        (fun r => r.owner.datid == (exampleEnv 0 0 false).MyDatabaseId), r.readable) ∧
    (bdr_locks_startup (exampleEnv 0 0 false) exampleCatchup).effects =
      [Effect.LogStandbyMessage
        (bdr_prepare_message (exampleEnv 0 0 false) .BDR_MESSAGE_START) false,
       Effect.LogStandbyMessage
        (bdr_prepare_message (exampleEnv 0 0 false)
          (.BDR_MESSAGE_REQUEST_REPLAY_CONFIRM 4096)) false] ∧
    (bdr_locks_startup (exampleEnv 0 0 false) exampleCatchup).node.db.lockcount = 1 ∧
    (bdr_locks_startup (exampleEnv 0 0 false) exampleCatchup).node.db.locked_and_loaded =
      true := by
  have hr : ∀ r ∈ exampleCatchup.locks.filter
      (fun r => r.owner.datid == (exampleEnv 0 0 false).MyDatabaseId), r.readable := by
    intro r h
    have h1 : r =
        ({ lock_type := "write_lock", holder := exampleNodeId 1, acquired_at := 0,
           owner := exampleNodeId 0, state := "catchup" } : LockRow) := by
      simpa [exampleCatchup, exampleEnv, exampleNodeId] using h
    subst h1
    exact ⟨⟨.BDR_LOCK_WRITE, rfl⟩, Or.inr rfl⟩
  have h := (C16_startup_recovery (exampleEnv 0 0 false) exampleCatchup
    (fun h => by cases h) rfl rfl).2.1 hr
  exact ⟨(fun h => by cases h), rfl, rfl, hr, h.2.2.1, h.2.2.2.1, h.2.2.2.2.1⟩

/-! ## C18: confirmation of a write lock -/

theorem pq_sendbytes_bdr : pq_sendbytes "bdr" = [98, 100, 114] := by decide

theorem getmsgint4_sendint (v : Nat) (rest : List Nat) :
    pq_getmsgint4 (pq_sendint v 4 ++ rest) = some (v % 4294967296, rest) := by
  simp only [pq_sendint, List.cons_append, List.nil_append, pq_getmsgint4, Option.some.injEq,
    Prod.mk.injEq, and_true]
  omega

theorem getmsgint64_sendint64 (v : Nat) (rest : List Nat) :
    pq_getmsgint64 (pq_sendint64 v ++ rest) = some (v % 18446744073709551616, rest) := by
  unfold pq_getmsgint64 pq_sendint64
  rw [List.append_assoc, getmsgint4_sendint]
  simp only
  rw [getmsgint4_sendint]
  simp only [Option.some.injEq, Prod.mk.injEq, and_true]
  omega

theorem getmsg_node_send_node (k : BdrNodeId) (hk : k.inRange) (rest : List Nat) :
    pq_getmsg_node (pq_send_node k ++ rest) = some (k, rest) := by
  obtain ⟨h1, h2, h3⟩ := hk
  unfold pq_getmsg_node pq_send_node
  rw [List.append_assoc, List.append_assoc, getmsgint64_sendint64]
  simp only
  rw [getmsgint4_sendint]
  simp only
  rw [getmsgint4_sendint]
  rw [Nat.mod_eq_of_lt h1, Nat.mod_eq_of_lt h2, Nat.mod_eq_of_lt h3]

theorem lock_type_of_val (t : BDRLockType) :
    bdr_lock_type_of_val (t.val % 4294967296) = some t := by
  cases t <;> decide

theorem message_type_of_code (code : BdrMessageType → Nat) (hinj : Function.Injective code)
    (k : BdrMessageType) : bdr_message_type_of_code code (code k) = some k := by
  cases k <;> simp [bdr_message_type_of_code, hinj.eq_iff]

/-- Parsing the payload bytes of the message type gives the payload back. -/
theorem parse_payload_bytes (p : BdrMessagePayload) (hp : p.inRange) :
    bdr_parse_payload p.message_type (bdr_payload_bytes p) = some p := by
  cases p with
  | BDR_MESSAGE_START => rfl
  | BDR_MESSAGE_ACQUIRE_LOCK t =>
    have h := getmsgint4_sendint t.val []
    rw [List.append_nil] at h
    simp only [BdrMessagePayload.message_type, bdr_payload_bytes, bdr_parse_payload, h,
      lock_type_of_val, Option.map_some']
  | BDR_MESSAGE_RELEASE_LOCK lock =>
    have h := getmsg_node_send_node lock hp []
    rw [List.append_nil] at h
    simp only [BdrMessagePayload.message_type, bdr_payload_bytes, bdr_parse_payload, h]
  | BDR_MESSAGE_CONFIRM_LOCK lock t =>
    have h := getmsgint4_sendint t.val []
    rw [List.append_nil] at h
    simp only [BdrMessagePayload.message_type, bdr_payload_bytes, bdr_parse_payload,
      getmsg_node_send_node lock hp, h, lock_type_of_val, Option.map_some']
  | BDR_MESSAGE_DECLINE_LOCK lock t =>
    have h := getmsgint4_sendint t.val []
    rw [List.append_nil] at h
    simp only [BdrMessagePayload.message_type, bdr_payload_bytes, bdr_parse_payload,
      getmsg_node_send_node lock hp, h, lock_type_of_val, Option.map_some']
  | BDR_MESSAGE_REQUEST_REPLAY_CONFIRM lsn =>
    have h := getmsgint64_sendint64 lsn []
    rw [List.append_nil] at h
    have hl : lsn < 18446744073709551616 := hp
    simp only [BdrMessagePayload.message_type, bdr_payload_bytes, bdr_parse_payload, h,
      Nat.mod_eq_of_lt hl]
  | BDR_MESSAGE_REPLAY_CONFIRM lsn =>
    have h := getmsgint64_sendint64 lsn []
    rw [List.append_nil] at h
    have hl : lsn < 18446744073709551616 := hp
    simp only [BdrMessagePayload.message_type, bdr_payload_bytes, bdr_parse_payload, h,
      Nat.mod_eq_of_lt hl]

/-- Parsing the bytes of a message gives the message back. -/
theorem parse_message_bytes (code : BdrMessageType → Nat) (hinj : Function.Injective code)
    (hcode : ∀ k, code k < 4294967296) (m : BdrMessage) (hm : m.inRange) :
    bdr_parse_message code (bdr_message_bytes code m) = some m := by
  obtain ⟨ho, hp⟩ := hm
  have hlen : pq_getmsgint4 (pq_sendint "bdr".length 4 ++
      (pq_sendbytes "bdr" ++ (pq_sendint (code m.payload.message_type) 4 ++
        (pq_send_node m.origin ++ (pq_sendint 0 4 ++ bdr_payload_bytes m.payload))))) =
      some (3, pq_sendbytes "bdr" ++ (pq_sendint (code m.payload.message_type) 4 ++
        (pq_send_node m.origin ++ (pq_sendint 0 4 ++ bdr_payload_bytes m.payload)))) := by
    rw [getmsgint4_sendint]; rfl
  have hbytes : bdr_message_bytes code m =
      pq_sendint "bdr".length 4 ++
      (pq_sendbytes "bdr" ++ (pq_sendint (code m.payload.message_type) 4 ++
        (pq_send_node m.origin ++ (pq_sendint 0 4 ++ bdr_payload_bytes m.payload)))) := by
    simp only [bdr_message_bytes, bdr_prepare_message_bytes, pq_send_node, List.append_assoc]
  unfold bdr_parse_message
  rw [hbytes, hlen]
  simp only [pq_sendbytes_bdr, List.cons_append, List.nil_append, List.take_succ_cons,
    List.take_zero, ne_eq, not_true_eq_false, or_self, if_false, List.drop_succ_cons,
    List.drop_zero]
  rw [getmsgint4_sendint]
  simp only
  rw [getmsg_node_send_node m.origin ho]
  simp only
  rw [getmsgint4_sendint]
  simp only [Nat.zero_mod, List.drop_zero, Nat.mod_eq_of_lt (hcode _),
    message_type_of_code code hinj, parse_payload_bytes m.payload hp, Option.map_some']


/-- C12: for each of the seven message kinds, every sender and every payload
whose fields fit their C types, and every numbering of the message types that
is one-to-one and fits 32 bits: the bytes built are the 4-byte length 3, the
bytes "bdr", the 32-bit message type, the 64-bit sysid, the 32-bit timeline,
the 32-bit database, a 32-bit zero and the payload fields, most significant
byte first; reading them back in this order gives the message; and two
messages with the same bytes are equal. -/
theorem C12_codec_round_trip (code : BdrMessageType → Nat) (hinj : Function.Injective code)
    (hcode : ∀ k, code k < 4294967296) (m : BdrMessage) (hm : m.inRange) :
    bdr_message_bytes code m =
      [0, 0, 0, 3] ++ [98, 100, 114] ++ pq_sendint (code m.payload.message_type) 4 ++
        pq_sendint64 m.origin.sysid ++ pq_sendint m.origin.tli 4 ++
        pq_sendint m.origin.datid 4 ++ [0, 0, 0, 0] ++ bdr_payload_bytes m.payload ∧
    bdr_parse_message code (bdr_message_bytes code m) = some m ∧
    (∀ other : BdrMessage, other.inRange →
      bdr_message_bytes code other = bdr_message_bytes code m → other = m) := by
  refine ⟨rfl, parse_message_bytes code hinj hcode m hm, ?_⟩
  intro other ho hb
  have h1 := parse_message_bytes code hinj hcode other ho
  rw [hb, parse_message_bytes code hinj hcode m hm] at h1
  exact (Option.some.inj h1).symm

theorem C12_codec_round_trip_witness :
    Function.Injective exampleCode ∧ (∀ k, exampleCode k < 4294967296) ∧
    exampleConfirmMessage.inRange ∧
    bdr_message_bytes exampleCode exampleConfirmMessage =
      [0, 0, 0, 3, 98, 100, 114, 0, 0, 0, 3, 0, 0, 0, 0, 0, 0, 3, 232, 0, 0, 0, 1,
       0, 0, 64, 0, 0, 0, 0, 0, 0, 0, 0, 0, 0, 0, 3, 233, 0, 0, 0, 1, 0, 0, 64, 0,
       0, 0, 0, 2] ∧
    bdr_parse_message exampleCode (bdr_message_bytes exampleCode exampleConfirmMessage) =
      some exampleConfirmMessage :=
  have hinj : Function.Injective exampleCode := by
    intro a b h
    cases a <;> cases b <;> first | rfl | (exact absurd h (by decide))
  have hcode : ∀ k, exampleCode k < 4294967296 := by
    intro k; cases k <;> decide
  ⟨hinj, hcode, by decide, by decide,
    (C12_codec_round_trip exampleCode hinj hcode exampleConfirmMessage (by decide)).2.1⟩

/-! ## C21: the handler of a replay confirmation -/

/-- A replay confirmation for another position than the one recorded changes
nothing and has no effect. -/
theorem process_replay_confirm_other (env : Env) (node : Node) (origin : BdrNodeId)
    (lsn : XLogRecPtr) (hl : node.db.replay_confirmed_lsn ≠ lsn) :
    (bdr_process_replay_confirm env node origin lsn).node = node ∧
    (bdr_process_replay_confirm env node origin lsn).effects = [] := by
  have hl2 : (node.db.replay_confirmed_lsn == lsn) = false := by simpa using hl
  unfold bdr_process_replay_confirm
  split
  · exact ⟨rfl, rfl⟩
  · split
    · exact ⟨rfl, rfl⟩
    · simp [hl2]

/-- The three cases of `bdr_process_replay_confirm` on a configured slot, for
a message of the worker's peer. -/
theorem process_replay_confirm_cases (env : Env) (node : Node) (origin : BdrNodeId)
    (lsn : XLogRecPtr)
    (ho : check_is_my_origin_node env origin = true) (hc : Configured env node.db) :
    (node.db.replay_confirmed_lsn ≠ lsn →
      bdr_process_replay_confirm env node origin lsn =
        { node := node, effects := [], error := none }) ∧
    (node.db.replay_confirmed_lsn = lsn → node.db.replay_confirmed + 1 < node.db.nnodes →
      bdr_process_replay_confirm env node origin lsn =
        { node := { node with db := { node.db with
            replay_confirmed := node.db.replay_confirmed + 1 } },
          effects := [], error := none }) ∧
    (node.db.replay_confirmed_lsn = lsn → node.db.nnodes ≤ node.db.replay_confirmed + 1 →
      bdr_process_replay_confirm env node origin lsn =
        bdr_send_confirm_lock env { node with db := { node.db with
          replay_confirmed := node.db.replay_confirmed + 1 } }) := by
  refine ⟨?_, ?_, ?_⟩
  · intro hl
    have hl2 : (node.db.replay_confirmed_lsn == lsn) = false := by simpa using hl
    unfold bdr_process_replay_confirm
    rw [find_my_database_ok env node.db hc]
    simp [ho, hl2]
  · intro hl hq
    have hq2 : ¬ node.db.nnodes ≤ node.db.replay_confirmed + 1 := by omega
    unfold bdr_process_replay_confirm
    rw [find_my_database_ok env node.db hc]
    simp [ho, hl, hq2]
  · intro hl hq
    unfold bdr_process_replay_confirm
    rw [find_my_database_ok env node.db hc]
    simp [ho, hl, hq]


/-- The invalid position is not told apart from a position waited for: on a
node that awaits no replay confirmation a replay confirmation carrying
position 0 would be counted. No peer sends one: a replay confirmation echoes
the position of a request, which is a WAL insert position. -/
theorem replay_confirm_invalid_position :
    ¬ (exampleReady 2).awaiting_replay ∧
    (bdr_process_replay_confirm (exampleEnv 0 2 true) { db := exampleReady 2, locks := [] }
      (exampleNodeId 1) 0).node.db.replay_confirmed = 1 ∧
    ¬ exampleWriteHeld.db.awaiting_replay ∧
    (bdr_process_replay_confirm (exampleEnv 0 2 true) exampleWriteHeld
      (exampleNodeId 1) 0).effects =
      [Effect.LogStandbyMessage
        { origin := exampleNodeId 0,
          payload := .BDR_MESSAGE_CONFIRM_LOCK (exampleNodeId 1) .BDR_LOCK_WRITE } true] := by
  decide

/-- C21: for every state of a configured slot and every replay confirmation
of the worker's peer that carries a valid position `lsn`: if the node awaits
replay confirmations and `lsn` is the position waited for, `replay_confirmed`
grows by exactly one, and the lock is confirmed exactly when the new value
reaches `nnodes`: the row of the holder is set to "acquired" and one
transactional confirmation naming the holder and the recorded lock type is
logged (after which `replay_confirmed`, `replay_confirmed_lsn` and `requestor`
are reset); in every other case (another position, or no replay confirmation
awaited) the slot and the lock table are unchanged and nothing is logged. -/
theorem C21_replay_confirm_counted (env : Env) (node : Node) (origin : BdrNodeId)
    (lsn : XLogRecPtr) (hlsn : lsn ≠ InvalidXLogRecPtr)
    (ho : check_is_my_origin_node env origin = true) (hc : Configured env node.db) :
    (¬ (node.db.awaiting_replay ∧ node.db.replay_confirmed_lsn = lsn) →
      bdr_process_replay_confirm env node origin lsn =
        { node := node, effects := [], error := none }) ∧
    (node.db.awaiting_replay → node.db.replay_confirmed_lsn = lsn →
      node.db.replay_confirmed + 1 < node.db.nnodes →
      bdr_process_replay_confirm env node origin lsn =
        { node := { node with db := { node.db with
            replay_confirmed := node.db.replay_confirmed + 1 } },
          effects := [], error := none }) ∧
    (node.db.awaiting_replay → node.db.replay_confirmed_lsn = lsn →
      node.db.nnodes ≤ node.db.replay_confirmed + 1 →
      ∀ row,
        locks_begin_scan node.locks (env.bdr_fetch_sysid_via_node_id node.db.lock_holder)
          = [row] →
        bdr_process_replay_confirm env node origin lsn =
          bdr_send_confirm_lock env { node with db := { node.db with
            replay_confirmed := node.db.replay_confirmed + 1 } } ∧
        bdr_process_replay_confirm env node origin lsn =
          { node :=
              { db := { node.db with
                  replay_confirmed := 0, replay_confirmed_lsn := InvalidXLogRecPtr,
                  requestor := none },
                locks := locks_update node.locks
                  (env.bdr_fetch_sysid_via_node_id node.db.lock_holder)
                  (fun r => { r with state := "acquired" }) },
            effects :=
              [Effect.LogStandbyMessage
                (bdr_prepare_message env
                  (.BDR_MESSAGE_CONFIRM_LOCK
                    (env.bdr_fetch_sysid_via_node_id node.db.lock_holder)
                    node.db.lock_type)) true],
            error := none }) := by
  obtain ⟨h1, h2, h3⟩ := process_replay_confirm_cases env node origin lsn ho hc
  refine ⟨?_, fun _ => h2, ?_⟩
  · intro hn
    apply h1
    intro hl
    apply hn
    refine ⟨?_, hl⟩
    unfold BdrLocksDBState.awaiting_replay
    rw [hl]
    exact hlsn
  · intro _ hl hq row hrow
    refine ⟨h3 hl hq, ?_⟩
    rw [h3 hl hq]
    unfold bdr_send_confirm_lock
    simp only [hrow]

theorem C21_replay_confirm_counted_witness :
    (4096 : XLogRecPtr) ≠ InvalidXLogRecPtr ∧
    check_is_my_origin_node (exampleEnv 0 2 true) (exampleNodeId 1) = true ∧
    Configured (exampleEnv 0 2 true) exampleDraining.db ∧
    exampleDraining.db.awaiting_replay ∧
    exampleDraining.db.replay_confirmed_lsn = 4096 ∧
    exampleDraining.db.nnodes ≤ exampleDraining.db.replay_confirmed + 1 ∧
    bdr_process_replay_confirm (exampleEnv 0 2 true) exampleDraining (exampleNodeId 1) 4096 =
      { node := exampleWriteHeld,
        effects :=
          [Effect.LogStandbyMessage
            { origin := exampleNodeId 0,
              payload := .BDR_MESSAGE_CONFIRM_LOCK (exampleNodeId 1) .BDR_LOCK_WRITE } true],
        error := none } := by
  have h := ((C21_replay_confirm_counted (exampleEnv 0 2 true) exampleDraining
    (exampleNodeId 1) 4096 (by decide) (by decide) (by decide)).2.2 (by decide) rfl
    (by decide) _ rfl).2
  refine ⟨by decide, by decide, by decide, by decide, rfl, by decide, ?_⟩
  rw [h]
  decide

/-! ## C22: the row of a lock that is upgraded -/

/-- The upgrade branch of `bdr_process_acquire_ddl_lock` for the write lock:
the row of the holder gets the new lock name, the slot the new lock type and
the position to wait for, and the replay confirmation is requested. -/
theorem process_acquire_upgrade_write (env : Env) (node : Node) (origin : BdrNodeId)
    (row : LockRow)
    (ho : check_is_my_origin_node env origin = true) (hc : Configured env node.db)
    (hheld : node.db.lockcount > 0)
    (hholder : node.db.lock_holder = env.replication_origin_id)
    (hlt : node.db.lock_type.val < BDRLockType.BDR_LOCK_WRITE.val)
    (hrow : locks_begin_scan node.locks
      (env.bdr_fetch_sysid_via_node_id node.db.lock_holder) = [row]) :
    bdr_process_acquire_ddl_lock env node origin .BDR_LOCK_WRITE =
      { node :=
          { db := { node.db with
              lock_type := .BDR_LOCK_WRITE, replay_confirmed := 0,
              replay_confirmed_lsn := env.GetXLogInsertRecPtr 0 },
            locks := locks_update node.locks
              (env.bdr_fetch_sysid_via_node_id node.db.lock_holder)
              (fun r => { r with lock_type := "write_lock" }) },
        effects :=
          [Effect.cancel_conflicting_transactions,
           Effect.LogStandbyMessage
             (bdr_prepare_message env
               (.BDR_MESSAGE_REQUEST_REPLAY_CONFIRM (env.GetXLogInsertRecPtr 0))) false],
        error := none } := by
  have h0 : (node.db.lockcount == 0) = false := by
    simp only [beq_eq_false_iff_ne, ne_eq]; omega
  have hgt : decide (BDRLockType.BDR_LOCK_WRITE.val > node.db.lock_type.val) = true := by
    simpa using hlt
  unfold bdr_process_acquire_ddl_lock
  rw [find_my_database_ok env node.db hc]
  simp only [ho, Bool.not_true, Bool.false_eq_true, if_false, h0, hholder, beq_self_eq_true,
    hgt, Bool.and_self, if_true]
  rw [← hholder, hrow]
  rfl


/-- C22, as stated, fails for the upgrade: when the holder of a confirmed lock
("acquired" row) asks for the write lock, the handler requests the replay
confirmation and logs no lock confirmation, the slot records the write lock
and the position waited for, and the row of the holder gets the new lock name
but keeps the state "acquired": it is not "catchup" while the replay
confirmations are outstanding. -/
theorem C22_upgrade_row_stays_acquired (env : Env) (node : Node) (origin : BdrNodeId)
    (row : LockRow)
    (ho : check_is_my_origin_node env origin = true) (hc : Configured env node.db)
    (hheld : node.db.lockcount > 0)
    (hholder : node.db.lock_holder = env.replication_origin_id)
    (hlt : node.db.lock_type.val < BDRLockType.BDR_LOCK_WRITE.val)
    (hrow : locks_begin_scan node.locks
      (env.bdr_fetch_sysid_via_node_id node.db.lock_holder) = [row])
    (hst : row.state = "acquired") :
    (bdr_process_acquire_ddl_lock env node origin .BDR_LOCK_WRITE).effects =
      [Effect.cancel_conflicting_transactions,
       Effect.LogStandbyMessage
         (bdr_prepare_message env
           (.BDR_MESSAGE_REQUEST_REPLAY_CONFIRM (env.GetXLogInsertRecPtr 0))) false] ∧
    confirmsLogged (bdr_process_acquire_ddl_lock env node origin .BDR_LOCK_WRITE).effects
      = [] ∧
    (bdr_process_acquire_ddl_lock env node origin .BDR_LOCK_WRITE).node.db.lock_type =
      .BDR_LOCK_WRITE ∧
    (bdr_process_acquire_ddl_lock env node origin .BDR_LOCK_WRITE).node.db.replay_confirmed
      = 0 ∧
    (bdr_process_acquire_ddl_lock env node origin
      .BDR_LOCK_WRITE).node.db.replay_confirmed_lsn = env.GetXLogInsertRecPtr 0 ∧
    locks_begin_scan
      (bdr_process_acquire_ddl_lock env node origin .BDR_LOCK_WRITE).node.locks
      (env.bdr_fetch_sysid_via_node_id node.db.lock_holder) =
      [{ row with lock_type := "write_lock" }] ∧
    (∀ r ∈ locks_begin_scan
        (bdr_process_acquire_ddl_lock env node origin .BDR_LOCK_WRITE).node.locks
        (env.bdr_fetch_sysid_via_node_id node.db.lock_holder),
      r.state = "acquired" ∧ r.state ≠ "catchup") := by
  have e := process_acquire_upgrade_write env node origin row ho hc hheld hholder hlt hrow
  have hscan : locks_begin_scan
      (bdr_process_acquire_ddl_lock env node origin .BDR_LOCK_WRITE).node.locks
      (env.bdr_fetch_sysid_via_node_id node.db.lock_holder) =
      [{ row with lock_type := "write_lock" }] := by
    rw [e]
    simp only
    rw [locks_scan_update _ (fun r => { r with lock_type := "write_lock" }) (fun _ => rfl),
      hrow]
    rfl
  refine ⟨by rw [e], by rw [e]; rfl, by rw [e], by rw [e], by rw [e], hscan, ?_⟩
  intro r hr
  rw [hscan, List.mem_singleton] at hr
  subst hr
  simp only [hst]
  exact ⟨trivial, by decide⟩

/-- C22, instance and consequence: the state is reached by the two requests of
node 1 (DDL lock, then write lock); after a crash in this state the start-up
reads an "acquired" row, requests no replay confirmation, and the
confirmation of position 4096 that arrives later is ignored, so that the write
lock is never confirmed; the same crash after a first grant of the write lock
("catchup" row) requests the replay confirmation again. -/
theorem C22_upgrade_row_stays_acquired_witness :
    handleMessages { db := exampleReady 1, locks := [] }
      [ (exampleEnv 0 2 true,
          { origin := exampleNodeId 1, payload := .BDR_MESSAGE_ACQUIRE_LOCK .BDR_LOCK_DDL }),
        (exampleEnv 0 2 true,
          { origin := exampleNodeId 1, payload := .BDR_MESSAGE_ACQUIRE_LOCK .BDR_LOCK_WRITE })
      ] = exampleUpgrading ∧
    (bdr_process_acquire_ddl_lock (exampleEnv 0 2 true) exampleHeldByPeer (exampleNodeId 1)
      .BDR_LOCK_WRITE).node = exampleUpgrading ∧
    (∀ r ∈ locks_begin_scan
        (bdr_process_acquire_ddl_lock (exampleEnv 0 2 true) exampleHeldByPeer
          (exampleNodeId 1) .BDR_LOCK_WRITE).node.locks
        ((exampleEnv 0 2 true).bdr_fetch_sysid_via_node_id exampleHeldByPeer.db.lock_holder),
      r.state = "acquired" ∧ r.state ≠ "catchup") ∧
    loggedMessages (restart (exampleEnv 0 0 true) exampleUpgrading 1).effects =
      [{ origin := exampleNodeId 0, payload := .BDR_MESSAGE_START }] ∧
    (restart (exampleEnv 0 0 true) exampleUpgrading 1).node.db.lock_type = .BDR_LOCK_WRITE ∧
    (bdr_process_replay_confirm (exampleEnv 0 2 true)
      (restart (exampleEnv 0 0 true) exampleUpgrading 1).node (exampleNodeId 1) 4096).effects
      = [] ∧
    loggedMessages (restart (exampleEnv 0 0 true) exampleDraining 1).effects =
      [{ origin := exampleNodeId 0, payload := .BDR_MESSAGE_START },
       { origin := exampleNodeId 0, payload := .BDR_MESSAGE_REQUEST_REPLAY_CONFIRM 4096 }] :=
  ⟨by decide, by decide,
    (C22_upgrade_row_stays_acquired (exampleEnv 0 2 true) exampleHeldByPeer (exampleNodeId 1)
      { lock_type := "ddl_lock", holder := exampleNodeId 1, acquired_at := 0,
        owner := exampleNodeId 0, state := "acquired" }
      (by decide) (by decide) (by decide) (by decide) (by decide) (by decide) rfl).2.2.2.2.2.2,
    by decide, by decide, by decide, by decide⟩

/-! ## C23: the loop of `cancel_conflicting_transactions` -/

/-- With an entry whose process has exited on the list, the loop is still
running after any number of iterations. -/
theorem cancel_loop_spins (w : ProcArray) (endtime : TimestampTz) (c : VirtualTransactionId)
    (hgone : ∀ k, w.BackendIdGetProc k c.backendId = none) :
    ∀ (fuel k : Nat) (conflict : List VirtualTransactionId) (waittime : Nat)
      (acc : List CancelEvent), c ∈ conflict →
      cancel_conflicting_transactions_loop w endtime fuel k conflict waittime acc = none := by
  intro fuel
  induction fuel with
  | zero =>
    intro k conflict waittime acc hc
    cases conflict with
    | nil => cases hc
    | cons x rest => rfl
  | succ fuel ih =>
    intro k conflict waittime acc hc
    cases conflict with
    | nil => cases hc
    | cons x rest =>
      have hrest : w.BackendIdGetProc k x.backendId ≠ none → c ∈ rest := by
        intro hx
        rcases List.mem_cons.1 hc with h | h
        · subst h; exact absurd (hgone k) hx
        · exact h
      unfold cancel_conflicting_transactions_loop
      cases hp : w.BackendIdGetProc k x.backendId with
      | none => exact ih _ _ _ _ hc
      | some pgproc =>
        have hr := hrest (by rw [hp]; simp)
        simp only
        split
        · exact ih _ _ _ _ hr
        · split
          · exact ih _ _ _ _ hc
          · split
            · exact ih _ _ _ _ hr
            · exact ih _ _ _ _ hc

/-- When every entry keeps its process and is a non-writer or a writer, the
clock passes the end of the grace period by iteration `bound` and the writers
are reported gone from iteration `bound` on, the loop ends within
`bound - k + length` iterations. -/
theorem cancel_loop_ends (w : ProcArray) (endtime : TimestampTz) (bound : Nat)
    (hclock : ∀ k, bound ≤ k → endtime ≤ w.GetCurrentTimestamp (k + 1)) :
    ∀ (fuel k : Nat) (conflict : List VirtualTransactionId) (waittime : Nat)
      (acc : List CancelEvent),
      (∀ c ∈ conflict, ∀ j, ∃ p, w.BackendIdGetProc j c.backendId = some p) →
      (∀ c ∈ conflict, ∀ j, bound ≤ j → w.CancelVirtualTransaction j c = 0) →
      bound - k + conflict.length ≤ fuel →
      ∃ events,
        cancel_conflicting_transactions_loop w endtime fuel k conflict waittime acc
          = some events := by
  intro fuel
  induction fuel with
  | zero =>
    intro k conflict waittime acc _ _ hf
    cases conflict with
    | nil => exact ⟨acc, by simp [cancel_conflicting_transactions_loop]⟩
    | cons x rest => simp at hf
  | succ fuel ih =>
    intro k conflict waittime acc hproc hcancel hf
    cases conflict with
    | nil => exact ⟨acc, by simp [cancel_conflicting_transactions_loop]⟩
    | cons x rest =>
      have hproc2 : ∀ c ∈ rest, ∀ j, ∃ p, w.BackendIdGetProc j c.backendId = some p :=
        fun c hc => hproc c (List.mem_cons_of_mem _ hc)
      have hcancel2 : ∀ c ∈ rest, ∀ j, bound ≤ j → w.CancelVirtualTransaction j c = 0 :=
        fun c hc => hcancel c (List.mem_cons_of_mem _ hc)
      have hlen : bound - k + (rest.length + 1) ≤ fuel + 1 := by simpa using hf
      have hadv : bound - (k + 1) + rest.length ≤ fuel := by omega
      obtain ⟨p, hp⟩ := hproc x (List.mem_cons_self _ _) k
      unfold cancel_conflicting_transactions_loop
      rw [hp]
      simp only
      split
      · exact ih _ _ _ _ hproc2 hcancel2 hadv
      · split
        · rename_i hlt
          have hk : k < bound := by
            by_contra hge
            exact absurd (Nat.lt_of_lt_of_le hlt (hclock k (Nat.le_of_not_lt hge)))
              (Nat.lt_irrefl _)
          exact ih _ _ _ _ hproc hcancel (by simp only [List.length_cons]; omega)
        · split
          · exact ih _ _ _ _ hproc2 hcancel2 hadv
          · rename_i hne
            have hk : k < bound := by
              by_contra hge
              have := hcancel x (List.mem_cons_self _ _) k (Nat.le_of_not_lt hge)
              simp [this] at hne
            exact ih _ _ _ _ hproc hcancel (by simp only [List.length_cons]; omega)


/-- C23, as stated, fails for an entry whose process has exited: when
`BackendIdGetProc` returns NULL for an entry of the conflict list the loop
takes the `continue` without advancing, so that
`cancel_conflicting_transactions` is still running after any number of
iterations. Without such an entry the claim holds: when every entry keeps its
process and is a non-writer or a writer, the clock passes the end of the grace
period and `CancelVirtualTransaction` reports the writers gone from some
iteration `bound` on, the routine returns within `bound + length` iterations,
past every entry. -/
theorem C23_exited_backend_never_passed :
    (∀ (w : ProcArray) (conflict : List VirtualTransactionId) (c : VirtualTransactionId),
      c ∈ conflict → (∀ k, w.BackendIdGetProc k c.backendId = none) →
      ∀ fuel, cancel_conflicting_transactions w conflict fuel = none) ∧
    (∀ (w : ProcArray) (conflict : List VirtualTransactionId) (bound : Nat),
      (∀ k, bound ≤ k →
        w.GetCurrentTimestamp 0 + w.bdr_ddl_grace_timeout * 1000 ≤
          w.GetCurrentTimestamp (k + 1)) →
      (∀ c ∈ conflict, ∀ j, ∃ p, w.BackendIdGetProc j c.backendId = some p) →
      (∀ c ∈ conflict, ∀ j, bound ≤ j → w.CancelVirtualTransaction j c = 0) →
      ∀ fuel, bound + conflict.length ≤ fuel →
        ∃ events, cancel_conflicting_transactions w conflict fuel = some events) := by
  constructor
  · intro w conflict c hc hgone fuel
    exact cancel_loop_spins w _ c hgone fuel 0 conflict 1000 [] hc
  · intro w conflict bound hclock hproc hcancel fuel hf
    exact cancel_loop_ends w _ bound hclock fuel 0 conflict 1000 [] hproc hcancel
      (by omega)

theorem C23_exited_backend_never_passed_witness :
    (∀ k, exampleProcArray.BackendIdGetProc k 3 = none) ∧
    cancel_conflicting_transactions exampleProcArray
      [⟨1, 1⟩, ⟨3, 1⟩, ⟨2, 1⟩] 1000 = none ∧
    cancel_conflicting_transactions exampleProcArray [⟨3, 1⟩] 1000000 = none ∧
    cancel_conflicting_transactions exampleProcArray [⟨1, 1⟩, ⟨2, 1⟩] 4 =
      some [.pg_usleep 1000, .signal ⟨2, 1⟩ 4242, .pg_usleep 1000] :=
  ⟨fun _ => rfl,
    C23_exited_backend_never_passed.1 exampleProcArray [⟨1, 1⟩, ⟨3, 1⟩, ⟨2, 1⟩] ⟨3, 1⟩
      (by decide) (fun _ => rfl) 1000,
    C23_exited_backend_never_passed.1 exampleProcArray [⟨3, 1⟩] ⟨3, 1⟩
      (by decide) (fun _ => rfl) 1000000,
    by decide⟩

/-! ## C24: one confirmation per replay drain -/

/-- After `bdr_send_confirm_lock` no replay confirmation is awaited. -/
theorem send_confirm_resets (env : Env) (node : Node) :
    (bdr_send_confirm_lock env node).node.db.replay_confirmed = 0 ∧
    (bdr_send_confirm_lock env node).node.db.replay_confirmed_lsn = InvalidXLogRecPtr ∧
    (confirmsLogged (bdr_send_confirm_lock env node).effects).length ≤ 1 := by
  unfold bdr_send_confirm_lock
  simp only
  split
  · exact ⟨rfl, rfl, by simp [confirmsLogged]⟩
  · exact ⟨rfl, rfl, by simp [confirmsLogged, bdr_prepare_message]⟩
  · exact ⟨rfl, rfl, by simp [confirmsLogged]⟩

/-- Replay confirmations for another position than the one recorded leave
the node as it is, however many are handled and by whichever workers. -/
theorem replayConfirmsHandled_other (lsn : XLogRecPtr) (workers : List (Env × BdrNodeId)) :
    ∀ node : Node, node.db.replay_confirmed_lsn ≠ lsn →
      replayConfirmsHandled lsn node workers = (node, []) := by
  induction workers with
  | nil => intro node _; rfl
  | cons w rest ih =>
    intro node hl
    obtain ⟨env, origin⟩ := w
    obtain ⟨h1, h2⟩ := process_replay_confirm_other env node origin lsn hl
    simp only [replayConfirmsHandled, h1, h2, ih node hl, List.append_nil]

/-- C24: at most one lock confirmation is logged per replay drain. When the
replay confirmation that completes the count for a valid position `L` is
handled, `bdr_send_confirm_lock` runs: afterwards `replay_confirmed` is 0 and
`replay_confirmed_lsn` is invalid, at most one confirmation has been logged,
and any number of further replay confirmations for `L`, handled by any
workers, log nothing and change neither the slot nor the lock table. -/
theorem C24_one_confirm_per_drain (env : Env) (node : Node) (origin : BdrNodeId)
    (L : XLogRecPtr) (further : List (Env × BdrNodeId))
    (hL : L ≠ InvalidXLogRecPtr)
    (ho : check_is_my_origin_node env origin = true) (hc : Configured env node.db)
    (hl : node.db.replay_confirmed_lsn = L)
    (hq : node.db.nnodes ≤ node.db.replay_confirmed + 1) :
    (bdr_process_replay_confirm env node origin L).node.db.replay_confirmed = 0 ∧
    (bdr_process_replay_confirm env node origin L).node.db.replay_confirmed_lsn =
      InvalidXLogRecPtr ∧
    replayConfirmsHandled L (bdr_process_replay_confirm env node origin L).node further =
      ((bdr_process_replay_confirm env node origin L).node, []) ∧
    (confirmsLogged
      ((bdr_process_replay_confirm env node origin L).effects ++
        (replayConfirmsHandled L (bdr_process_replay_confirm env node origin L).node
          further).2)).length ≤ 1 := by
  have e := (process_replay_confirm_cases env node origin L ho hc).2.2 hl hq
  obtain ⟨h1, h2, h3⟩ := send_confirm_resets env
    { node with db := { node.db with replay_confirmed := node.db.replay_confirmed + 1 } }
  rw [← e] at h1 h2 h3
  have hne : (bdr_process_replay_confirm env node origin L).node.db.replay_confirmed_lsn
      ≠ L := by
    rw [h2]; exact fun h => hL h.symm
  have hf := replayConfirmsHandled_other L further _ hne
  refine ⟨h1, h2, hf, ?_⟩
  rw [hf, List.append_nil]
  exact h3

theorem C24_one_confirm_per_drain_witness :
    (4096 : XLogRecPtr) ≠ InvalidXLogRecPtr ∧
    exampleDraining.db.replay_confirmed_lsn = 4096 ∧
    confirmsLogged (bdr_process_replay_confirm (exampleEnv 0 2 true) exampleDraining
      (exampleNodeId 1) 4096).effects = [(exampleNodeId 1, .BDR_LOCK_WRITE)] ∧
    replayConfirmsHandled 4096
      (bdr_process_replay_confirm (exampleEnv 0 2 true) exampleDraining
        (exampleNodeId 1) 4096).node
      [(exampleEnv 0 2 true, exampleNodeId 1), (exampleEnv 0 2 true, exampleNodeId 1)] =
      (exampleWriteHeld, []) := by
  have h := (C24_one_confirm_per_drain (exampleEnv 0 2 true) exampleDraining
    (exampleNodeId 1) 4096
    [(exampleEnv 0 2 true, exampleNodeId 1), (exampleEnv 0 2 true, exampleNodeId 1)]
    (by decide) (by decide) (by decide) rfl (by decide)).2.2.1
  refine ⟨by decide, rfl, by decide, ?_⟩
  rw [h]
  decide

end BdrLocks
